import Mathlib

/-!
# Helen: lobby handlers, broadcaster, session registry, serveme contexts

A shallow embedding of the socket handlers of the lobby state machine
(`controllers/socket/handler/lobby.go`), of the broadcaster
(`controllers/broadcaster/broadcaster.go`), of the session registry
(`controllers/socket/sessions/steamid.go`) and of the choice of the serveme
context (`helpers/serveme.go`).

Conventions of the embedding.

* The handlers talk to packages that are not part of the sources at hand
  (`models`, `hooks`, `chelpers`, `db`, `servemetf`, the clock).  Their state is
  an abstract world `σ`, and their behaviour is a parameter `Env σ`.  What a call
  returns is a query on the world in which the call is made; a call that may
  change the world is recorded as an `Event`, and the world moves by `Env.apply`.
* A handler starts from a world with an empty trace and returns its reply
  together with the final world and the trace of the calls it made, in order.
* A `*models.Lobby` is the struct value the handler holds.  The handler changes
  its copy by assignment, by `Save` (the copy becomes what `Env.Save` returns)
  and by `SetState` (`Lobby.setState`); other collaborators read it.
* Go `uint` is `Nat`, `int`/`int64` is `Int` (the conversions of lobby ids do
  not overflow), `error` is a message, a nil pointer is `none`.  `Lock`/`Unlock`
  are recorded as events; logging is left out.
* The two unbounded loops of `LobbyCreate` take fuel; `none` is a run that the
  fuel did not let finish.
* The broadcaster and the session registry have their own state and no
  collaborators; their conventions are given where they are defined.
-/

namespace Helen

/-- Modelled from the spec: the lobby states of package `models` (absent from the
sources), `Initializing → Waiting ⇄ ReadyingUp → InProgress → Ended`. -/
inductive LobbyState
  | LobbyStateInitializing
  | LobbyStateWaiting
  | LobbyStateReadyingUp
  | LobbyStateInProgress
  | LobbyStateEnded
  deriving DecidableEq

/-- Modelled from the spec: the lobby types of package `models` (absent from the
sources): Debug, Sixes, Highlander, Ultiduo, Bball, Fours. -/
inductive LobbyType
  | LobbyTypeDebug
  | LobbyTypeSixes
  | LobbyTypeHighlander
  | LobbyTypeUltiduo
  | LobbyTypeBball
  | LobbyTypeFours
  deriving DecidableEq

/-- Modelled from the spec: the player roles of package `helpers` (absent from
the sources): Player, Moderator, Admin. -/
inductive Role
  | RolePlayer
  | RoleMod
  | RoleAdmin
  deriving DecidableEq

/-- Modelled from the spec: the ban kinds of package `models` (absent from the
sources): CreateLobby, JoinLobby, JoinMumbleLobby. -/
inductive PlayerBanType
  | PlayerBanCreate
  | PlayerBanJoin
  | PlayerBanJoinMumble
  deriving DecidableEq

/-- Modelled from the spec: the twitch restriction of a lobby (package `models`,
absent from the sources); the zero value is no restriction. -/
inductive TwitchRestriction
  | TwitchNone
  | TwitchSubscribers
  | TwitchFollowers
  deriving DecidableEq

open LobbyState LobbyType Role PlayerBanType TwitchRestriction

/-- The fields of `models.Lobby` that the handlers read or write. -/
structure Lobby where
  ID : Nat
  Type_ : LobbyType
  State : LobbyState
  MapName : String
  Mumble : Bool
  CreatedBySteamID : String
  ReadyUpTimestamp : Int
  TwitchChannel : String
  TwitchRestriction : TwitchRestriction
  RegionCode : String
  RegionName : String
  ServemeID : Nat
  PlayerWhitelist : String
  deriving DecidableEq

/-- The fields of `models.Player` that the handlers read. -/
structure Player where
  SteamID : String
  Role : Role
  TwitchName : String
  deriving DecidableEq

/-- A `wsevent.Client`: its session id and the `steam_id` claim of its token. -/
structure Client where
  ID : String
  steam_id : String
  deriving DecidableEq

/-- A `models.Requirement` row as the handlers fill it. -/
structure SlotRequirement where
  LobbyID : Nat
  Slot : Int
  Hours : Int
  Lobbies : Int
  deriving DecidableEq

/-- A `models.Requirement` row as `LobbySetRequirement` reads and writes it.  The
reliability is a `float64`; a value that parsed without error is finite, and is
given as the rational it stands for. -/
structure StoredRequirement where
  LobbyID : Nat
  Slot : Int
  Hours : Int
  Lobbies : Int
  Reliability : ℚ
  deriving DecidableEq

/-- A `servemetf.Reservation` as the handlers fill and read it. -/
structure Reservation where
  ID : Nat
  StartsAt : String
  EndsAt : String
  ServerID : Nat
  WhitelistID : Nat
  RCON : String
  Password : String
  IPAndPort : String
  HasErrors : Bool
  deriving DecidableEq

/-- A `models.ServerRecord` as `LobbyCreate` fills it. -/
structure ServerRecord where
  Host : String
  RconPassword : String
  ServerPassword : String
  deriving DecidableEq

/-- The three `servemetf.Context` values of `helpers/serveme.go`. -/
inductive ServemeContext
  | servemeNA
  | servemeEU
  | servemeAU
  deriving DecidableEq

/-- The receiver after `SetState`: a setter, the handler's copy of the struct
has the new state afterwards. -/
def Lobby.setState (lob : Lobby) (st : LobbyState) : Lobby :=
  { lob with State := st }

/-- A call of a handler into a collaborator that may change the world. -/
inductive Event
  | AfterLobbyLeave (lobby : Option Lobby) (player : Player)
  | AfterLobbyJoin (so : Client) (lobby : Lobby) (player : Player)
  | AddPlayer (lobby : Lobby) (player : Player) (slot : Int) (password : String)
  | Lock (lobby : Lobby)
  | Unlock (lobby : Lobby)
  | Save (lobby : Lobby)
  | GlobalWaitAdd (n : Nat)
  | GlobalWaitDone
  | AfterFunc (nanos : Int) (lobby : Lobby)
  | SendMessageToRoom (room : String) (event : String) (timeout : Int)
  | BroadcastLobbyList
  | BroadcastLobby (lobby : Option Lobby)
  | EmitJSON (so : Client) (event : String) (lobby : Lobby) (player : Player) (slot : Int)
  | SetState (lobby : Lobby) (state : LobbyState)
  | RemoveUnreadyPlayers (lobby : Lobby) (spec : Bool)
  | UnreadyAllPlayers (lobby : Lobby)
  | RemovePlayer (lobby : Lobby) (player : Player)
  | AddSpectator (lobby : Lobby) (player : Player)
  | BanPlayer (lobby : Lobby) (player : Player)
  | Close (lobby : Lobby) (rpc : Bool) (matchEnded : Bool)
  | SendNotification (text : String) (lobbyID : Int)
  | ReExecConfig (lobbyID : Nat) (changeMap : Bool)
  | RandRead
  | ContextCreate (ctx : ServemeContext) (r : Reservation) (steamID : String)
  | ContextDelete (ctx : ServemeContext) (id : Nat) (steamID : String)
  | ContextStatus (ctx : ServemeContext) (id : Nat) (steamID : String)
  | Sleep (nanos : Int)
  | CreateLock (lobby : Lobby)
  | Delete (lobby : Lobby)
  | ServemeCheck (lobby : Lobby) (ctx : ServemeContext)
  | SetupServer (lobby : Lobby)
  | RequirementSave (req : SlotRequirement)
  | StoredRequirementSave (req : StoredRequirement)
  | BotMessageSend (text : String) (room : Int)
  deriving DecidableEq

/-- What a handler returns as `interface{}`: an error value, the nil interface,
`emptySuccess`, or `newResponse` of the id of a created lobby; `panic` stands
for a nil pointer dereference, after which the handler does not return. -/
inductive Response
  | error (msg : String)
  | nil
  | panic
  | emptySuccess
  | newResponse (id : Nat)
  deriving DecidableEq

/-- A Go `error` returned through `interface{}`. -/
def Response.ofError : Option String → Response
  | some e => Response.error e
  | none => Response.nil

/-- Whether a reply is an error value. -/
def Response.isError : Response → Bool
  | Response.error _ => true
  | _ => false

/-- The collaborators of the handlers over a world `σ`.  Fields named after a
source function give what that call returns in the given world; `apply` gives
the world after a call. -/
structure Env (σ : Type) where
  apply : Event → σ → σ
  GetPlayer : σ → Client → Player
  GetPlayerBySteamID : σ → String → Except String Player
  GetLobbyByID : σ → Nat → Except String Lobby
  GetLobbyByIDServer : σ → Nat → Except String Lobby
  IsBannedWithTime : σ → Player → PlayerBanType → Bool × Int
  GetActiveBanReason : σ → Player → PlayerBanType → String
  FormatRFC822 : Int → String
  GetLobbyID : σ → Player → Bool → Nat × Option String
  LobbyGetPlayerSlot : LobbyType → String → String → Except String Int
  AddPlayer : σ → Lobby → Player → Int → String → Option String
  IsFull : σ → Lobby → Bool
  Save : σ → Lobby → Lobby
  GetLobbyRoom : Nat → String
  Preload : σ → Lobby → Lobby
  CurrentState : σ → Lobby → LobbyState
  GetUnreadyPlayers : σ → Lobby → List Player
  GetPlayerSlot : σ → Lobby → Player → Except String Int
  RemovePlayer : σ → Lobby → Player → Option String
  AddSpectator : σ → Lobby → Player → Option String
  IsSpectatingID : σ → Player → Nat → Bool
  Alias : σ → Player → String
  ReExecConfig : σ → Nat → Bool → Option String
  Now : σ → Int
  GetIPAddr : Client → String
  GetRegion : String → String × String
  GeoIP : Bool
  HasCreatedLobby : σ → Player → Bool
  reSteamGroup : String → Option String
  TimeParse : String → Except String Int
  TimeFormat : Int → String
  RandString : σ → String
  ContextCreate : σ → ServemeContext → Reservation → String → Reservation × Option String
  ContextDelete : σ → ServemeContext → Nat → String → Option String
  ContextStatus : σ → ServemeContext → Nat → String → String × Option String
  ParseUint : String → Except String Nat
  GetStoredServer : σ → Nat → Except String (String × String)
  ServerRecordCount : σ → String → Int
  NewLobby : String → LobbyType → String → ServerRecord → String → Bool → String → String → Lobby
  MapRegionFormatExists : σ → String → String → LobbyType → Bool
  SetupServer : σ → Lobby → Option String
  NumberOfClassesMap : LobbyType → Int
  LobbyTypeZero : LobbyType
  GetSlotRequirement : σ → Lobby → Int → StoredRequirement × Option String
  Int64 : String → Int × Option String
  Float64 : String → ℚ × Option String
  ResolveIPAddr : String → Except String String

/-- The world together with the calls made so far. -/
structure St (σ : Type) where
  db : σ
  trace : List Event

variable {σ : Type}

/-- Make a call: the world moves and the call is appended to the trace. -/
def St.call (M : Env σ) (s : St σ) (e : Event) : St σ :=
  ⟨M.apply e s.db, s.trace ++ [e]⟩

/-- The initial state of a handler run. -/
def St.init (db : σ) : St σ := ⟨db, []⟩

/-- The three results of `removePlayerFromLobby`. -/
structure RemoveResult where
  lob : Option Lobby
  player : Option Player
  err : Option String
  deriving DecidableEq

/-- `removePlayerFromLobby` (lobby.go 563-591). -/
def removePlayerFromLobby (M : Env σ) (s : St σ) (lobbyId : Nat) (steamId : String) :
    RemoveResult × St σ :=
  match M.GetPlayerBySteamID s.db steamId with
  | Except.error tperr => (⟨none, none, some tperr⟩, s)
  | Except.ok player =>
    match M.GetLobbyByID s.db lobbyId with
    | Except.error tperr => (⟨none, none, some tperr⟩, s)
    | Except.ok lob =>
      if lob.State = LobbyStateInProgress then
        (⟨some lob, some player, some "Lobby is in progress."⟩, s)
      else if lob.State = LobbyStateEnded then
        (⟨some lob, some player, some "Lobby has closed."⟩, s)
      else
        match M.GetPlayerSlot s.db lob player with
        | Except.error _ => (⟨some lob, some player, some "Player not playing"⟩, s)
        | Except.ok _ =>
          let err := M.RemovePlayer s.db lob player
          let s1 := s.call M (Event.RemovePlayer lob player)
          match err with
          | some e => (⟨some lob, some player, some e⟩, s1)
          | none =>
            let err2 := M.AddSpectator s1.db lob player
            let s2 := s1.call M (Event.AddSpectator lob player)
            (⟨some lob, some player, err2⟩, s2)

/-- `playerCanKick` (lobby.go 593-607). -/
def playerCanKick (M : Env σ) (db : σ) (lobbyId : Nat) (steamId : String) :
    Bool × Option String :=
  match M.GetLobbyByID db lobbyId with
  | Except.error tperr => (false, some tperr)
  | Except.ok lob =>
    match M.GetPlayerBySteamID db steamId with
    | Except.error tperr2 => (false, some tperr2)
    | Except.ok player =>
      if steamId ≠ lob.CreatedBySteamID ∧ player.Role ≠ RoleAdmin then
        (false, some "Not authorized to kick players")
      else (true, none)

/-- `Lobby.LobbyKick` (lobby.go 609-635). -/
def LobbyKick (M : Env σ) (db : σ) (so : Client) (Id : Nat) (Steamid : String) :
    Response × St σ :=
  let s := St.init db
  let steamId := Steamid
  let selfSteamId := so.steam_id
  if steamId = selfSteamId then (Response.error "Player can\x27t kick himself.", s)
  else
    match playerCanKick M s.db Id selfSteamId with
    | (false, tperr) => (Response.ofError tperr, s)
    | (true, _) =>
      match removePlayerFromLobby M s Id steamId with
      | (⟨_, _, some tperr⟩, s1) => (Response.error tperr, s1)
      | (⟨lob, some player, none⟩, s1) =>
        (Response.emptySuccess, s1.call M (Event.AfterLobbyLeave lob player))
      | (⟨_, none, none⟩, s1) => (Response.nil, s1)

/-- `Lobby.LobbyBan` (lobby.go 637-665). -/
def LobbyBan (M : Env σ) (db : σ) (so : Client) (Id : Nat) (Steamid : String) :
    Response × St σ :=
  let s := St.init db
  let steamId := Steamid
  let selfSteamId := so.steam_id
  if steamId = selfSteamId then (Response.error "Player can\x27t kick himself.", s)
  else
    match playerCanKick M s.db Id selfSteamId with
    | (false, tperr) => (Response.ofError tperr, s)
    | (true, _) =>
      match removePlayerFromLobby M s Id steamId with
      | (⟨_, _, some tperr⟩, s1) => (Response.error tperr, s1)
      | (⟨some lob, some player, none⟩, s1) =>
        let s2 := s1.call M (Event.BanPlayer lob player)
        (Response.emptySuccess, s2.call M (Event.AfterLobbyLeave (some lob) player))
      | (⟨_, _, none⟩, s1) => (Response.nil, s1)

/-- `Lobby.LobbyLeave` (lobby.go 667-681). -/
def LobbyLeave (M : Env σ) (db : σ) (so : Client) (Id : Nat) : Response × St σ :=
  let s := St.init db
  let steamId := so.steam_id
  match removePlayerFromLobby M s Id steamId with
  | (⟨_, _, some tperr⟩, s1) => (Response.error tperr, s1)
  | (⟨lob, some player, none⟩, s1) =>
    (Response.emptySuccess, s1.call M (Event.AfterLobbyLeave lob player))
  | (⟨_, none, none⟩, s1) => (Response.nil, s1)

/-- The arguments of `LobbyJoin`. -/
structure JoinArgs where
  Id : Nat
  Class : String
  Team : String
  Password : String
  deriving DecidableEq

/-- One second as a `time.Duration` (nanoseconds). -/
def Second : Int := 1000000000

/-- One minute as a `time.Duration`. -/
def Minute : Int := 60 * Second

/-- The method `Time.Unix`: seconds since the epoch of a time given in nanoseconds. -/
def Unix (t : Int) : Int := t / Second

/-- Whether the player is banned, the first result of `IsBannedWithTime`. -/
def banned (M : Env σ) (db : σ) (player : Player) (t : PlayerBanType) : Bool :=
  (M.IsBannedWithTime db player t).1

/-- The `fmt.Errorf` of a ban: the given head, the expiry as RFC822, the reason. -/
def banError (M : Env σ) (db : σ) (player : Player) (t : PlayerBanType) (head : String) :
    Response :=
  Response.error (head ++ M.FormatRFC822 (M.IsBannedWithTime db player t).2 ++ " ("
    ++ M.GetActiveBanReason db player t ++ ")")

/-- `sameLobby` of `LobbyJoin` (lobby.go 437-441). -/
def sameLobby (M : Env σ) (db : σ) (player : Player) (Id : Nat) : Bool :=
  decide ((M.GetLobbyID db player false).2 = none ∧ (M.GetLobbyID db player false).1 = Id)

/-- The conditional leave hook of `LobbyJoin` (lobby.go 448-451). -/
def leavePrevious (M : Env σ) (s : St σ) (player : Player) (Id : Nat) : St σ :=
  let prevId := (M.GetLobbyID s.db player false).1
  if prevId ≠ 0 ∧ sameLobby M s.db player Id = false then
    s.call M (Event.AfterLobbyLeave (M.GetLobbyByID s.db prevId).toOption player)
  else s

/-- The lobby as written by the ready-up block of `LobbyJoin` (lobby.go 466-467). -/
def readyingUp (lob : Lobby) (now : Int) : Lobby :=
  { lob with State := LobbyStateReadyingUp, ReadyUpTimestamp := Unix now + 30 }

/-- The calls of the ready-up block of `LobbyJoin` after the state and deadline
are written (lobby.go 468-497): save, arm the deadline callback, tell the
private room, rebroadcast the list. -/
def startReadyUp (M : Env σ) (s : St σ) (lob : Lobby) : Lobby × St σ :=
  let lob1 := readyingUp lob (M.Now s.db)
  let lob2 := M.Save s.db lob1
  let s1 := s.call M (Event.Save lob1)
  let s2 := s1.call M (Event.GlobalWaitAdd 1)
  let s3 := s2.call M (Event.AfterFunc (Second * 30) lob2)
  let room := M.GetLobbyRoom lob2.ID ++ "_private"
  let s4 := s3.call M (Event.SendMessageToRoom room "lobbyReadyUp" 30)
  (lob2, s4.call M Event.BroadcastLobbyList)

/-- The tail of `LobbyJoin` after the join hook (lobby.go 463-506). -/
def afterJoin (M : Env σ) (s : St σ) (so : Client) (lob : Lobby) (player : Player)
    (slot : Int) : Response × St σ :=
  let s1 := s.call M (Event.Lock lob)
  let r :=
    if M.IsFull s1.db lob = true ∧ lob.State ≠ LobbyStateInProgress
        ∧ lob.State ≠ LobbyStateReadyingUp then
      startReadyUp M s1 lob
    else (lob, s1)
  let s2 := r.2.call M (Event.Unlock r.1)
  if r.1.State = LobbyStateInProgress then
    (Response.emptySuccess,
      s2.call M (Event.EmitJSON so "lobbyStart" (M.Preload s2.db r.1) player slot))
  else (Response.emptySuccess, s2)

/-- `Lobby.LobbyJoin` (lobby.go 402-507). -/
def LobbyJoin (M : Env σ) (db : σ) (so : Client) (args : JoinArgs) : Response × St σ :=
  let s := St.init db
  let player := M.GetPlayer s.db so
  if banned M s.db player PlayerBanJoin then
    (banError M s.db player PlayerBanJoin "You have been banned from joining lobbies till ", s)
  else
    match M.GetLobbyByID s.db args.Id with
    | Except.error tperr => (Response.error tperr, s)
    | Except.ok lob =>
      if lob.Mumble = true ∧ banned M s.db player PlayerBanJoinMumble = true then
        (banError M s.db player PlayerBanJoinMumble
          "You have been banned from joining Mumble lobbies till ", s)
      else if lob.State = LobbyStateEnded then
        (Response.error "Cannot join a closed lobby.", s)
      else if lob.State = LobbyStateInitializing then
        (Response.error "Lobby is being setup right now.", s)
      else
        let same := sameLobby M s.db player args.Id
        match M.LobbyGetPlayerSlot lob.Type_ args.Team args.Class with
        | Except.error tperr => (Response.error tperr, s)
        | Except.ok slot =>
          let s1 := leavePrevious M s player args.Id
          let tperr := M.AddPlayer s1.db lob player slot args.Password
          let s2 := s1.call M (Event.AddPlayer lob player slot args.Password)
          match tperr with
          | some e => (Response.error e, s2)
          | none =>
            let s3 := if same = false then s2.call M (Event.AfterLobbyJoin so lob player) else s2
            afterJoin M s3 so lob player slot

/-- `removeUnreadyPlayers` (lobby.go 509-518). -/
def removeUnreadyPlayers (M : Env σ) (s : St σ) (lobby : Lobby) : St σ :=
  let players := M.GetUnreadyPlayers s.db lobby
  let s1 := s.call M (Event.RemoveUnreadyPlayers lobby true)
  players.foldl (fun st player => st.call M (Event.AfterLobbyLeave (some lobby) player)) s1

/-- The callback that `LobbyJoin` hands to `time.AfterFunc` (lobby.go 471-489),
run on the world `db` in which the timer fires, for the captured lobby `lob`. -/
def readyUpTimeout (M : Env σ) (db : σ) (lob : Lobby) : St σ :=
  let s := St.init db
  let state := M.CurrentState s.db lob
  if state ≠ LobbyStateWaiting ∧ state ≠ LobbyStateInProgress ∧ state ≠ LobbyStateEnded then
    let s1 := s.call M (Event.SetState lob LobbyStateWaiting)
    let lob1 := lob.setState LobbyStateWaiting
    let s2 := removeUnreadyPlayers M s1 lob1
    let s3 := s2.call M (Event.UnreadyAllPlayers lob1)
    let lob2 := (M.GetLobbyByID s3.db lob1.ID).toOption
    let s4 := s3.call M (Event.BroadcastLobby lob2)
    s4.call M Event.GlobalWaitDone
  else s.call M Event.GlobalWaitDone

/-- `Lobby.LobbyClose` (lobby.go 375-400). -/
def LobbyClose (M : Env σ) (db : σ) (so : Client) (Id : Nat) : Response × St σ :=
  let s := St.init db
  let player := M.GetPlayer s.db so
  match M.GetLobbyByIDServer s.db Id with
  | Except.error tperr => (Response.error tperr, s)
  | Except.ok lob =>
    if player.SteamID ≠ lob.CreatedBySteamID ∧ player.Role ≠ RoleAdmin then
      (Response.error "Player not authorized to close lobby.", s)
    else if lob.State = LobbyStateEnded then
      (Response.error "Lobby already closed.", s)
    else
      let s1 := s.call M (Event.Close lob true false)
      let notify := "Lobby closed by " ++ M.Alias s1.db player
      (Response.emptySuccess, s1.call M (Event.SendNotification notify (Int.ofNat lob.ID)))

/-- `Lobby.LobbyServerReset` (lobby.go 317-341).  The lobby is read before the
lookup error is looked at: on a failed lookup the pointer is nil. -/
def LobbyServerReset (M : Env σ) (db : σ) (so : Client) (ID : Nat) : Response × St σ :=
  let s := St.init db
  let player := M.GetPlayer s.db so
  match M.GetLobbyByID s.db ID with
  | Except.error _ => (Response.panic, s)
  | Except.ok lobby =>
    if player.SteamID ≠ lobby.CreatedBySteamID
        ∧ (player.Role ≠ RoleAdmin ∧ player.Role ≠ RoleMod) then
      (Response.error "You are not authorized to reset server.", s)
    else if lobby.State = LobbyStateEnded then
      (Response.error "Lobby has ended", s)
    else
      let err := M.ReExecConfig s.db lobby.ID false
      let s1 := s.call M (Event.ReExecConfig lobby.ID false)
      match err with
      | some e => (Response.error e, s1)
      | none => (Response.emptySuccess, s1)

/-- `GetServemeContextIP` (helpers/serveme.go 17-37) on the continent code that
`GetRegion` resolved for the address. -/
def GetServemeContextIP (M : Env σ) (ipaddr : String) : ServemeContext :=
  let continent := (M.GetRegion ipaddr).1
  if continent = "NA" then ServemeContext.servemeNA
  else if continent = "SA" then ServemeContext.servemeNA
  else if continent = "AS" then ServemeContext.servemeEU
  else if continent = "EU" then ServemeContext.servemeEU
  else if continent = "OC" then ServemeContext.servemeAU
  else ServemeContext.servemeEU

/-- The `Host` of the three contexts (helpers/serveme.go 11-15). -/
def ServemeContext.Host : ServemeContext → String
  | ServemeContext.servemeNA => "na.serveme.tf"
  | ServemeContext.servemeEU => "serveme.tf"
  | ServemeContext.servemeAU => "au.serveme.tf"

/-- `GetServemeContext` (helpers/serveme.go 39-47): the host part of the address
is resolved, and the resolved address looked up. -/
def GetServemeContext (M : Env σ) (addrStr : String) : ServemeContext :=
  let arr := addrStr.splitOn ":"
  match M.ResolveIPAddr (arr.headD "") with
  | Except.error _ => ServemeContext.servemeEU
  | Except.ok addr => GetServemeContextIP M addr

/-- `playermap` (lobby.go 40-47). -/
def playermap : String → Option LobbyType
  | "debug" => some LobbyTypeDebug
  | "6s" => some LobbyTypeSixes
  | "highlander" => some LobbyTypeHighlander
  | "ultiduo" => some LobbyTypeUltiduo
  | "bball" => some LobbyTypeBball
  | "4v4" => some LobbyTypeFours
  | _ => none

/-- `servemeServer` (lobby.go 60-64). -/
structure servemeServer where
  StartsAt : String
  EndsAt : String
  ServerID : Nat
  deriving DecidableEq

/-- `Requirement` with its `Restriction` (lobby.go 50-58). -/
structure Requirement where
  Hours : Int
  Lobbies : Int
  Red : Bool
  Blu : Bool
  deriving DecidableEq

/-- The `requirements` argument of `LobbyCreate`; the classes in the order the
map is ranged over. -/
structure Requirements where
  Classes : List (String × Requirement)
  General : Requirement
  deriving DecidableEq

/-- The arguments of `LobbyCreate` (lobby.go 87-110).  The pointers the handler
tests for nil are optional. -/
structure CreateArgs where
  Map : String
  Type_ : String
  League : String
  ServerType : String
  Serveme : Option servemeServer
  Server : Option String
  RconPwd : Option String
  WhitelistID : String
  Mumble : Bool
  Password : String
  SteamGroupWhitelist : String
  TwitchWhitelistSubscribers : Bool
  TwitchWhitelistFollowers : Bool
  Requirements : Option Requirements
  deriving DecidableEq

/-- `newRequirement` (lobby.go 66-80). -/
def newRequirement (M : Env σ) (s : St σ) (team class_ : String) (requirement : Requirement)
    (lobby : Lobby) : Option String × St σ :=
  match M.LobbyGetPlayerSlot lobby.Type_ team class_ with
  | Except.error err => (some err, s)
  | Except.ok slot =>
    (none, s.call M
      (Event.RequirementSave ⟨lobby.ID, slot, requirement.Hours, requirement.Lobbies⟩))

/-- The zero value of `servemetf.Reservation`. -/
def Reservation.zero : Reservation := ⟨0, "", "", 0, 0, "", "", "", false⟩

/-- What the server branches of `LobbyCreate` leave behind: the address and RCON
password written through the argument pointers, the reservation and context. -/
structure Resolved where
  Server : String
  RconPwd : String
  reservation : Reservation
  context : Option ServemeContext
  deriving DecidableEq

/-- The server branches of `LobbyCreate` (lobby.go 136-199): serveme, stored
server, or a server given by the caller. -/
def resolveServer (M : Env σ) (s : St σ) (so : Client) (args : CreateArgs) :
    Except Response Resolved × St σ :=
  if args.ServerType = "serveme" then
    match args.Serveme with
    | none => (Except.error (Response.error "No serveme info given."), s)
    | some sv =>
      match M.TimeParse sv.StartsAt with
      | Except.error err => (Except.error (Response.error err), s)
      | Except.ok start =>
        match M.TimeParse sv.EndsAt with
        | Except.error err => (Except.error (Response.error err), s)
        | Except.ok end_ =>
          let rcon := M.RandString s.db
          let s1 := s.call M Event.RandRead
          match args.RconPwd with
          | none => (Except.error Response.panic, s1)
          | some _ =>
            let reservation : Reservation :=
              { ID := 0, StartsAt := M.TimeFormat start, EndsAt := M.TimeFormat end_,
                ServerID := sv.ServerID, WhitelistID := 1, RCON := rcon,
                Password := "foobar", IPAndPort := "", HasErrors := false }
            let context := GetServemeContextIP M (M.GetIPAddr so)
            let r := M.ContextCreate s1.db context reservation so.steam_id
            let s2 := s1.call M (Event.ContextCreate context reservation so.steam_id)
            if r.2 ≠ none ∨ r.1.HasErrors = true then
              (Except.error (Response.error "Couldn\x27t get serveme reservation"), s2)
            else
              match args.Server with
              | none => (Except.error Response.panic, s2)
              | some _ => (Except.ok ⟨r.1.IPAndPort, rcon, r.1, some context⟩, s2)
  else if args.ServerType = "storedServer" then
    match args.Server with
    | none => (Except.error Response.panic, s)
    | some server =>
      if server = "" then (Except.error (Response.error "No server ID given"), s)
      else
        match M.ParseUint server with
        | Except.error err => (Except.error (Response.error err), s)
        | Except.ok id =>
          match M.GetStoredServer s.db id with
          | Except.error err => (Except.error (Response.error err), s)
          | Except.ok stored =>
            match args.RconPwd with
            | none => (Except.error Response.panic, s)
            | some _ => (Except.ok ⟨stored.1, stored.2, Reservation.zero, none⟩, s)
  else
    match args.RconPwd with
    | none => (Except.error (Response.error "RCON Password cannot be empty"), s)
    | some rcon =>
      if rcon = "" then (Except.error (Response.error "RCON Password cannot be empty"), s)
      else
        match args.Server with
        | none => (Except.error (Response.error "Server Address cannot be empty"), s)
        | some server =>
          if server = "" then
            (Except.error (Response.error "Server Address cannot be empty"), s)
          else (Except.ok ⟨server, rcon, Reservation.zero, none⟩, s)

/-- The rollback of the reservation in `LobbyCreate` (lobby.go 243-246): the
delete call is repeated until it reports no error.  `none` when the fuel runs
out first. -/
def deleteReservation (M : Env σ) (ctx : ServemeContext) (id : Nat) (steamID : String) :
    Nat → St σ → Option (St σ)
  | 0, _ => none
  | fuel + 1, s =>
    let err := M.ContextDelete s.db ctx id steamID
    let s1 := s.call M (Event.ContextDelete ctx id steamID)
    match err with
    | none => some s1
    | some _ => deleteReservation M ctx id steamID fuel s1

/-- The polling loop of `LobbyCreate` (lobby.go 262-276), started at time `now`.
`true`: the loop was left by `break` on a "ready" status; `false`: the ceiling
was reached, the lobby deleted and the error returned.  `none` when the fuel
runs out first. -/
def pollReservation (M : Env σ) (ctx : ServemeContext) (id : Nat) (steamID : String)
    (now : Int) (lob : Lobby) : Nat → St σ → Option (Bool × St σ)
  | 0, _ => none
  | fuel + 1, s =>
    let status := (M.ContextStatus s.db ctx id steamID).1
    let s1 := s.call M (Event.ContextStatus ctx id steamID)
    if status = "ready" then some (true, s1)
    else
      let s2 := s1.call M (Event.Sleep (10 * Second))
      if M.Now s2.db - now ≥ 3 * Minute then
        some (false, s2.call M (Event.Delete lob))
      else pollReservation M ctx id steamID now lob fuel s2

/-- The requirements block of `LobbyCreate` (lobby.go 289-310). -/
def saveRequirements (M : Env σ) (s : St σ) (reqs : Requirements) (lob : Lobby) : St σ :=
  let s1 := reqs.Classes.foldl (fun st cr =>
    let st1 := if cr.2.Blu = true then (newRequirement M st "blu" cr.1 cr.2 lob).2 else st
    if cr.2.Red = true then (newRequirement M st1 "red" cr.1 cr.2 lob).2 else st1) s
  if reqs.General.Hours ≠ 0 ∨ reqs.General.Lobbies ≠ 0 then
    (List.range (2 * M.NumberOfClassesMap lob.Type_).toNat).foldl (fun st i =>
      st.call M (Event.RequirementSave
        ⟨lob.ID, Int.ofNat i, reqs.General.Hours, reqs.General.Lobbies⟩)) s1
  else s1

/-- `LobbyCreate` from the provisioning on (lobby.go 281-315). -/
def provision (M : Env σ) (s : St σ) (args : CreateArgs) (lob : Lobby) : Response × St σ :=
  let err := M.SetupServer s.db lob
  let s1 := s.call M (Event.SetupServer lob)
  match err with
  | some e => (Response.error e, s1.call M (Event.Delete lob))
  | none =>
    let s2 := s1.call M (Event.SetState lob LobbyStateWaiting)
    let lob1 := lob.setState LobbyStateWaiting
    match args.Requirements with
    | none => (Response.newResponse lob1.ID, s2)
    | some reqs => (Response.newResponse lob1.ID, saveRequirements M s2 reqs lob1)

/-- `LobbyCreate` where the lobby is first stored (lobby.go 252-257): note the
reservation on a serveme lobby, save, create the lock. -/
def saveLobby (M : Env σ) (s : St σ) (args : CreateArgs) (rs : Resolved) (lob : Lobby) :
    Lobby × St σ :=
  let lob1 := if args.ServerType = "serveme" then { lob with ServemeID := rs.reservation.ID }
    else lob
  let lob2 := M.Save s.db lob1
  let s1 := s.call M (Event.Save lob1)
  (lob2, s1.call M (Event.CreateLock lob2))

/-- `LobbyCreate` once the lobby struct is complete (lobby.go 252-315): save,
create the lock, poll the reservation when there is one, provision. -/
def createLobby (M : Env σ) (fuel : Nat) (s : St σ) (args : CreateArgs) (player : Player)
    (rs : Resolved) (lob : Lobby) : Option (Response × St σ) :=
  let lob2 := (saveLobby M s args rs lob).1
  let s2 := (saveLobby M s args rs lob).2
  if args.ServerType = "serveme" then
    match rs.context with
    | none => some (Response.panic, s2)
    | some ctx =>
      match pollReservation M ctx rs.reservation.ID player.SteamID (M.Now s2.db) lob2 fuel s2 with
      | none => none
      | some (false, s3) =>
        some (Response.error "Couldn\x27t get Serveme reservation, try another server.", s3)
      | some (true, s3) => some (provision M (s3.call M (Event.ServemeCheck lob2 ctx)) args lob2)
  else some (provision M s2 args lob2)

/-- `Lobby.LobbyCreate` (lobby.go 87-315).  `none` when one of its two unbounded
loops outlasts the fuel. -/
def LobbyCreate (M : Env σ) (fuel : Nat) (db : σ) (so : Client) (args : CreateArgs) :
    Option (Response × St σ) :=
  let s := St.init db
  let player := M.GetPlayer s.db so
  if banned M s.db player PlayerBanCreate then
    some (banError M s.db player PlayerBanCreate
      "You\x27ve been banned from creating lobbies till ", s)
  else if M.HasCreatedLobby s.db player = true
      ∧ (player.Role ≠ RoleAdmin ∧ player.Role ≠ RoleMod) then
    some (Response.error "You have already created a lobby.", s)
  else if args.SteamGroupWhitelist ≠ "" ∧ M.reSteamGroup args.SteamGroupWhitelist = none then
    some (Response.error "Invalid Steam group URL", s)
  else
    let steamGroup := if args.SteamGroupWhitelist ≠ "" then
      (M.reSteamGroup args.SteamGroupWhitelist).getD "" else ""
    match resolveServer M s so args with
    | (Except.error r, s1) => some (r, s1)
    | (Except.ok rs, s1) =>
      let lobbyType := (playermap args.Type_).getD M.LobbyTypeZero
      if M.ServerRecordCount s1.db rs.Server ≠ 0 then
        some (Response.error "A lobby is already using this server.", s1)
      else
        let serverPwd := M.RandString s1.db
        let s2 := s1.call M Event.RandRead
        let info : ServerRecord := ⟨rs.Server, rs.RconPwd, serverPwd⟩
        let lob := M.NewLobby args.Map lobbyType args.League info args.WhitelistID args.Mumble
          steamGroup args.Password
        if (args.TwitchWhitelistSubscribers = true ∨ args.TwitchWhitelistFollowers = true)
            ∧ player.TwitchName = "" then
          some (Response.error "Please connect your twitch account first.", s2)
        else
          let lob1 :=
            if args.TwitchWhitelistSubscribers = true ∨ args.TwitchWhitelistFollowers = true then
              { lob with
                TwitchChannel := player.TwitchName,
                TwitchRestriction :=
                  if args.TwitchWhitelistFollowers = true then TwitchFollowers
                  else TwitchSubscribers }
            else lob
          let region := M.GetRegion rs.Server
          let lob2 := { lob1 with
            CreatedBySteamID := player.SteamID, RegionCode := region.1, RegionName := region.2 }
          if (lob2.RegionCode = "" ∨ lob2.RegionName = "") ∧ M.GeoIP = true then
            some (Response.error "Couldn\x27t find the region for this server.", s2)
          else if M.MapRegionFormatExists s2.db lob2.MapName lob2.RegionCode lob2.Type_ = true then
            if rs.reservation.ID ≠ 0 then
              match rs.context with
              | none => some (Response.panic, s2)
              | some ctx =>
                match deleteReservation M ctx rs.reservation.ID player.SteamID fuel s2 with
                | none => none
                | some s3 =>
                  some (Response.error
                    "Your region already has a lobby with this map and format.", s3)
            else
              some (Response.error
                "Your region already has a lobby with this map and format.", s2)
          else createLobby M fuel s2 args player rs lob2

/-- `Lobby.LobbyChangeOwner` (lobby.go 712-738). -/
def LobbyChangeOwner (M : Env σ) (db : σ) (so : Client) (ID : Nat) (SteamID : String) :
    Response × St σ :=
  let s := St.init db
  match M.GetLobbyByID s.db ID with
  | Except.error err => (Response.error err, s)
  | Except.ok lobby =>
    let player := M.GetPlayer s.db so
    if lobby.CreatedBySteamID ≠ player.SteamID then
      (Response.error "You aren\x27t authorized to change lobby owner.", s)
    else
      match M.GetPlayerBySteamID s.db SteamID with
      | Except.error err => (Response.error err, s)
      | Except.ok player2 =>
        let lobby1 := { lobby with CreatedBySteamID := player2.SteamID }
        let lobby2 := M.Save s.db lobby1
        let s1 := s.call M (Event.Save lobby1)
        let s2 := s1.call M (Event.BroadcastLobby (some lobby2))
        let s3 := s2.call M Event.BroadcastLobbyList
        let text := "Lobby leader changed to " ++ M.Alias s3.db player2
        (Response.emptySuccess, s3.call M (Event.BotMessageSend text (Int.ofNat ID)))

/-- The arguments of `LobbySetRequirement` (lobby.go 740-746); the value is a
`json.Number`, the text of a number. -/
structure SetRequirementArgs where
  ID : Nat
  Slot : Int
  Type_ : String
  Value : String
  deriving DecidableEq

/-- The end of `LobbySetRequirement` (lobby.go 785-793), with the changed row and
the error of the conversion. -/
def saveRequirement (M : Env σ) (s : St σ) (lobby : Lobby) (req : StoredRequirement)
    (err : Option String) : Response × St σ :=
  match err with
  | some _ => (Response.error "Invalid requirement.", s)
  | none =>
    let s1 := s.call M (Event.StoredRequirementSave req)
    let s2 := s1.call M (Event.BroadcastLobby (some lobby))
    (Response.emptySuccess, s2.call M Event.BroadcastLobbyList)

/-- `Lobby.LobbySetRequirement` (lobby.go 740-794). -/
def LobbySetRequirement (M : Env σ) (db : σ) (so : Client) (args : SetRequirementArgs) :
    Response × St σ :=
  let s := St.init db
  match M.GetLobbyByID s.db args.ID with
  | Except.error tperr => (Response.error tperr, s)
  | Except.ok lobby =>
    let player := M.GetPlayer s.db so
    if lobby.CreatedBySteamID ≠ player.SteamID then
      (Response.error "Only lobby owners can change requirements.", s)
    else if ¬ (args.Slot ≥ 0 ∧ args.Slot < 2 * M.NumberOfClassesMap lobby.Type_) then
      (Response.error "Invalid slot.", s)
    else
      let found := M.GetSlotRequirement s.db lobby args.Slot
      let req :=
        if found.2 ≠ none then { found.1 with Slot := args.Slot, LobbyID := args.ID }
        else found.1
      if args.Type_ = "hours" then
        saveRequirement M s lobby { req with Hours := (M.Int64 args.Value).1 }
          (M.Int64 args.Value).2
      else if args.Type_ = "lobbies" then
        saveRequirement M s lobby { req with Lobbies := (M.Int64 args.Value).1 }
          (M.Int64 args.Value).2
      else if args.Type_ = "reliability" then
        saveRequirement M s lobby { req with Reliability := (M.Float64 args.Value).1 }
          (M.Float64 args.Value).2
      else (Response.error "Invalid requirement type.", s)

/-- The end of the two handlers that lift a restriction (lobby.go 810-816,
833-839), with the lobby as changed. -/
def saveAndBroadcast (M : Env σ) (s : St σ) (lobby : Lobby) : Response × St σ :=
  let lobby1 := M.Save s.db lobby
  let s1 := s.call M (Event.Save lobby)
  let s2 := s1.call M (Event.BroadcastLobby (some lobby1))
  (Response.emptySuccess, s2.call M Event.BroadcastLobbyList)

/-- `Lobby.LobbyRemoveTwitchRestriction` (lobby.go 796-817). -/
def LobbyRemoveTwitchRestriction (M : Env σ) (db : σ) (so : Client) (ID : Nat) :
    Response × St σ :=
  let s := St.init db
  let player := M.GetPlayer s.db so
  match M.GetLobbyByID s.db ID with
  | Except.error err => (Response.error err, s)
  | Except.ok lobby =>
    if player.SteamID ≠ lobby.CreatedBySteamID
        ∧ (player.Role ≠ RoleAdmin ∧ player.Role ≠ RoleMod) then
      (Response.error "You aren\x27t authorized to do this.", s)
    else saveAndBroadcast M s { lobby with TwitchChannel := "" }

/-- `Lobby.LobbyRemoveSteamRestriction` (lobby.go 819-840). -/
def LobbyRemoveSteamRestriction (M : Env σ) (db : σ) (so : Client) (ID : Nat) :
    Response × St σ :=
  let s := St.init db
  let player := M.GetPlayer s.db so
  match M.GetLobbyByID s.db ID with
  | Except.error err => (Response.error err, s)
  | Except.ok lobby =>
    if player.SteamID ≠ lobby.CreatedBySteamID
        ∧ (player.Role ≠ RoleAdmin ∧ player.Role ≠ RoleMod) then
      (Response.error "You aren\x27t authorized to do this.", s)
    else saveAndBroadcast M s { lobby with PlayerWhitelist := "" }

/-! ## The broadcaster (`controllers/broadcaster/broadcaster.go`)

The consumer goroutine is a function from what it receives, in order, to what
it hands to the transport layer, in order.  `SteamIdSocketMap` is a parameter:
the map as it is while the consumer runs. -/

/-- `broadcastMessage` (broadcaster.go 10-15). -/
structure broadcastMessage where
  Room : String
  SteamId : String
  Event : String
  Content : String
  deriving DecidableEq

/-- A `socketio.Socket`, by its id. -/
structure Socket where
  Id : String
  deriving DecidableEq

/-- A call of the consumer into the transport layer: `Emit` on a socket, or
`BroadcastTo` on the server. -/
inductive Delivery
  | Emit (socket : Socket) (event : String) (content : String)
  | BroadcastTo (room : String) (event : String) (content : String)
  deriving DecidableEq

/-- The message that `SendMessage` puts on the message channel
(broadcaster.go 36-43). -/
def SendMessage (steamid event content : String) : broadcastMessage :=
  { Room := "", SteamId := steamid, Event := event, Content := content }

/-- The message that `SendMessageToRoom` puts on the message channel
(broadcaster.go 45-52). -/
def SendMessageToRoom (room event content : String) : broadcastMessage :=
  { Room := room, SteamId := "", Event := event, Content := content }

/-- The message case of the consumer loop (broadcaster.go 58-68). -/
def deliver (SteamIdSocketMap : String → Option Socket) (message : broadcastMessage) :
    List Delivery :=
  if message.Room = "" then
    match SteamIdSocketMap message.SteamId with
    | none => []
    | some socket => [Delivery.Emit socket message.Event message.Content]
  else [Delivery.BroadcastTo message.Room message.Event message.Content]

/-- `broadcaster` (broadcaster.go 54-72) on what its `select` receives: `some` is
a message from the message channel, `none` the value from the stop channel. -/
def broadcaster (SteamIdSocketMap : String → Option Socket) :
    List (Option broadcastMessage) → List Delivery
  | [] => []
  | none :: _ => []
  | some message :: rest =>
    deliver SteamIdSocketMap message ++ broadcaster SteamIdSocketMap rest

/-! ## The session registry (`controllers/socket/sessions/steamid.go`)

The package variables and the goroutines that `AfterDisconnectedFunc` starts are
one state.  A call of the package is a step on it, and so is the firing of a
timer; the order of a list of steps is their order in time.  A watcher goroutine
runs as soon as one of its two channels has a value, within the step that
provides it: the send in `AddSocket`, or the firing of its timer.  The stop
channel that a call of `AfterDisconnectedFunc` makes is named by the number of
the goroutine that the call starts, and so is the callback `f`.  A slice is a
list and a nil pointer in it is `none`; locks are left out. -/

/-- A goroutine started by `AfterDisconnectedFunc` (steamid.go 88-100): the
player it watches, and whether it has returned. -/
structure Watcher where
  steamid : String
  done : Bool
  deriving DecidableEq

/-- The maps `steamIDSockets` and `steamIDConnected` (steamid.go 13-19), the
goroutines started so far, and the callbacks called so far, in order. -/
structure Sessions where
  steamIDSockets : String → Option (List (Option Client))
  steamIDConnected : String → Option Nat
  watchers : List Watcher
  called : List Nat

/-- The state at start: empty maps, no goroutine. -/
def Sessions.empty : Sessions :=
  { steamIDSockets := fun _ => none, steamIDConnected := fun _ => none, watchers := [],
    called := [] }

/-- `GetSockets` (steamid.go 59-65). -/
def GetSockets (s : Sessions) (steamid : String) : List (Option Client) × Bool :=
  match s.steamIDSockets steamid with
  | some sockets => (sockets, true)
  | none => ([], false)

/-- `IsConnected` (steamid.go 68-71). -/
def IsConnected (s : Sessions) (steamid : String) : Bool :=
  (GetSockets s steamid).2

/-- `ConnectedSockets` (steamid.go 74-76). -/
def ConnectedSockets (s : Sessions) (steamid : String) : Nat :=
  ((s.steamIDSockets steamid).getD []).length

/-- The end of a watcher goroutine (steamid.go 97-99): the entry of its player
is deleted from `steamIDConnected`, and the goroutine returns. -/
def Sessions.finish (s : Sessions) (w : Nat) (steamid : String) : Sessions :=
  { s with
    steamIDConnected := Function.update s.steamIDConnected steamid none,
    watchers := s.watchers.set w ⟨steamid, true⟩ }

/-- A value is sent on the stop channel `stop` (steamid.go 30): the goroutine
that waits on it takes the second case of its `select` (steamid.go 94) and
ends.  With no goroutine waiting the value stays in the buffer. -/
def Sessions.signal (s : Sessions) (stop : Nat) : Sessions :=
  match s.watchers[stop]? with
  | some watcher => if watcher.done = false then s.finish stop watcher.steamid else s
  | none => s

/-- `AddSocket` (steamid.go 22-33); `so` is a socket, not nil. -/
def AddSocket (s : Sessions) (steamid : String) (so : Client) : Sessions :=
  let sockets := (s.steamIDSockets steamid).getD [] ++ [some so]
  let s1 := { s with steamIDSockets := Function.update s.steamIDSockets steamid (some sockets) }
  if sockets.length = 1 then
    match s1.steamIDConnected steamid with
    | some stop => s1.signal stop
    | none => s1
  else s1

/-- Where the loop of `RemoveSocket` ends (steamid.go 41-48): at the first socket
with the session id, or past the last socket; reading the `ID` of a nil socket
panics. -/
inductive Search
  | found (i : Nat)
  | missing
  | nilSocket
  deriving DecidableEq

/-- The loop of `RemoveSocket` over the sockets from index `i` on. -/
def searchSession (sessionID : String) : List (Option Client) → Nat → Search
  | [], _ => Search.missing
  | none :: _, _ => Search.nilSocket
  | some socket :: rest, i =>
    if socket.ID = sessionID then Search.found i else searchSession sessionID rest (i + 1)

/-- The body of the loop of `RemoveSocket` at a match (steamid.go 43-45): the
last socket is copied to index `i`, the last position is set to nil, and the
slice is cut by one. -/
def swapRemove (clients : List (Option Client)) (i : Nat) : List (Option Client) :=
  ((clients.set i (clients.getD (clients.length - 1) none)).set (clients.length - 1) none).take
    (clients.length - 1)

/-- The writes to the map at the end of `RemoveSocket` (steamid.go 50-54). -/
def Sessions.store (s : Sessions) (steamID : String) (clients : List (Option Client)) :
    Sessions :=
  if clients.length = 0 then
    { s with steamIDSockets := Function.update s.steamIDSockets steamID none }
  else { s with steamIDSockets := Function.update s.steamIDSockets steamID (some clients) }

/-- `RemoveSocket` (steamid.go 36-55); `none` is the panic on a nil socket. -/
def RemoveSocket (s : Sessions) (sessionID steamID : String) : Option Sessions :=
  let clients := (s.steamIDSockets steamID).getD []
  match searchSession sessionID clients 0 with
  | Search.nilSocket => none
  | Search.found i => some (s.store steamID (swapRemove clients i))
  | Search.missing => some (s.store steamID clients)

/-- `AfterDisconnectedFunc` (steamid.go 80-101) up to the start of the goroutine:
the stop channel is registered for the player and the goroutine waits.  The
duration `d` is the time until the step `Expire` of this goroutine. -/
def AfterDisconnectedFunc (s : Sessions) (steamid : String) : Sessions :=
  { s with
    steamIDConnected := Function.update s.steamIDConnected steamid (some s.watchers.length),
    watchers := s.watchers ++ [⟨steamid, false⟩] }

/-- The timer of goroutine `w` fires: the goroutine, if it still waits, takes the
first case of its `select` (steamid.go 90-93), calls `f` when the player is not
connected, and ends. -/
def Expire (s : Sessions) (w : Nat) : Sessions :=
  match s.watchers[w]? with
  | some watcher =>
    if watcher.done = false then
      let s1 := if IsConnected s watcher.steamid = false then
        { s with called := s.called ++ [w] } else s
      s1.finish w watcher.steamid
    else s
  | none => s

/-- A step of the registry. -/
inductive Op
  | AddSocket (steamid : String) (so : Client)
  | RemoveSocket (sessionID : String) (steamID : String)
  | AfterDisconnectedFunc (steamid : String)
  | Expire (w : Nat)
  deriving DecidableEq

/-- The state after a step; `none` after a panic. -/
def Sessions.step (s : Sessions) : Op → Option Sessions
  | Op.AddSocket steamid so => some (AddSocket s steamid so)
  | Op.RemoveSocket sessionID steamID => RemoveSocket s sessionID steamID
  | Op.AfterDisconnectedFunc steamid => some (AfterDisconnectedFunc s steamid)
  | Op.Expire w => some (Expire s w)

/-- The state after a list of steps. -/
def Sessions.run (s : Sessions) : List Op → Option Sessions
  | [] => some s
  | op :: ops => (s.step op).bind (fun s1 => s1.run ops)

/-- The session ids of the sockets of a slice. -/
def sessionIDs (sockets : List (Option Client)) : List String :=
  sockets.filterMap (fun so => so.map Client.ID)

/-- One step of `live`: `AddSocket` for `p` adds the session id of the socket, a
`RemoveSocket` for `p` removes the session id once, if it is there. -/
def liveStep (p : String) (ids : List String) : Op → List String
  | Op.AddSocket steamid so => if steamid = p then so.ID :: ids else ids
  | Op.RemoveSocket sessionID steamID => if steamID = p then ids.erase sessionID else ids
  | _ => ids

/-- The session ids of the sockets added for player `p` and not yet removed,
after the steps `ops` from the empty registry, the latest first. -/
def live (p : String) (ops : List Op) : List String :=
  ops.foldl (liveStep p) []

/-- What holds of every state reached from the empty one (shown below): no
slice holds nil, no key maps to an empty slice, a registered stop channel
belongs to a waiting goroutine of that player, and a callback was called by a
goroutine that has returned. -/
structure Sessions.WF (s : Sessions) : Prop where
  noNil : ∀ p sockets, s.steamIDSockets p = some sockets → ∀ x ∈ sockets, x ≠ none
  nonEmpty : ∀ p, s.steamIDSockets p ≠ some []
  registered : ∀ p stop, s.steamIDConnected p = some stop →
    s.watchers[stop]? = some ⟨p, false⟩
  returned : ∀ w ∈ s.called, ∃ p, s.watchers[w]? = some ⟨p, true⟩

/-- Goroutine `w` is the one goroutine that waits for player `p`: the player has
no sockets, the goroutine waits, its stop channel is the registered one, and
every other waiting goroutine watches another player. -/
structure Sessions.Pending (s : Sessions) (p : String) (w : Nat) : Prop where
  disconnected : s.steamIDSockets p = none
  waits : s.watchers[w]? = some ⟨p, false⟩
  registered : s.steamIDConnected p = some w
  alone : ∀ i q, s.watchers[i]? = some ⟨q, false⟩ → i ≠ w → q ≠ p

/-- What the model can observe of a state at a player: sockets, registered stop
channel, goroutines, callbacks called. -/
def Sessions.view (s : Sessions) (p : String) :
    Option (List (Option Client)) × Option Nat × List Watcher × List Nat :=
  (s.steamIDSockets p, s.steamIDConnected p, s.watchers, s.called)

/-! ## An in-memory data layer

The packages behind `Env` are not among the sources.  `World` and `mem` give one
concrete instance of them, small enough to run the handlers on; the theorems
below hold for every `Env`, and are instantiated at `mem`. -/

/-- A row of the slot table: lobby, slot, occupant, ready flag. -/
structure SlotRow where
  LobbyID : Nat
  Slot : Int
  SteamID : String
  Ready : Bool
  deriving DecidableEq

/-- Modelled from the spec: the state behind the data layer (§3): lobbies,
players, occupied slots, spectators, server records, the clock, the replies the
reservation service will give to the next status calls, and whether the slot and
spectator tables accept writes. -/
structure World where
  lobbies : List Lobby
  players : List Player
  slots : List SlotRow
  spectators : List (Nat × String)
  hosts : List String
  clock : Int
  statuses : List String
  reservationHost : String
  slotsDown : Bool
  spectatorsDown : Bool
  deriving DecidableEq

/-- Modelled from the spec: the class roster of each lobby type (§4.2, "each
define their own class roster"); the table of package `models` is absent. -/
def roster : LobbyType → List String
  | LobbyTypeDebug => ["scout"]
  | LobbyTypeSixes => ["scout1", "scout2", "roamer", "pocket", "demoman", "medic"]
  | LobbyTypeHighlander =>
    ["scout", "soldier", "pyro", "demoman", "heavy", "engineer", "medic", "sniper", "spy"]
  | LobbyTypeUltiduo => ["soldier", "medic"]
  | LobbyTypeBball => ["soldier1", "soldier2"]
  | LobbyTypeFours => ["scout", "soldier", "demoman", "medic"]

namespace World

/-- The stored player with the given steam id. -/
def player (w : World) (steamID : String) : Option Player :=
  w.players.find? (fun p => p.SteamID = steamID)

/-- The stored lobby with the given id. -/
def lobby (w : World) (id : Nat) : Option Lobby :=
  w.lobbies.find? (fun l => l.ID = id)

/-- The slot rows of a lobby. -/
def rows (w : World) (id : Nat) : List SlotRow :=
  w.slots.filter (fun r => r.LobbyID = id)

/-- The row of a player in a lobby that has not ended. -/
def playing (w : World) (steamID : String) : Option SlotRow :=
  w.slots.find? (fun r => r.SteamID = steamID ∧
    (w.lobby r.LobbyID).map (fun l => l.State) ≠ some LobbyStateEnded)

/-- Store a lobby: a lobby without id gets the next one, a known one is replaced. -/
def stored (w : World) (lob : Lobby) : Lobby :=
  if lob.ID = 0 then { lob with ID := w.lobbies.length + 1 } else lob

/-- Replace the stored lobby that has the id of `lob`, or add it. -/
def put (w : World) (lob : Lobby) : World :=
  if (w.lobby lob.ID).isSome then
    { w with lobbies := w.lobbies.map (fun l => if l.ID = lob.ID then lob else l) }
  else { w with lobbies := w.lobbies ++ [lob] }

/-- Write the state of the stored lobby with the given id. -/
def setState (w : World) (id : Nat) (st : LobbyState) : World :=
  { w with lobbies := w.lobbies.map (fun l => if l.ID = id then { l with State := st } else l) }

end World

/-- Modelled from the spec: slot index of (type, team, class) (§4.2): the class
index in the roster, the second team after the first. -/
def memSlot (t : LobbyType) (team class_ : String) : Except String Int :=
  if class_ ∈ roster t then
    if team = "red" then Except.ok (Int.ofNat ((roster t).indexOf class_))
    else if team = "blu" then
      Except.ok (Int.ofNat ((roster t).length + (roster t).indexOf class_))
    else Except.error "Invalid team"
  else Except.error "Invalid class"

/-- Modelled from the spec: slot assignment (§4.1, "enforces slot
availability"): refused when the slot table is down or another player holds the
slot. -/
def memAddPlayer (w : World) (lob : Lobby) (p : Player) (slot : Int) : Option String :=
  if w.slotsDown = true then some "slot table unavailable"
  else if (w.rows lob.ID).any (fun r => r.Slot = slot ∧ r.SteamID ≠ p.SteamID) = true then
    some "This slot has been filled."
  else none

/-- Modelled from the spec: how the in-memory world moves on a call (§3, §4.1). -/
def memApply : Event → World → World
  | Event.AddPlayer lob p slot _, w =>
    if memAddPlayer w lob p slot = none then
      { w with slots := w.slots.filter (fun r => r.SteamID ≠ p.SteamID)
          ++ [⟨lob.ID, slot, p.SteamID, false⟩] }
    else w
  | Event.RemovePlayer lob p, w =>
    if w.slotsDown = true then w
    else { w with slots := w.slots.filter (fun r => ¬ (r.LobbyID = lob.ID ∧ r.SteamID = p.SteamID)) }
  | Event.AddSpectator lob p, w =>
    if w.spectatorsDown = true then w
    else { w with spectators := w.spectators ++ [(lob.ID, p.SteamID)] }
  | Event.RemoveUnreadyPlayers lob spec, w =>
    { w with
      slots := w.slots.filter (fun r => ¬ (r.LobbyID = lob.ID ∧ r.Ready = false)),
      spectators := w.spectators ++
        (if spec = true then
          ((w.rows lob.ID).filter (fun r => r.Ready = false)).map (fun r => (lob.ID, r.SteamID))
        else []) }
  | Event.UnreadyAllPlayers lob, w =>
    { w with slots := w.slots.map (fun r =>
        if r.LobbyID = lob.ID then { r with Ready := false } else r) }
  | Event.Save lob, w => w.put (w.stored lob)
  | Event.SetState lob st, w => w.setState lob.ID st
  | Event.Close lob _ _, w => w.setState lob.ID LobbyStateEnded
  | Event.Delete lob, w => { w with lobbies := w.lobbies.filter (fun l => l.ID ≠ lob.ID) }
  | Event.Sleep d, w => { w with clock := w.clock + d }
  | Event.ContextStatus _ _ _, w => { w with statuses := w.statuses.tail }
  | _, w => w

/-- The number written with the given decimal digits. -/
def memDigits (cs : List Char) : Option Nat :=
  if cs = [] then none
  else cs.foldl (fun acc c =>
    match acc with
    | some n => if c.isDigit = true then some (10 * n + (c.toNat - 48)) else none
    | none => none) (some 0)

/-- Modelled from the spec: `json.Number.Int64` on whole numbers in decimal, with
an optional sign; anything else is a syntax error. -/
def memInt64 (v : String) : Int × Option String :=
  match v.data with
  | '-' :: cs =>
    match memDigits cs with
    | some n => (-(Int.ofNat n), none)
    | none => (0, some "invalid syntax")
  | cs =>
    match memDigits cs with
    | some n => (Int.ofNat n, none)
    | none => (0, some "invalid syntax")

/-- Modelled from the spec: the in-memory instance of the collaborators.  No
requirement rows are stored; `Float64` reads whole numbers, which a `float64`
holds exactly. -/
def mem : Env World where
  apply := memApply
  GetPlayer := fun w so => (w.player so.steam_id).getD ⟨so.steam_id, RolePlayer, ""⟩
  GetPlayerBySteamID := fun w id =>
    match w.player id with
    | some p => Except.ok p
    | none => Except.error "Player does not exist."
  GetLobbyByID := fun w id =>
    match w.lobby id with
    | some l => Except.ok l
    | none => Except.error "Lobby does not exist."
  GetLobbyByIDServer := fun w id =>
    match w.lobby id with
    | some l => Except.ok l
    | none => Except.error "Lobby does not exist."
  IsBannedWithTime := fun _ _ _ => (false, 0)
  GetActiveBanReason := fun _ _ _ => ""
  FormatRFC822 := fun _ => ""
  GetLobbyID := fun w p _ =>
    match w.playing p.SteamID with
    | some r => (r.LobbyID, none)
    | none => (0, some "Player not in any lobby.")
  LobbyGetPlayerSlot := memSlot
  AddPlayer := fun w lob p slot _ => memAddPlayer w lob p slot
  IsFull := fun w lob => decide (2 * (roster lob.Type_).length ≤ (w.rows lob.ID).length)
  Save := fun w lob => w.stored lob
  GetLobbyRoom := fun id => toString id
  Preload := fun w lob => (w.lobby lob.ID).getD lob
  CurrentState := fun w lob => ((w.lobby lob.ID).getD lob).State
  GetUnreadyPlayers := fun w lob =>
    ((w.rows lob.ID).filter (fun r => r.Ready = false)).map
      (fun r => (w.player r.SteamID).getD ⟨r.SteamID, RolePlayer, ""⟩)
  GetPlayerSlot := fun w lob p =>
    match (w.rows lob.ID).find? (fun r => r.SteamID = p.SteamID) with
    | some r => Except.ok r.Slot
    | none => Except.error "Player not in lobby."
  RemovePlayer := fun w _ _ => if w.slotsDown = true then some "slot table unavailable" else none
  AddSpectator := fun w _ _ =>
    if w.spectatorsDown = true then some "spectator table unavailable" else none
  IsSpectatingID := fun w p id => decide ((id, p.SteamID) ∈ w.spectators)
  Alias := fun _ p => p.SteamID
  ReExecConfig := fun _ _ _ => none
  Now := fun w => w.clock
  GetIPAddr := fun so => so.ID
  GetRegion := fun _ => ("EU", "Europe")
  GeoIP := false
  HasCreatedLobby := fun w p =>
    w.lobbies.any (fun l => l.CreatedBySteamID = p.SteamID ∧ l.State ≠ LobbyStateEnded)
  reSteamGroup := fun _ => none
  TimeParse := fun _ => Except.ok 0
  TimeFormat := fun _ => ""
  RandString := fun _ => "c2VjcmV0"
  ContextCreate := fun w _ r _ => ({ r with ID := 1, IPAndPort := w.reservationHost }, none)
  ContextDelete := fun _ _ _ _ => none
  ContextStatus := fun w _ _ _ => (w.statuses.headD "waiting", none)
  ParseUint := fun _ => Except.error "invalid syntax"
  GetStoredServer := fun _ _ => Except.error "Server does not exist."
  ServerRecordCount := fun w host => Int.ofNat (w.hosts.count host)
  NewLobby := fun map t _ _ _ mumble steamGroup _ =>
    { ID := 0, Type_ := t, State := LobbyStateInitializing, MapName := map, Mumble := mumble,
      CreatedBySteamID := "", ReadyUpTimestamp := 0, TwitchChannel := "",
      TwitchRestriction := TwitchNone, RegionCode := "", RegionName := "", ServemeID := 0,
      PlayerWhitelist := steamGroup }
  MapRegionFormatExists := fun w map region t =>
    w.lobbies.any (fun l => l.MapName = map ∧ l.RegionCode = region ∧ l.Type_ = t
      ∧ l.State ≠ LobbyStateEnded)
  SetupServer := fun _ _ => none
  NumberOfClassesMap := fun t => Int.ofNat (roster t).length
  LobbyTypeZero := LobbyTypeSixes
  GetSlotRequirement := fun _ _ _ => (⟨0, 0, 0, 0, 0⟩, some "record not found")
  Int64 := memInt64
  Float64 := fun v => (((memInt64 v).1 : ℚ), (memInt64 v).2)
  ResolveIPAddr := fun host =>
    if host = "" then Except.error "missing address" else Except.ok host

/-- Modelled from the spec: the in-memory instance with a reservation service
whose status call takes 0.58 seconds; all else is as in `mem`. -/
def memSlow : Env World :=
  { mem with
    apply := fun e w =>
      match e with
      | Event.ContextStatus _ _ _ => { memApply e w with clock := w.clock + 580000000 }
      | _ => memApply e w }

/-! ## Notions used in the statements -/

/-- The requirement row of the slot named in the request, before the change
(lobby.go 762-766): the stored row, or, when there is none, a row for this lobby
and slot. -/
def slotRow (M : Env σ) (db : σ) (lobby : Lobby) (args : SetRequirementArgs) :
    StoredRequirement :=
  if (M.GetSlotRequirement db lobby args.Slot).2 ≠ none then
    { (M.GetSlotRequirement db lobby args.Slot).1 with Slot := args.Slot, LobbyID := args.ID }
  else (M.GetSlotRequirement db lobby args.Slot).1

/-- The world after a list of calls. -/
def run (M : Env σ) (db : σ) (es : List Event) : σ :=
  es.foldl (fun w e => M.apply e w) db

/-- The actor may kick: the lobby and the actor exist and the actor created the
lobby or is an administrator. -/
def mayKick (M : Env σ) (db : σ) (lobbyId : Nat) (steamId : String) : Prop :=
  ∃ lob player, M.GetLobbyByID db lobbyId = Except.ok lob
    ∧ M.GetPlayerBySteamID db steamId = Except.ok player
    ∧ (steamId = lob.CreatedBySteamID ∨ player.Role = RoleAdmin)

/-- The leave hook and the join hook. -/
def Event.isHook : Event → Bool
  | Event.AfterLobbyLeave _ _ => true
  | Event.AfterLobbyJoin _ _ _ => true
  | _ => false

/-- A status call to the reservation service. -/
def Event.isStatus : Event → Bool
  | Event.ContextStatus _ _ _ => true
  | _ => false

/-- A delete call to the reservation service. -/
def Event.isContextDelete : Event → Bool
  | Event.ContextDelete _ _ _ => true
  | _ => false

/-- The state of `LobbyJoin` after the join hook, on the path where `AddPlayer`
reports no error. -/
def joined (M : Env σ) (db : σ) (so : Client) (a : JoinArgs) (lob : Lobby) (slot : Int) : St σ :=
  let player := M.GetPlayer db so
  let s2 := (leavePrevious M (St.init db) player a.Id).call M
    (Event.AddPlayer lob player slot a.Password)
  if sameLobby M db player a.Id = false then s2.call M (Event.AfterLobbyJoin so lob player)
  else s2

/-- The `lobbyStart` message that the tail of `LobbyJoin` sends to a substitute
(lobby.go 501-504), as a list of calls. -/
def startNotice (M : Env σ) (w : σ) (so : Client) (lob : Lobby) (player : Player) (slot : Int) :
    List Event :=
  if lob.State = LobbyStateInProgress then
    [Event.EmitJSON so "lobbyStart" (M.Preload w lob) player slot]
  else []

/-- The calls of the ready-up block of `LobbyJoin` between `Lock` and `Unlock`,
made in the world `w` (lobby.go 466-497). -/
def readyUpCalls (M : Env σ) (w : σ) (lob : Lobby) : List Event :=
  [Event.Save (readyingUp lob (M.Now w)),
    Event.GlobalWaitAdd 1,
    Event.AfterFunc (Second * 30) (M.Save w (readyingUp lob (M.Now w))),
    Event.SendMessageToRoom
      (M.GetLobbyRoom (M.Save w (readyingUp lob (M.Now w))).ID ++ "_private") "lobbyReadyUp" 30,
    Event.BroadcastLobbyList]

/-- One round of the polling loop of `LobbyCreate` that stays in the loop: the
status call and the sleep of ten seconds. -/
def pollRound (M : Env σ) (ctx : ServemeContext) (id : Nat) (steamID : String) (s : St σ) :
    St σ :=
  (s.call M (Event.ContextStatus ctx id steamID)).call M (Event.Sleep (10 * Second))

/-- The number of status calls in a trace. -/
def statusCalls (es : List Event) : Nat :=
  (es.filter Event.isStatus).length

/-! ## Concrete inputs -/

/-- A debug lobby (one class, two slots) created by `owner`. -/
def debugLobby (id : Nat) (st : LobbyState) : Lobby :=
  { ID := id, Type_ := LobbyTypeDebug, State := st, MapName := "cp_badlands", Mumble := false,
    CreatedBySteamID := "owner", ReadyUpTimestamp := 0, TwitchChannel := "",
    TwitchRestriction := TwitchNone, RegionCode := "EU", RegionName := "Europe", ServemeID := 0,
    PlayerWhitelist := "" }

/-- The player `owner`, creator of the lobbies. -/
def owner : Player := ⟨"owner", RolePlayer, ""⟩

/-- The player `guest`. -/
def guest : Player := ⟨"guest", RolePlayer, ""⟩

/-- The administrator `admin`. -/
def admin : Player := ⟨"admin", RoleAdmin, ""⟩

/-- Two waiting debug lobbies; `owner` holds red scout of lobby 1, `guest` red
scout of lobby 2. -/
def world0 : World :=
  { lobbies := [debugLobby 1 LobbyStateWaiting, debugLobby 2 LobbyStateWaiting],
    players := [owner, guest, admin],
    slots := [⟨1, 0, "owner", false⟩, ⟨2, 0, "guest", false⟩],
    spectators := [], hosts := [], clock := 0, statuses := [], reservationHost := "10.0.0.1:27015",
    slotsDown := false, spectatorsDown := false }

/-- The world `world0` with a spectator table that refuses writes. -/
def worldSpectatorsDown : World := { world0 with spectatorsDown := true }

/-- The world `world0` with a slot table that refuses writes. -/
def worldSlotsDown : World := { world0 with slotsDown := true }

/-- The world `world0` with lobby 1 ended. -/
def worldEnded : World :=
  { world0 with lobbies := [debugLobby 1 LobbyStateEnded, debugLobby 2 LobbyStateWaiting] }

/-- The world `world0` in which the host that the reservation service hands out
already backs a lobby. -/
def worldHostTaken : World := { world0 with hosts := ["10.0.0.1:27015"] }

/-- The world `world0` in which the reservation service answers the status calls
with "waiting", then "ready". -/
def worldReserving : World := { world0 with statuses := ["waiting", "ready"] }

/-- A socket of `guest`. -/
def guestSocket : Client := ⟨"socket-guest", "guest"⟩

/-- A socket of `owner`. -/
def ownerSocket : Client := ⟨"socket-owner", "owner"⟩

/-- The request of `guest` to join blu scout of lobby 1. -/
def joinBlu : JoinArgs := ⟨1, "scout", "blu", ""⟩

/-- A request to create a sixes lobby on a serveme reservation. -/
def servemeArgs : CreateArgs :=
  { Map := "cp_process_final", Type_ := "6s", League := "etf2l", ServerType := "serveme",
    Serveme := some ⟨"2016-03-01T18:00:00.000+01:00", "2016-03-01T20:00:00.000+01:00", 42⟩,
    Server := some "", RconPwd := some "", WhitelistID := "etf2l_6v6", Mumble := false,
    Password := "", SteamGroupWhitelist := "", TwitchWhitelistSubscribers := false,
    TwitchWhitelistFollowers := false, Requirements := none }

/-- The reservation that `servemeArgs` asks for. -/
def askedReservation : Reservation :=
  { ID := 0, StartsAt := "", EndsAt := "", ServerID := 42, WhitelistID := 1, RCON := "c2VjcmV0",
    Password := "foobar", IPAndPort := "", HasErrors := false }

/-- What the server branch of `LobbyCreate` leaves for `servemeArgs`. -/
def servemeResolved : Resolved :=
  ⟨"10.0.0.1:27015", "c2VjcmV0", { askedReservation with ID := 1, IPAndPort := "10.0.0.1:27015" },
    some ServemeContext.servemeEU⟩

/-- The lobby struct that `LobbyCreate` builds for `servemeArgs`. -/
def newSixes : Lobby :=
  { ID := 0, Type_ := LobbyTypeSixes, State := LobbyStateInitializing,
    MapName := "cp_process_final", Mumble := false, CreatedBySteamID := "guest",
    ReadyUpTimestamp := 0, TwitchChannel := "", TwitchRestriction := TwitchNone,
    RegionCode := "EU", RegionName := "Europe", ServemeID := 0, PlayerWhitelist := "" }

/-- Lobby 1 as saved when it fills at time 0: readying up until 30. -/
def readyLobby : Lobby :=
  { debugLobby 1 LobbyStateWaiting with State := LobbyStateReadyingUp, ReadyUpTimestamp := 30 }

/-- The world after `guest` joined lobby 1 in `world0`: the lobby is full and
readying up, nobody is ready. -/
def worldReadying : World := (LobbyJoin mem world0 guestSocket joinBlu).2.db

/-- Lobby 1 of `world0` restricted to the subscribers of a twitch channel and to
a steam group. -/
def restrictedLobby : Lobby :=
  { debugLobby 1 LobbyStateWaiting with
    TwitchChannel := "streamer", TwitchRestriction := TwitchSubscribers,
    PlayerWhitelist := "group" }

/-- The world `world0` with the restricted lobby 1. -/
def worldRestricted : World :=
  { world0 with lobbies := [restrictedLobby, debugLobby 2 LobbyStateWaiting] }

/-- A socket of `admin`. -/
def adminSocket : Client := ⟨"socket-admin", "admin"⟩

/-- The request of `guest`, who sits in lobby 2, to join red scout of lobby 1,
which `owner` holds. -/
def joinRed : JoinArgs := ⟨1, "scout", "red", ""⟩

/-- The request to require ten hours on all slots of lobby 1. -/
def allSlots : SetRequirementArgs := ⟨1, -1, "hours", "10"⟩

/-- The request to require ten hours on slot 0 of lobby 1. -/
def slotZero : SetRequirementArgs := ⟨1, 0, "hours", "10"⟩

/-- Three sockets of `guest`, one per tab. -/
def tab1 : Client := ⟨"tab-1", "guest"⟩

/-- The second socket of `guest`. -/
def tab2 : Client := ⟨"tab-2", "guest"⟩

/-- The third socket of `guest`. -/
def tab3 : Client := ⟨"tab-3", "guest"⟩

/-- The registry after `guest` opened three tabs. -/
def threeTabs : Sessions :=
  AddSocket (AddSocket (AddSocket Sessions.empty "guest" tab1) "guest" tab2) "guest" tab3

/-- The steps of `guest` opening a tab and closing it. -/
def openAndClose : List Op := [Op.AddSocket "guest" tab1, Op.RemoveSocket "tab-1" "guest"]

/-- The registry after `guest` opened a tab and closed it. -/
def closedTab : Sessions := (Sessions.empty.run openAndClose).getD Sessions.empty

/-- The steps in which `AfterDisconnectedFunc` is called twice for `guest`, the
first timer fires, `guest` opens a tab and closes it, and the second timer
fires. -/
def armedTwice : List Op :=
  [Op.AfterDisconnectedFunc "guest", Op.AfterDisconnectedFunc "guest", Op.Expire 0,
    Op.AddSocket "guest" tab1, Op.RemoveSocket "tab-1" "guest", Op.Expire 1]

/-- The steps in which `guest` closes the only tab, `AfterDisconnectedFunc` is
called, and called again while the first goroutine waits; `guest` then opens a
tab before any timer fires, closes it, and the timer of the first goroutine
fires. -/
def replacedWatcher : List Op :=
  [Op.AddSocket "guest" tab1, Op.RemoveSocket "tab-1" "guest",
    Op.AfterDisconnectedFunc "guest", Op.AfterDisconnectedFunc "guest",
    Op.AddSocket "guest" tab2, Op.RemoveSocket "tab-2" "guest", Op.Expire 0]

/-- The world `world0` in which the reservation service answers seventeen status
calls with "waiting" and the eighteenth with "ready". -/
def worldSlow : World :=
  { world0 with statuses := List.replicate 17 "waiting" ++ ["ready"] }

/-- A socket map with one socket, registered under the empty steam id. -/
def emptyIdMap : String → Option Socket :=
  fun steamid => if steamid = "" then some ⟨"socket-1"⟩ else none

/-! ## Theorems -/

/-! ### Auxiliary lemmas -/

@[simp]
theorem St.call_trace (M : Env σ) (s : St σ) (e : Event) :
    (s.call M e).trace = s.trace ++ [e] := rfl

@[simp]
theorem St.call_db (M : Env σ) (s : St σ) (e : Event) :
    (s.call M e).db = M.apply e s.db := rfl

@[simp]
theorem St.init_trace (db : σ) : (St.init db).trace = [] := rfl

@[simp]
theorem St.init_db (db : σ) : (St.init db).db = db := rfl

/-- The outcomes of `removePlayerFromLobby`: an error before any call, a failed
`RemovePlayer`, or `RemovePlayer` followed by `AddSpectator`. -/
theorem removePlayerFromLobby_cases (M : Env σ) (s : St σ) (lobbyId : Nat) (steamId : String) :
    ((removePlayerFromLobby M s lobbyId steamId).2 = s
        ∧ (removePlayerFromLobby M s lobbyId steamId).1.err ≠ none
        ∧ ∀ player lob, M.GetPlayerBySteamID s.db steamId = Except.ok player →
            M.GetLobbyByID s.db lobbyId = Except.ok lob →
            lob.State = LobbyStateInProgress ∨ lob.State = LobbyStateEnded
              ∨ ∃ e, M.GetPlayerSlot s.db lob player = Except.error e)
    ∨ ∃ player lob slot, M.GetPlayerBySteamID s.db steamId = Except.ok player
        ∧ M.GetLobbyByID s.db lobbyId = Except.ok lob
        ∧ lob.State ≠ LobbyStateInProgress ∧ lob.State ≠ LobbyStateEnded
        ∧ M.GetPlayerSlot s.db lob player = Except.ok slot
        ∧ ((∃ e, M.RemovePlayer s.db lob player = some e
              ∧ removePlayerFromLobby M s lobbyId steamId
                = (⟨some lob, some player, some e⟩, s.call M (Event.RemovePlayer lob player)))
          ∨ (M.RemovePlayer s.db lob player = none
              ∧ removePlayerFromLobby M s lobbyId steamId
                = (⟨some lob, some player,
                    M.AddSpectator (M.apply (Event.RemovePlayer lob player) s.db) lob player⟩,
                  (s.call M (Event.RemovePlayer lob player)).call M
                    (Event.AddSpectator lob player)))) := by
  unfold removePlayerFromLobby
  cases h1 : M.GetPlayerBySteamID s.db steamId with
  | error e => simp
  | ok player =>
    cases h2 : M.GetLobbyByID s.db lobbyId with
    | error e => simp
    | ok lob =>
      by_cases h3 : lob.State = LobbyStateInProgress
      · simp [h3]
      · by_cases h4 : lob.State = LobbyStateEnded
        · simp [h3, h4]
        · cases h5 : M.GetPlayerSlot s.db lob player with
          | error e => simp [h3, h4, h5]
          | ok slot =>
            cases h6 : M.RemovePlayer s.db lob player with
            | some e => simp [h3, h4, h5, h6]
            | none => simp [h3, h4, h5, h6]

/-- The two outcomes of `playerCanKick`. -/
theorem playerCanKick_cases (M : Env σ) (db : σ) (lobbyId : Nat) (steamId : String) :
    (mayKick M db lobbyId steamId ∧ playerCanKick M db lobbyId steamId = (true, none))
    ∨ (¬ mayKick M db lobbyId steamId
        ∧ ∃ e, playerCanKick M db lobbyId steamId = (false, some e)) := by
  unfold playerCanKick mayKick
  cases h1 : M.GetLobbyByID db lobbyId with
  | error e => simp
  | ok lob =>
    cases h2 : M.GetPlayerBySteamID db steamId with
    | error e => simp
    | ok player =>
      by_cases h3 : steamId = lob.CreatedBySteamID
      · simp [h3]
      · by_cases h4 : player.Role = RoleAdmin
        · simp [h3, h4]
        · simp [h3, h4]

/-- A join of a lobby that has ended or is being set up is refused before any call. -/
theorem LobbyJoin_refused (M : Env σ) (db : σ) (so : Client) (a : JoinArgs) (lob : Lobby)
    (hl : M.GetLobbyByID db a.Id = Except.ok lob)
    (hs : lob.State = LobbyStateEnded ∨ lob.State = LobbyStateInitializing) :
    (LobbyJoin M db so a).1.isError = true
    ∧ (LobbyJoin M db so a).2.trace = []
    ∧ (LobbyJoin M db so a).2.db = db := by
  unfold LobbyJoin
  dsimp only
  by_cases hb : banned M db (M.GetPlayer db so) PlayerBanJoin = true
  · simp [hb, banError, Response.isError]
  · by_cases hm : lob.Mumble = true ∧ banned M db (M.GetPlayer db so) PlayerBanJoinMumble = true
    · simp [hb, hl, hm, banError, Response.isError]
    · rcases hs with hs | hs
      · simp [hb, hl, hm, hs, Response.isError]
      · simp [hb, hl, hm, hs, Response.isError]

/-- The trace after one call per player. -/
theorem foldl_call_trace (M : Env σ) (f : Player → Event) (ps : List Player) (s : St σ) :
    (ps.foldl (fun st p => st.call M (f p)) s).trace = s.trace ++ ps.map f := by
  induction ps generalizing s with
  | nil => simp
  | cons p ps ih => simp [ih]

/-- The world after one call per player. -/
theorem foldl_call_db (M : Env σ) (f : Player → Event) (ps : List Player) (s : St σ) :
    (ps.foldl (fun st p => st.call M (f p)) s).db = run M s.db (ps.map f) := by
  induction ps generalizing s with
  | nil => simp [run]
  | cons p ps ih => simp [ih, run]

/-- The deadline callback does nothing but its wait-group bookkeeping when the
lobby is waiting, in progress or ended. -/
theorem readyUpTimeout_idle (M : Env σ) (db : σ) (lob : Lobby)
    (h : M.CurrentState db lob = LobbyStateWaiting ∨ M.CurrentState db lob = LobbyStateInProgress
      ∨ M.CurrentState db lob = LobbyStateEnded) :
    (readyUpTimeout M db lob).trace = [Event.GlobalWaitDone]
    ∧ (readyUpTimeout M db lob).db = M.apply Event.GlobalWaitDone db := by
  unfold readyUpTimeout
  dsimp only
  rcases h with h | h | h <;> simp [h]

/-- A successful `LobbyJoin` went through `AddPlayer` and continues with the tail
of the handler. -/
theorem LobbyJoin_success (M : Env σ) (db : σ) (so : Client) (a : JoinArgs)
    (hok : (LobbyJoin M db so a).1 = Response.emptySuccess) :
    ∃ lob slot, M.GetLobbyByID db a.Id = Except.ok lob
      ∧ M.LobbyGetPlayerSlot lob.Type_ a.Team a.Class = Except.ok slot
      ∧ M.AddPlayer (leavePrevious M (St.init db) (M.GetPlayer db so) a.Id).db lob
          (M.GetPlayer db so) slot a.Password = none
      ∧ LobbyJoin M db so a = afterJoin M (joined M db so a lob slot) so lob (M.GetPlayer db so) slot := by
  revert hok
  unfold LobbyJoin joined
  dsimp only
  by_cases hb : banned M db (M.GetPlayer db so) PlayerBanJoin = true
  · simp [hb, banError]
  · cases hl : M.GetLobbyByID db a.Id with
    | error e => simp [hb, hl]
    | ok lob =>
      by_cases hm : lob.Mumble = true ∧ banned M db (M.GetPlayer db so) PlayerBanJoinMumble = true
      · simp [hb, hl, hm, banError]
      · by_cases h1 : lob.State = LobbyStateEnded
        · simp [hb, hl, hm, h1]
        · by_cases h2 : lob.State = LobbyStateInitializing
          · simp [hb, hl, hm, h1, h2]
          · cases hs : M.LobbyGetPlayerSlot lob.Type_ a.Team a.Class with
            | error e => simp [hb, hl, hm, h1, h2, hs]
            | ok slot =>
              cases hadd : M.AddPlayer (leavePrevious M (St.init db) (M.GetPlayer db so) a.Id).db
                  lob (M.GetPlayer db so) slot a.Password with
              | some e => simp [hb, hl, hm, h1, h2, hs, hadd]
              | none => simp [hb, hl, hm, h1, h2, hs, hadd]

/-- The only message of `startNotice` is the `lobbyStart` message. -/
theorem startNotice_mem (M : Env σ) (w : σ) (so : Client) (lob : Lobby) (player : Player)
    (slot : Int) (e : Event) (he : e ∈ startNotice M w so lob player slot) :
    ∃ l, e = Event.EmitJSON so "lobbyStart" l player slot := by
  unfold startNotice at he
  split at he
  · simp at he; exact ⟨_, he⟩
  · simp at he

/-- The calls of the tail of `LobbyJoin`. -/
theorem afterJoin_spec (M : Env σ) (s : St σ) (so : Client) (lob : Lobby) (player : Player)
    (slot : Int) :
    (afterJoin M s so lob player slot).1 = Response.emptySuccess
    ∧ ((M.IsFull (M.apply (Event.Lock lob) s.db) lob = true
            ∧ lob.State ≠ LobbyStateInProgress ∧ lob.State ≠ LobbyStateReadyingUp) →
          (afterJoin M s so lob player slot).2.trace
            = s.trace ++ [Event.Lock lob] ++ readyUpCalls M (M.apply (Event.Lock lob) s.db) lob
              ++ [Event.Unlock (M.Save (M.apply (Event.Lock lob) s.db)
                    (readyingUp lob (M.Now (M.apply (Event.Lock lob) s.db))))]
              ++ startNotice M
                  (run M s.db ([Event.Lock lob]
                    ++ readyUpCalls M (M.apply (Event.Lock lob) s.db) lob
                    ++ [Event.Unlock (M.Save (M.apply (Event.Lock lob) s.db)
                      (readyingUp lob (M.Now (M.apply (Event.Lock lob) s.db))))]))
                  so (M.Save (M.apply (Event.Lock lob) s.db)
                    (readyingUp lob (M.Now (M.apply (Event.Lock lob) s.db)))) player slot)
    ∧ (¬ (M.IsFull (M.apply (Event.Lock lob) s.db) lob = true
            ∧ lob.State ≠ LobbyStateInProgress ∧ lob.State ≠ LobbyStateReadyingUp) →
          (afterJoin M s so lob player slot).2.trace
            = s.trace ++ [Event.Lock lob, Event.Unlock lob]
              ++ startNotice M (run M s.db [Event.Lock lob, Event.Unlock lob])
                  so lob player slot) := by
  unfold afterJoin startReadyUp startNotice readyUpCalls
  dsimp only
  simp only [St.call_db]
  split_ifs <;> refine ⟨rfl, ?_, ?_⟩ <;> intro h <;>
    first
    | contradiction
    | simp_all [run]

/-- The calls of `LobbyJoin` up to the join hook. -/
theorem joined_spec (M : Env σ) (db : σ) (so : Client) (a : JoinArgs) (lob : Lobby) (slot : Int) :
    (joined M db so a lob slot).db = run M db (joined M db so a lob slot).trace
    ∧ (joined M db so a lob slot).trace
      = (if (M.GetLobbyID db (M.GetPlayer db so) false).1 ≠ 0
            ∧ sameLobby M db (M.GetPlayer db so) a.Id = false then
          [Event.AfterLobbyLeave
            (M.GetLobbyByID db (M.GetLobbyID db (M.GetPlayer db so) false).1).toOption
            (M.GetPlayer db so)]
        else [])
        ++ [Event.AddPlayer lob (M.GetPlayer db so) slot a.Password]
        ++ (if sameLobby M db (M.GetPlayer db so) a.Id = false then
          [Event.AfterLobbyJoin so lob (M.GetPlayer db so)] else []) := by
  unfold joined leavePrevious
  dsimp only
  simp only [St.init_db]
  split_ifs <;> simp_all [run]

/-- The tail of `LobbyJoin` fires no hook. -/
theorem afterJoin_rest (M : Env σ) (s : St σ) (so : Client) (lob : Lobby) (player : Player)
    (slot : Int) :
    ∃ rest, (afterJoin M s so lob player slot).2.trace = s.trace ++ rest
      ∧ ∀ e ∈ rest, e.isHook = false := by
  obtain ⟨-, h1, h2⟩ := afterJoin_spec M s so lob player slot
  by_cases hc : M.IsFull (M.apply (Event.Lock lob) s.db) lob = true
      ∧ lob.State ≠ LobbyStateInProgress ∧ lob.State ≠ LobbyStateReadyingUp
  · refine ⟨_, by rw [h1 hc]; simp only [List.append_assoc]; rfl, ?_⟩
    intro e he
    simp only [List.mem_append, List.mem_singleton, readyUpCalls, List.mem_cons,
      List.mem_nil_iff, or_false, or_assoc] at he
    rcases he with rfl | rfl | rfl | rfl | rfl | rfl | rfl | he
    all_goals first
      | rfl
      | (obtain ⟨l, rfl⟩ := startNotice_mem _ _ _ _ _ _ _ he; rfl)
  · refine ⟨_, by rw [h2 hc]; simp only [List.append_assoc]; rfl, ?_⟩
    intro e he
    simp only [List.mem_append, List.mem_singleton, List.mem_cons,
      List.mem_nil_iff, or_false, or_assoc] at he
    rcases he with rfl | rfl | he
    all_goals first
      | rfl
      | (obtain ⟨l, rfl⟩ := startNotice_mem _ _ _ _ _ _ _ he; rfl)

/-- The calls of the tail of `LobbyJoin`, the `lobbyStart` message left open. -/
theorem afterJoin_post (M : Env σ) (s : St σ) (so : Client) (lob : Lobby) (player : Player)
    (slot : Int) :
    ∃ post, (∀ e ∈ post, ∃ l, e = Event.EmitJSON so "lobbyStart" l player slot)
      ∧ ((M.IsFull (M.apply (Event.Lock lob) s.db) lob = true
            ∧ lob.State ≠ LobbyStateInProgress ∧ lob.State ≠ LobbyStateReadyingUp) →
          (afterJoin M s so lob player slot).2.trace
            = s.trace ++ [Event.Lock lob] ++ readyUpCalls M (M.apply (Event.Lock lob) s.db) lob
              ++ [Event.Unlock (M.Save (M.apply (Event.Lock lob) s.db)
                    (readyingUp lob (M.Now (M.apply (Event.Lock lob) s.db))))] ++ post)
      ∧ (¬ (M.IsFull (M.apply (Event.Lock lob) s.db) lob = true
            ∧ lob.State ≠ LobbyStateInProgress ∧ lob.State ≠ LobbyStateReadyingUp) →
          (afterJoin M s so lob player slot).2.trace
            = s.trace ++ [Event.Lock lob, Event.Unlock lob] ++ post) := by
  obtain ⟨-, h1, h2⟩ := afterJoin_spec M s so lob player slot
  by_cases hc : M.IsFull (M.apply (Event.Lock lob) s.db) lob = true
      ∧ lob.State ≠ LobbyStateInProgress ∧ lob.State ≠ LobbyStateReadyingUp
  · exact ⟨_, startNotice_mem _ _ _ _ _ _, fun _ => h1 hc, fun h => absurd hc h⟩
  · exact ⟨_, startNotice_mem _ _ _ _ _ _, fun h => absurd h hc, fun _ => h2 hc⟩

/-- More fuel does not change a result of the polling loop. -/
theorem pollReservation_mono (M : Env σ) (ctx : ServemeContext) (id : Nat) (steamID : String)
    (now : Int) (lob : Lobby) (fuel : Nat) :
    ∀ (s : St σ) (r : Bool × St σ),
      pollReservation M ctx id steamID now lob fuel s = some r →
      ∀ m, pollReservation M ctx id steamID now lob (fuel + m) s = some r := by
  induction fuel with
  | zero => intro s r h; simp [pollReservation] at h
  | succ f ih =>
    intro s r h m
    rw [Nat.add_right_comm]
    unfold pollReservation at h ⊢
    dsimp only at h ⊢
    split_ifs at h ⊢ with h1 h2
    · exact h
    · exact h
    · exact ih _ _ h m

/-- Each round of the polling loop makes one status call. -/
theorem pollRound_statusCalls (M : Env σ) (ctx : ServemeContext) (id : Nat) (steamID : String)
    (k : Nat) (s : St σ) :
    statusCalls ((pollRound M ctx id steamID)^[k] s).trace = statusCalls s.trace + k := by
  induction k generalizing s with
  | zero => simp
  | succ k ih =>
    rw [Function.iterate_succ_apply, ih]
    simp [pollRound, statusCalls, Event.isStatus]
    omega

/-- One step of the polling loop. -/
theorem pollReservation_succ (M : Env σ) (ctx : ServemeContext) (id : Nat) (steamID : String)
    (now : Int) (lob : Lobby) (fuel : Nat) (s : St σ) :
    pollReservation M ctx id steamID now lob (fuel + 1) s
      = if (M.ContextStatus s.db ctx id steamID).1 = "ready" then
          some (true, s.call M (Event.ContextStatus ctx id steamID))
        else if 3 * Minute ≤ M.Now (pollRound M ctx id steamID s).db - now then
          some (false, (pollRound M ctx id steamID s).call M (Event.Delete lob))
        else pollReservation M ctx id steamID now lob fuel (pollRound M ctx id steamID s) := by
  rfl

/-- The polling loop from a state in which at least `n` times ten seconds have
passed since `now`. -/
theorem pollReservation_rounds (M : Env σ)
    (hsleep : ∀ w d, M.Now w + d ≤ M.Now (M.apply (Event.Sleep d) w))
    (hstatus : ∀ w ctx id steamID,
      M.Now w ≤ M.Now (M.apply (Event.ContextStatus ctx id steamID) w))
    (ctx : ServemeContext) (id : Nat) (steamID : String) (now : Int) (lob : Lobby) (fuel : Nat) :
    ∀ (n : Nat) (s : St σ), (n : Int) * (10 * Second) ≤ M.Now s.db - now → 18 ≤ n + (fuel + 1) →
      ∃ k, k ≤ fuel ∧ (k = 0 ∨ n + k < 18)
        ∧ (∀ j, j < k →
            (M.ContextStatus ((pollRound M ctx id steamID)^[j] s).db ctx id steamID).1 ≠ "ready"
            ∧ M.Now ((pollRound M ctx id steamID)^[j + 1] s).db - now < 3 * Minute)
        ∧ (((M.ContextStatus ((pollRound M ctx id steamID)^[k] s).db ctx id steamID).1 = "ready"
              ∧ pollReservation M ctx id steamID now lob (fuel + 1) s
                = some (true, ((pollRound M ctx id steamID)^[k] s).call M
                    (Event.ContextStatus ctx id steamID)))
          ∨ ((M.ContextStatus ((pollRound M ctx id steamID)^[k] s).db ctx id steamID).1 ≠ "ready"
              ∧ 3 * Minute ≤ M.Now ((pollRound M ctx id steamID)^[k + 1] s).db - now
              ∧ pollReservation M ctx id steamID now lob (fuel + 1) s
                = some (false, ((pollRound M ctx id steamID)^[k + 1] s).call M
                    (Event.Delete lob)))) := by
  have hS : (10 : Int) * Second = 10000000000 := rfl
  have hMin : (3 : Int) * Minute = 180000000000 := rfl
  have key : ∀ s : St σ, M.Now s.db + 10000000000 ≤ M.Now (pollRound M ctx id steamID s).db := by
    intro s
    have a := hstatus s.db ctx id steamID
    have b := hsleep (M.apply (Event.ContextStatus ctx id steamID) s.db) (10 * Second)
    calc M.Now s.db + 10000000000
        ≤ M.Now (M.apply (Event.ContextStatus ctx id steamID) s.db) + 10 * Second := by
          rw [hS]; omega
      _ ≤ _ := b
  induction fuel with
  | zero =>
    intro n s hn hf
    refine ⟨0, le_refl _, Or.inl rfl, by intro j hj; omega, ?_⟩
    by_cases hr : (M.ContextStatus s.db ctx id steamID).1 = "ready"
    · left
      rw [pollReservation_succ, if_pos hr]
      exact ⟨hr, rfl⟩
    · right
      have hc : 3 * Minute ≤ M.Now (pollRound M ctx id steamID s).db - now := by
        have := key s
        rw [hS] at hn
        rw [hMin]
        omega
      rw [pollReservation_succ, if_neg hr, if_pos hc]
      exact ⟨hr, hc, rfl⟩
  | succ f ih =>
    intro n s hn hf
    by_cases hr : (M.ContextStatus s.db ctx id steamID).1 = "ready"
    · refine ⟨0, Nat.zero_le _, Or.inl rfl, by intro j hj; omega, Or.inl ?_⟩
      rw [pollReservation_succ, if_pos hr]
      exact ⟨hr, rfl⟩
    · by_cases hc : 3 * Minute ≤ M.Now (pollRound M ctx id steamID s).db - now
      · refine ⟨0, Nat.zero_le _, Or.inl rfl, by intro j hj; omega, Or.inr ?_⟩
        rw [pollReservation_succ, if_neg hr, if_pos hc]
        exact ⟨hr, hc, rfl⟩
      · have hk := key s
        have hn' : ((n + 1 : Nat) : Int) * (10 * Second)
            ≤ M.Now (pollRound M ctx id steamID s).db - now := by
          rw [hS] at hn ⊢
          push_cast
          omega
        have hlt : n + 1 < 18 := by
          rw [hS] at hn
          rw [hMin] at hc
          omega
        obtain ⟨k, hk, hk18, hall, hres⟩ := ih (n + 1) (pollRound M ctx id steamID s) hn' (by omega)
        refine ⟨k + 1, by omega, Or.inr ?_, ?_, ?_⟩
        · rcases hk18 with rfl | h
          · omega
          · omega
        · intro j hj
          cases j with
          | zero => exact ⟨hr, not_le.mp hc⟩
          | succ j =>
            have := hall j (by omega)
            simpa only [Function.iterate_succ_apply] using this
        · rw [pollReservation_succ, if_neg hr, if_neg hc]
          simpa only [Function.iterate_succ_apply] using hres

/-- A fold of steps that only add calls only adds calls. -/
theorem foldl_extends {α : Type} (f : St σ → α → St σ)
    (hf : ∀ st x, ∃ rest, (f st x).trace = st.trace ++ rest) (xs : List α) (s : St σ) :
    ∃ rest, (xs.foldl f s).trace = s.trace ++ rest := by
  induction xs generalizing s with
  | nil => exact ⟨[], by simp⟩
  | cons x xs ih =>
    obtain ⟨r1, h1⟩ := hf s x
    obtain ⟨r2, h2⟩ := ih (f s x)
    exact ⟨r1 ++ r2, by simp [h2, h1]⟩

/-- `newRequirement` only adds calls. -/
theorem newRequirement_extends (M : Env σ) (s : St σ) (team class_ : String) (r : Requirement)
    (lob : Lobby) : ∃ rest, (newRequirement M s team class_ r lob).2.trace = s.trace ++ rest := by
  unfold newRequirement
  split
  · exact ⟨[], by simp⟩
  · exact ⟨[_], rfl⟩

/-- The requirements block only adds calls. -/
theorem saveRequirements_extends (M : Env σ) (s : St σ) (reqs : Requirements) (lob : Lobby) :
    ∃ rest, (saveRequirements M s reqs lob).trace = s.trace ++ rest := by
  unfold saveRequirements
  dsimp only
  have h1 : ∃ rest, (reqs.Classes.foldl (fun st cr =>
      (if cr.2.Red = true then
        (newRequirement M (if cr.2.Blu = true then (newRequirement M st "blu" cr.1 cr.2 lob).2
          else st) "red" cr.1 cr.2 lob).2
      else (if cr.2.Blu = true then (newRequirement M st "blu" cr.1 cr.2 lob).2 else st))) s).trace
      = s.trace ++ rest := by
    apply foldl_extends
    intro st cr
    by_cases hb : cr.2.Blu = true <;> by_cases hr : cr.2.Red = true
    · obtain ⟨r1, h1⟩ := newRequirement_extends M st "blu" cr.1 cr.2 lob
      obtain ⟨r2, h2⟩ := newRequirement_extends M (newRequirement M st "blu" cr.1 cr.2 lob).2
        "red" cr.1 cr.2 lob
      exact ⟨r1 ++ r2, by simp [hb, hr, h2, h1]⟩
    · obtain ⟨r1, h1⟩ := newRequirement_extends M st "blu" cr.1 cr.2 lob
      exact ⟨r1, by simp [hb, hr, h1]⟩
    · obtain ⟨r2, h2⟩ := newRequirement_extends M st "red" cr.1 cr.2 lob
      exact ⟨r2, by simp [hb, hr, h2]⟩
    · exact ⟨[], by simp [hb, hr]⟩
  obtain ⟨r1, h1⟩ := h1
  split
  · obtain ⟨r2, h2⟩ := foldl_extends (fun st (i : Nat) => st.call M (Event.RequirementSave
        ⟨lob.ID, Int.ofNat i, reqs.General.Hours, reqs.General.Lobbies⟩))
      (fun st i => ⟨[_], rfl⟩) (List.range (2 * M.NumberOfClassesMap lob.Type_).toNat) _
    refine ⟨r1 ++ r2, ?_⟩
    rw [h2, h1, List.append_assoc]
  · exact ⟨r1, h1⟩

/-- The two outcomes of the provisioning: the lobby is deleted, or its state is
set to waiting. -/
theorem provision_cases (M : Env σ) (s : St σ) (args : CreateArgs) (lob : Lobby) :
    (∃ e, M.SetupServer s.db lob = some e
      ∧ provision M s args lob
        = (Response.error e, (s.call M (Event.SetupServer lob)).call M (Event.Delete lob)))
    ∨ (M.SetupServer s.db lob = none
      ∧ (provision M s args lob).1 = Response.newResponse lob.ID
      ∧ ∃ rest, (provision M s args lob).2.trace
          = s.trace ++ [Event.SetupServer lob, Event.SetState lob LobbyStateWaiting] ++ rest) := by
  unfold provision
  dsimp only
  cases h : M.SetupServer s.db lob with
  | some e => left; exact ⟨e, rfl, rfl⟩
  | none =>
    right
    refine ⟨rfl, ?_⟩
    cases hr : args.Requirements with
    | none => exact ⟨rfl, [], by simp⟩
    | some reqs =>
      refine ⟨rfl, ?_⟩
      obtain ⟨rest, h⟩ := saveRequirements_extends M
        ((s.call M (Event.SetupServer lob)).call M (Event.SetState lob LobbyStateWaiting)) reqs
        (lob.setState LobbyStateWaiting)
      exact ⟨rest, by simp [h]⟩

/-! ### The claims -/

/-- Claim C1.  After a successful `LobbyJoin` the trace is `pre`, the calls up to
the join hook (hooks and `AddPlayer` only), then the locked block, then `post`
(at most the `lobbyStart` message to a substitute).  If the lobby is full after
the join and its state is neither in progress nor readying up, the locked block
saves the lobby with state `ReadyingUp` and `ReadyUpTimestamp` equal to the
current Unix time plus 30, arms the deadline callback, sends the one room
message "lobbyReadyUp" with timeout 30 to the room "<room>_private" of the
lobby, and rebroadcasts the lobby list; otherwise the locked block is empty. -/
theorem LobbyJoin_readyUp (M : Env σ) (db : σ) (so : Client) (a : JoinArgs)
    (hok : (LobbyJoin M db so a).1 = Response.emptySuccess) :
    ∃ lob slot pre post,
      M.GetLobbyByID db a.Id = Except.ok lob
      ∧ (∀ e ∈ pre, e.isHook = true
          ∨ e = Event.AddPlayer lob (M.GetPlayer db so) slot a.Password)
      ∧ (∀ e ∈ post, ∃ l, e = Event.EmitJSON so "lobbyStart" l (M.GetPlayer db so) slot)
      ∧ ((M.IsFull (run M db (pre ++ [Event.Lock lob])) lob = true
            ∧ lob.State ≠ LobbyStateInProgress ∧ lob.State ≠ LobbyStateReadyingUp) →
          ∃ now ready saved,
            now = Unix (M.Now (run M db (pre ++ [Event.Lock lob])))
            ∧ ready = { lob with State := LobbyStateReadyingUp, ReadyUpTimestamp := now + 30 }
            ∧ saved = M.Save (run M db (pre ++ [Event.Lock lob])) ready
            ∧ (LobbyJoin M db so a).2.trace
              = pre ++ [Event.Lock lob, Event.Save ready, Event.GlobalWaitAdd 1,
                  Event.AfterFunc (Second * 30) saved,
                  Event.SendMessageToRoom (M.GetLobbyRoom saved.ID ++ "_private")
                    "lobbyReadyUp" 30,
                  Event.BroadcastLobbyList, Event.Unlock saved] ++ post)
      ∧ (¬ (M.IsFull (run M db (pre ++ [Event.Lock lob])) lob = true
            ∧ lob.State ≠ LobbyStateInProgress ∧ lob.State ≠ LobbyStateReadyingUp) →
          (LobbyJoin M db so a).2.trace = pre ++ [Event.Lock lob, Event.Unlock lob] ++ post) := by
  obtain ⟨lob, slot, hl, hs, -, heq⟩ := LobbyJoin_success M db so a hok
  obtain ⟨post, hpost, h1, h2⟩ :=
    afterJoin_post M (joined M db so a lob slot) so lob (M.GetPlayer db so) slot
  obtain ⟨hdb, htr⟩ := joined_spec M db so a lob slot
  have hw : run M db ((joined M db so a lob slot).trace ++ [Event.Lock lob])
      = M.apply (Event.Lock lob) (joined M db so a lob slot).db := by
    rw [hdb]; simp [run]
  refine ⟨lob, slot, (joined M db so a lob slot).trace, post, hl, ?_, hpost, ?_, ?_⟩
  · intro e he
    rw [htr] at he
    simp only [List.mem_append, List.mem_singleton] at he
    rcases he with (he | rfl) | he
    · split at he
      · simp at he; subst he; left; rfl
      · simp at he
    · right; rfl
    · split at he
      · simp at he; subst he; left; rfl
      · simp at he
  · intro hc
    rw [hw] at hc ⊢
    refine ⟨_, _, _, rfl, rfl, rfl, ?_⟩
    rw [heq, h1 hc]
    simp [readyUpCalls, readyingUp]
  · intro hc
    rw [hw] at hc
    rw [heq, h2 hc]

/-- Claim C1, at a concrete input: `guest` takes the last free slot of lobby 1. -/
theorem LobbyJoin_readyUp_witness :
    (LobbyJoin mem world0 guestSocket joinBlu).1 = Response.emptySuccess
    ∧ (LobbyJoin mem world0 guestSocket joinBlu).2.trace
      = [Event.AfterLobbyLeave (some (debugLobby 2 LobbyStateWaiting)) guest,
          Event.AddPlayer (debugLobby 1 LobbyStateWaiting) guest 1 "",
          Event.AfterLobbyJoin guestSocket (debugLobby 1 LobbyStateWaiting) guest,
          Event.Lock (debugLobby 1 LobbyStateWaiting),
          Event.Save readyLobby, Event.GlobalWaitAdd 1, Event.AfterFunc 30000000000 readyLobby,
          Event.SendMessageToRoom "1_private" "lobbyReadyUp" 30, Event.BroadcastLobbyList,
          Event.Unlock readyLobby]
    ∧ ∃ lob slot pre post,
      mem.GetLobbyByID world0 joinBlu.Id = Except.ok lob
      ∧ (∀ e ∈ pre, e.isHook = true
          ∨ e = Event.AddPlayer lob (mem.GetPlayer world0 guestSocket) slot joinBlu.Password)
      ∧ (∀ e ∈ post, ∃ l, e = Event.EmitJSON guestSocket "lobbyStart" l (mem.GetPlayer world0 guestSocket) slot)
      ∧ ((mem.IsFull (run mem world0 (pre ++ [Event.Lock lob])) lob = true
            ∧ lob.State ≠ LobbyStateInProgress ∧ lob.State ≠ LobbyStateReadyingUp) →
          ∃ now ready saved,
            now = Unix (mem.Now (run mem world0 (pre ++ [Event.Lock lob])))
            ∧ ready = { lob with State := LobbyStateReadyingUp, ReadyUpTimestamp := now + 30 }
            ∧ saved = mem.Save (run mem world0 (pre ++ [Event.Lock lob])) ready
            ∧ (LobbyJoin mem world0 guestSocket joinBlu).2.trace
              = pre ++ [Event.Lock lob, Event.Save ready, Event.GlobalWaitAdd 1,
                  Event.AfterFunc (Second * 30) saved,
                  Event.SendMessageToRoom (mem.GetLobbyRoom saved.ID ++ "_private")
                    "lobbyReadyUp" 30,
                  Event.BroadcastLobbyList, Event.Unlock saved] ++ post)
      ∧ (¬ (mem.IsFull (run mem world0 (pre ++ [Event.Lock lob])) lob = true
            ∧ lob.State ≠ LobbyStateInProgress ∧ lob.State ≠ LobbyStateReadyingUp) →
          (LobbyJoin mem world0 guestSocket joinBlu).2.trace = pre ++ [Event.Lock lob, Event.Unlock lob] ++ post) :=
  ⟨rfl, rfl, LobbyJoin_readyUp mem world0 guestSocket joinBlu rfl⟩

/-- Claim C2.  The deadline callback re-reads the state of the lobby.  If it is
waiting, in progress or ended, the callback makes no call but the bookkeeping of
the wait group.  Otherwise it sets the state to waiting, removes the unready
players to spectators, fires the leave hook once for each entry of the list of
unready players read after the state change, clears the ready flags, and
broadcasts the lobby as looked up after these calls. -/
theorem readyUpTimeout_spec (M : Env σ) (db : σ) (lob : Lobby) :
    ((M.CurrentState db lob = LobbyStateWaiting ∨ M.CurrentState db lob = LobbyStateInProgress
        ∨ M.CurrentState db lob = LobbyStateEnded) →
      (readyUpTimeout M db lob).trace = [Event.GlobalWaitDone]
      ∧ (readyUpTimeout M db lob).db = M.apply Event.GlobalWaitDone db)
    ∧ ((M.CurrentState db lob = LobbyStateInitializing
        ∨ M.CurrentState db lob = LobbyStateReadyingUp) →
      ∃ players acts,
        players = M.GetUnreadyPlayers (M.apply (Event.SetState lob LobbyStateWaiting) db)
          (lob.setState LobbyStateWaiting)
        ∧ acts = [Event.SetState lob LobbyStateWaiting,
              Event.RemoveUnreadyPlayers (lob.setState LobbyStateWaiting) true]
            ++ players.map
              (fun p => Event.AfterLobbyLeave (some (lob.setState LobbyStateWaiting)) p)
            ++ [Event.UnreadyAllPlayers (lob.setState LobbyStateWaiting)]
        ∧ (readyUpTimeout M db lob).trace
          = acts ++ [Event.BroadcastLobby (M.GetLobbyByID (run M db acts) lob.ID).toOption,
              Event.GlobalWaitDone]
        ∧ (∀ p, (readyUpTimeout M db lob).trace.count
              (Event.AfterLobbyLeave (some (lob.setState LobbyStateWaiting)) p)
            = players.count p)
        ∧ (players.Nodup → ∀ p ∈ players, (readyUpTimeout M db lob).trace.count
              (Event.AfterLobbyLeave (some (lob.setState LobbyStateWaiting)) p) = 1)
        ∧ (readyUpTimeout M db lob).db = run M db (readyUpTimeout M db lob).trace) := by
  constructor
  · exact readyUpTimeout_idle M db lob
  · intro h
    have h' : M.CurrentState db lob ≠ LobbyStateWaiting ∧ M.CurrentState db lob ≠ LobbyStateInProgress
        ∧ M.CurrentState db lob ≠ LobbyStateEnded := by
      rcases h with h | h <;> rw [h] <;> decide
    have htr : (readyUpTimeout M db lob).trace
        = [Event.SetState lob LobbyStateWaiting,
              Event.RemoveUnreadyPlayers (lob.setState LobbyStateWaiting) true]
            ++ (M.GetUnreadyPlayers (M.apply (Event.SetState lob LobbyStateWaiting) db)
                (lob.setState LobbyStateWaiting)).map
              (fun p => Event.AfterLobbyLeave (some (lob.setState LobbyStateWaiting)) p)
            ++ [Event.UnreadyAllPlayers (lob.setState LobbyStateWaiting)]
          ++ [Event.BroadcastLobby (M.GetLobbyByID (run M db
              ([Event.SetState lob LobbyStateWaiting,
                  Event.RemoveUnreadyPlayers (lob.setState LobbyStateWaiting) true]
                ++ (M.GetUnreadyPlayers (M.apply (Event.SetState lob LobbyStateWaiting) db)
                    (lob.setState LobbyStateWaiting)).map
                  (fun p => Event.AfterLobbyLeave (some (lob.setState LobbyStateWaiting)) p)
                ++ [Event.UnreadyAllPlayers (lob.setState LobbyStateWaiting)])) lob.ID).toOption,
              Event.GlobalWaitDone] := by
      unfold readyUpTimeout removeUnreadyPlayers
      dsimp only
      simp only [St.init_db, h', ne_eq, not_false_eq_true, and_self, if_true]
      simp [foldl_call_trace, foldl_call_db, run, List.foldl_append, Lobby.setState]
    have hdb : (readyUpTimeout M db lob).db = run M db (readyUpTimeout M db lob).trace := by
      unfold readyUpTimeout removeUnreadyPlayers
      dsimp only
      simp only [St.init_db, h', ne_eq, not_false_eq_true, and_self, if_true]
      simp [foldl_call_trace, foldl_call_db, run, List.foldl_append]
    have hcount : ∀ p, (readyUpTimeout M db lob).trace.count
          (Event.AfterLobbyLeave (some (lob.setState LobbyStateWaiting)) p)
        = (M.GetUnreadyPlayers (M.apply (Event.SetState lob LobbyStateWaiting) db)
            (lob.setState LobbyStateWaiting)).count p := by
      intro p
      rw [htr]
      simp
      exact List.count_map_of_injective _ _ (fun a b h => by injection h) p
    exact ⟨_, _, rfl, rfl, htr, hcount,
      fun hnd p hp => by rw [hcount p]; exact List.count_eq_one_of_mem hnd hp, hdb⟩

/-- Claim C2, at a concrete input: the deadline passes with `owner` and `guest`
unready in lobby 1; both are removed and the hook fires for each. -/
theorem readyUpTimeout_spec_witness :
    mem.CurrentState worldReadying readyLobby = LobbyStateReadyingUp
    ∧ mem.GetUnreadyPlayers (mem.apply (Event.SetState readyLobby LobbyStateWaiting) worldReadying)
        (readyLobby.setState LobbyStateWaiting) = [owner, guest]
    ∧ ((mem.CurrentState worldReadying readyLobby = LobbyStateWaiting ∨ mem.CurrentState worldReadying readyLobby = LobbyStateInProgress
        ∨ mem.CurrentState worldReadying readyLobby = LobbyStateEnded) →
      (readyUpTimeout mem worldReadying readyLobby).trace = [Event.GlobalWaitDone]
      ∧ (readyUpTimeout mem worldReadying readyLobby).db = mem.apply Event.GlobalWaitDone worldReadying)
    ∧ ((mem.CurrentState worldReadying readyLobby = LobbyStateInitializing
        ∨ mem.CurrentState worldReadying readyLobby = LobbyStateReadyingUp) →
      ∃ players acts,
        players = mem.GetUnreadyPlayers (mem.apply (Event.SetState readyLobby LobbyStateWaiting) worldReadying)
          (readyLobby.setState LobbyStateWaiting)
        ∧ acts = [Event.SetState readyLobby LobbyStateWaiting,
              Event.RemoveUnreadyPlayers (readyLobby.setState LobbyStateWaiting) true]
            ++ players.map
              (fun p => Event.AfterLobbyLeave (some (readyLobby.setState LobbyStateWaiting)) p)
            ++ [Event.UnreadyAllPlayers (readyLobby.setState LobbyStateWaiting)]
        ∧ (readyUpTimeout mem worldReadying readyLobby).trace
          = acts ++ [Event.BroadcastLobby (mem.GetLobbyByID (run mem worldReadying acts) readyLobby.ID).toOption,
              Event.GlobalWaitDone]
        ∧ (∀ p, (readyUpTimeout mem worldReadying readyLobby).trace.count
              (Event.AfterLobbyLeave (some (readyLobby.setState LobbyStateWaiting)) p)
            = players.count p)
        ∧ (players.Nodup → ∀ p ∈ players, (readyUpTimeout mem worldReadying readyLobby).trace.count
              (Event.AfterLobbyLeave (some (readyLobby.setState LobbyStateWaiting)) p) = 1)
        ∧ (readyUpTimeout mem worldReadying readyLobby).db = run mem worldReadying (readyUpTimeout mem worldReadying readyLobby).trace) :=
  ⟨rfl, rfl, readyUpTimeout_spec mem worldReadying readyLobby⟩

/-- Claim C3.  In a successful `LobbyJoin`: when the player holds a slot in another
lobby `prev` (lobby ids are not zero), the leave hook is the first call, for the
lobby looked up under `prev`, followed by `AddPlayer` and the join hook; when
the player holds a slot in the same lobby, `AddPlayer` is the first call and no
hook is fired; when the player holds no slot, there is no leave hook.  The rest
of the trace holds no hook. -/
theorem LobbyJoin_hooks (M : Env σ) (db : σ) (so : Client) (a : JoinArgs)
    (hok : (LobbyJoin M db so a).1 = Response.emptySuccess) :
    ∃ lob slot rest,
      M.GetLobbyByID db a.Id = Except.ok lob
      ∧ M.LobbyGetPlayerSlot lob.Type_ a.Team a.Class = Except.ok slot
      ∧ (∀ e ∈ rest, e.isHook = false)
      ∧ (∀ prev, M.GetLobbyID db (M.GetPlayer db so) false = (prev, none) →
          prev ≠ 0 → prev ≠ a.Id →
          (LobbyJoin M db so a).2.trace
            = [Event.AfterLobbyLeave (M.GetLobbyByID db prev).toOption (M.GetPlayer db so),
                Event.AddPlayer lob (M.GetPlayer db so) slot a.Password,
                Event.AfterLobbyJoin so lob (M.GetPlayer db so)] ++ rest)
      ∧ (M.GetLobbyID db (M.GetPlayer db so) false = (a.Id, none) →
          (LobbyJoin M db so a).2.trace
            = [Event.AddPlayer lob (M.GetPlayer db so) slot a.Password] ++ rest)
      ∧ (∀ err, M.GetLobbyID db (M.GetPlayer db so) false = (0, some err) →
          (LobbyJoin M db so a).2.trace
            = [Event.AddPlayer lob (M.GetPlayer db so) slot a.Password,
                Event.AfterLobbyJoin so lob (M.GetPlayer db so)] ++ rest) := by
  obtain ⟨lob, slot, hl, hs, -, heq⟩ := LobbyJoin_success M db so a hok
  obtain ⟨rest, hrest, hno⟩ :=
    afterJoin_rest M (joined M db so a lob slot) so lob (M.GetPlayer db so) slot
  refine ⟨lob, slot, rest, hl, hs, hno, ?_, ?_, ?_⟩
  · intro prev hp h0 hne
    rw [heq, hrest, (joined_spec M db so a lob slot).2]
    simp [sameLobby, hp, h0, hne]
  · intro hp
    rw [heq, hrest, (joined_spec M db so a lob slot).2]
    simp [sameLobby, hp]
  · intro err hp
    rw [heq, hrest, (joined_spec M db so a lob slot).2]
    simp [sameLobby, hp]

/-- Claim C3, at a concrete input: `guest` leaves lobby 2 for lobby 1. -/
theorem LobbyJoin_hooks_witness :
    (LobbyJoin mem world0 guestSocket joinBlu).1 = Response.emptySuccess
    ∧ mem.GetLobbyID world0 (mem.GetPlayer world0 guestSocket) false = (2, none)
    ∧ ∃ lob slot rest,
      mem.GetLobbyByID world0 joinBlu.Id = Except.ok lob
      ∧ mem.LobbyGetPlayerSlot lob.Type_ joinBlu.Team joinBlu.Class = Except.ok slot
      ∧ (∀ e ∈ rest, e.isHook = false)
      ∧ (∀ prev, mem.GetLobbyID world0 (mem.GetPlayer world0 guestSocket) false = (prev, none) →
          prev ≠ 0 → prev ≠ joinBlu.Id →
          (LobbyJoin mem world0 guestSocket joinBlu).2.trace
            = [Event.AfterLobbyLeave (mem.GetLobbyByID world0 prev).toOption (mem.GetPlayer world0 guestSocket),
                Event.AddPlayer lob (mem.GetPlayer world0 guestSocket) slot joinBlu.Password,
                Event.AfterLobbyJoin guestSocket lob (mem.GetPlayer world0 guestSocket)] ++ rest)
      ∧ (mem.GetLobbyID world0 (mem.GetPlayer world0 guestSocket) false = (joinBlu.Id, none) →
          (LobbyJoin mem world0 guestSocket joinBlu).2.trace
            = [Event.AddPlayer lob (mem.GetPlayer world0 guestSocket) slot joinBlu.Password] ++ rest)
      ∧ (∀ err, mem.GetLobbyID world0 (mem.GetPlayer world0 guestSocket) false = (0, some err) →
          (LobbyJoin mem world0 guestSocket joinBlu).2.trace
            = [Event.AddPlayer lob (mem.GetPlayer world0 guestSocket) slot joinBlu.Password,
                Event.AfterLobbyJoin guestSocket lob (mem.GetPlayer world0 guestSocket)] ++ rest) :=
  ⟨rfl, rfl, LobbyJoin_hooks mem world0 guestSocket joinBlu rfl⟩

/-- Claim C4 fails when the spectator table refuses the write: `RemovePlayer`
succeeded, `AddSpectator` reports an error, and on return the player holds no
slot and is no spectator of the lobby. -/
theorem removePlayerFromLobby_limbo :
    mem.RemovePlayer worldSpectatorsDown (debugLobby 1 LobbyStateWaiting) owner = none
    ∧ (removePlayerFromLobby mem (St.init worldSpectatorsDown) 1 "owner").2.trace
        = [Event.RemovePlayer (debugLobby 1 LobbyStateWaiting) owner,
            Event.AddSpectator (debugLobby 1 LobbyStateWaiting) owner]
    ∧ (removePlayerFromLobby mem (St.init worldSpectatorsDown) 1 "owner").1.err
        = some "spectator table unavailable"
    ∧ (mem.GetPlayerSlot (removePlayerFromLobby mem (St.init worldSpectatorsDown) 1 "owner").2.db
        (debugLobby 1 LobbyStateWaiting) owner) = Except.error "Player not in lobby."
    ∧ mem.IsSpectatingID (removePlayerFromLobby mem (St.init worldSpectatorsDown) 1 "owner").2.db
        owner 1 = false :=
  ⟨rfl, rfl, rfl, rfl, rfl⟩

/-- Claim C4, amended.  When `removePlayerFromLobby` called `RemovePlayer` and it
succeeded, `AddSpectator` is called next, for the same lobby and player, and
what it reports is what the call returns; when that is no error the player is a
spectator of the lobby on return (`hspec`: a successful `AddSpectator` makes the
player a spectator). -/
theorem removePlayerFromLobby_spectator (M : Env σ) (db : σ) (lobbyId : Nat) (steamId : String)
    (lob : Lobby) (p : Player)
    (hspec : ∀ w l q, M.AddSpectator w l q = none →
      M.IsSpectatingID (M.apply (Event.AddSpectator l q) w) q l.ID = true)
    (hcall : Event.RemovePlayer lob p ∈ (removePlayerFromLobby M (St.init db) lobbyId steamId).2.trace)
    (hok : M.RemovePlayer db lob p = none) :
    (removePlayerFromLobby M (St.init db) lobbyId steamId).2.trace
        = [Event.RemovePlayer lob p, Event.AddSpectator lob p]
      ∧ (removePlayerFromLobby M (St.init db) lobbyId steamId).1.err
        = M.AddSpectator (M.apply (Event.RemovePlayer lob p) db) lob p
      ∧ ((removePlayerFromLobby M (St.init db) lobbyId steamId).1.err = none →
        M.IsSpectatingID (removePlayerFromLobby M (St.init db) lobbyId steamId).2.db p lob.ID
          = true) := by
  rcases removePlayerFromLobby_cases M (St.init db) lobbyId steamId with
    ⟨h, -, -⟩ | ⟨player, l, slot, -, -, -, -, -, ⟨e, he, h⟩ | ⟨hn, h⟩⟩
  · rw [h] at hcall; simp at hcall
  · rw [h] at hcall
    simp at hcall
    obtain ⟨rfl, rfl⟩ := hcall
    simp at he
    rw [he] at hok
    cases hok
  · rw [h] at hcall ⊢
    simp at hcall
    obtain ⟨rfl, rfl⟩ := hcall
    simp
    exact hspec _ _ _

/-- Claim C4, amended, at a concrete input: `owner` leaves lobby 1. -/
theorem removePlayerFromLobby_spectator_witness :
    (removePlayerFromLobby mem (St.init world0) 1 "owner").2.trace
        = [Event.RemovePlayer (debugLobby 1 LobbyStateWaiting) owner,
            Event.AddSpectator (debugLobby 1 LobbyStateWaiting) owner]
      ∧ (removePlayerFromLobby mem (St.init world0) 1 "owner").1.err
        = mem.AddSpectator
            (mem.apply (Event.RemovePlayer (debugLobby 1 LobbyStateWaiting) owner) world0)
            (debugLobby 1 LobbyStateWaiting) owner
      ∧ ((removePlayerFromLobby mem (St.init world0) 1 "owner").1.err = none →
        mem.IsSpectatingID (removePlayerFromLobby mem (St.init world0) 1 "owner").2.db owner
          (debugLobby 1 LobbyStateWaiting).ID = true) :=
  removePlayerFromLobby_spectator mem world0 1 "owner" (debugLobby 1 LobbyStateWaiting) owner
    (by
      intro w l q h
      simp only [mem] at h ⊢
      split at h
      · cases h
      · rename_i hd
        simp [memApply, hd])
    (by decide) (by decide)

/-- Claim C5.  A `LobbyJoin` on a lobby whose state is ended or initializing
returns an error and makes no call: no `AddPlayer`, no hook, no save, no
broadcast; the world is unchanged. -/
theorem LobbyJoin_ended_or_initializing (M : Env σ) (db : σ) (so : Client) (a : JoinArgs) (lob : Lobby)
    (hl : M.GetLobbyByID db a.Id = Except.ok lob)
    (hs : lob.State = LobbyStateEnded ∨ lob.State = LobbyStateInitializing) :
    (LobbyJoin M db so a).1.isError = true
    ∧ (LobbyJoin M db so a).2.trace = []
    ∧ (LobbyJoin M db so a).2.db = db :=
  LobbyJoin_refused M db so a lob hl hs

/-- Claim C5, at a concrete input: `guest` tries to join the ended lobby 1. -/
theorem LobbyJoin_ended_or_initializing_witness :
    mem.GetLobbyByID worldEnded joinBlu.Id = Except.ok (debugLobby 1 LobbyStateEnded)
    ∧ (LobbyJoin mem worldEnded guestSocket joinBlu).1.isError = true
    ∧ (LobbyJoin mem worldEnded guestSocket joinBlu).2.trace = []
    ∧ (LobbyJoin mem worldEnded guestSocket joinBlu).2.db = worldEnded :=
  ⟨rfl, LobbyJoin_ended_or_initializing mem worldEnded guestSocket joinBlu
    (debugLobby 1 LobbyStateEnded) rfl (Or.inl rfl)⟩

/-- Claim C6 fails when the slot table refuses the write: the lobby is waiting and
the player holds a slot, yet `RemovePlayer` reports an error, `AddSpectator` is
not called and the player is no spectator. -/
theorem removePlayerFromLobby_remove_fails :
    mem.GetPlayerBySteamID worldSlotsDown "owner" = Except.ok owner
    ∧ mem.GetLobbyByID worldSlotsDown 1 = Except.ok (debugLobby 1 LobbyStateWaiting)
    ∧ mem.GetPlayerSlot worldSlotsDown (debugLobby 1 LobbyStateWaiting) owner = Except.ok 0
    ∧ (removePlayerFromLobby mem (St.init worldSlotsDown) 1 "owner").2.trace
        = [Event.RemovePlayer (debugLobby 1 LobbyStateWaiting) owner]
    ∧ (removePlayerFromLobby mem (St.init worldSlotsDown) 1 "owner").1.err
        = some "slot table unavailable"
    ∧ mem.IsSpectatingID (removePlayerFromLobby mem (St.init worldSlotsDown) 1 "owner").2.db
        owner 1 = false :=
  ⟨rfl, rfl, rfl, rfl, rfl, rfl⟩

/-- Claim C6, amended.  With the player and the lobby found: if the lobby is in
progress or ended, or the player holds no slot of it, an error is returned and
no call is made; in the states initializing, waiting and readying up, with the
player in a slot, `RemovePlayer` is called, and then, if it reports no error,
`AddSpectator` for the same lobby and player, whose result is returned; an
error of `RemovePlayer` is returned without calling `AddSpectator`. -/
theorem removePlayerFromLobby_gate (M : Env σ) (db : σ) (lobbyId : Nat) (steamId : String)
    (player : Player) (lob : Lobby)
    (hp : M.GetPlayerBySteamID db steamId = Except.ok player)
    (hl : M.GetLobbyByID db lobbyId = Except.ok lob) :
    ((lob.State = LobbyStateInProgress ∨ lob.State = LobbyStateEnded
        ∨ (∃ e, M.GetPlayerSlot db lob player = Except.error e)) →
      (removePlayerFromLobby M (St.init db) lobbyId steamId).1.err ≠ none
      ∧ (removePlayerFromLobby M (St.init db) lobbyId steamId).2.trace = [])
    ∧ ((lob.State = LobbyStateInitializing ∨ lob.State = LobbyStateWaiting
          ∨ lob.State = LobbyStateReadyingUp) →
        (∃ slot, M.GetPlayerSlot db lob player = Except.ok slot) →
        (M.RemovePlayer db lob player = none →
          (removePlayerFromLobby M (St.init db) lobbyId steamId).2.trace
            = [Event.RemovePlayer lob player, Event.AddSpectator lob player]
          ∧ (removePlayerFromLobby M (St.init db) lobbyId steamId).1.err
            = M.AddSpectator (M.apply (Event.RemovePlayer lob player) db) lob player)
        ∧ (∀ e, M.RemovePlayer db lob player = some e →
          (removePlayerFromLobby M (St.init db) lobbyId steamId).2.trace
            = [Event.RemovePlayer lob player]
          ∧ (removePlayerFromLobby M (St.init db) lobbyId steamId).1.err = some e)) := by
  rcases removePlayerFromLobby_cases M (St.init db) lobbyId steamId with
    ⟨h, he, hc⟩ | ⟨player', l, slot, hp', hl', h3, h4, h5, ⟨e, he, h⟩ | ⟨hn, h⟩⟩
  · constructor
    · intro _
      exact ⟨he, by rw [h]; rfl⟩
    · intro hs ⟨slot, hslot⟩
      rcases hc player lob hp hl with h1 | h1 | ⟨e, h1⟩
      · rcases hs with hs | hs | hs <;> rw [hs] at h1 <;> cases h1
      · rcases hs with hs | hs | hs <;> rw [hs] at h1 <;> cases h1
      · simp at h1; rw [h1] at hslot; cases hslot
  all_goals
    simp only [St.init_db] at hp' hl' h5
    rw [hp] at hp'; rw [hl] at hl'
    cases hp'; cases hl'
    rw [h]
    refine ⟨?_, ?_⟩
    · rintro (h1 | h1 | ⟨e', h1⟩)
      · exact absurd h1 h3
      · exact absurd h1 h4
      · rw [h1] at h5; cases h5
    · intro _ _
      simp_all

/-- Claim C6, amended, at a concrete input: `owner` and the waiting lobby 1. -/
theorem removePlayerFromLobby_gate_witness :
    mem.GetPlayerBySteamID world0 "owner" = Except.ok owner
    ∧ mem.GetLobbyByID world0 1 = Except.ok (debugLobby 1 LobbyStateWaiting)
    ∧ (((debugLobby 1 LobbyStateWaiting).State = LobbyStateInProgress ∨ (debugLobby 1 LobbyStateWaiting).State = LobbyStateEnded
        ∨ (∃ e, mem.GetPlayerSlot world0 (debugLobby 1 LobbyStateWaiting) owner = Except.error e)) →
      (removePlayerFromLobby mem (St.init world0) 1 "owner").1.err ≠ none
      ∧ (removePlayerFromLobby mem (St.init world0) 1 "owner").2.trace = [])
    ∧ (((debugLobby 1 LobbyStateWaiting).State = LobbyStateInitializing ∨ (debugLobby 1 LobbyStateWaiting).State = LobbyStateWaiting
          ∨ (debugLobby 1 LobbyStateWaiting).State = LobbyStateReadyingUp) →
        (∃ slot, mem.GetPlayerSlot world0 (debugLobby 1 LobbyStateWaiting) owner = Except.ok slot) →
        (mem.RemovePlayer world0 (debugLobby 1 LobbyStateWaiting) owner = none →
          (removePlayerFromLobby mem (St.init world0) 1 "owner").2.trace
            = [Event.RemovePlayer (debugLobby 1 LobbyStateWaiting) owner, Event.AddSpectator (debugLobby 1 LobbyStateWaiting) owner]
          ∧ (removePlayerFromLobby mem (St.init world0) 1 "owner").1.err
            = mem.AddSpectator (mem.apply (Event.RemovePlayer (debugLobby 1 LobbyStateWaiting) owner) world0) (debugLobby 1 LobbyStateWaiting) owner)
        ∧ (∀ e, mem.RemovePlayer world0 (debugLobby 1 LobbyStateWaiting) owner = some e →
          (removePlayerFromLobby mem (St.init world0) 1 "owner").2.trace
            = [Event.RemovePlayer (debugLobby 1 LobbyStateWaiting) owner]
          ∧ (removePlayerFromLobby mem (St.init world0) 1 "owner").1.err = some e)) :=
  ⟨rfl, rfl, removePlayerFromLobby_gate mem world0 1 "owner" owner (debugLobby 1 LobbyStateWaiting)
    rfl rfl⟩

/-- Claim C7.  `LobbyKick` and `LobbyBan` return an error without making any call
when the target is the actor, and when the actor is neither the creator of the
lobby nor an administrator.  `BanPlayer` is called only when the target is not
the actor, the actor may kick, and `RemovePlayer` and `AddSpectator` both
succeeded; `LobbyKick` never calls it. -/
theorem kick_ban_guard (M : Env σ) (db : σ) (so : Client) (Id : Nat) (Steamid : String) :
    ((Steamid = so.steam_id ∨ ¬ mayKick M db Id so.steam_id) →
      (LobbyKick M db so Id Steamid).1.isError = true
      ∧ (LobbyKick M db so Id Steamid).2.trace = []
      ∧ (LobbyBan M db so Id Steamid).1.isError = true
      ∧ (LobbyBan M db so Id Steamid).2.trace = [])
    ∧ (∀ lob p, Event.BanPlayer lob p ∈ (LobbyBan M db so Id Steamid).2.trace →
        Steamid ≠ so.steam_id ∧ mayKick M db Id so.steam_id
        ∧ M.RemovePlayer db lob p = none
        ∧ M.AddSpectator (M.apply (Event.RemovePlayer lob p) db) lob p = none
        ∧ (LobbyBan M db so Id Steamid).2.trace
          = [Event.RemovePlayer lob p, Event.AddSpectator lob p, Event.BanPlayer lob p,
              Event.AfterLobbyLeave (some lob) p])
    ∧ (∀ lob p, Event.BanPlayer lob p ∉ (LobbyKick M db so Id Steamid).2.trace) := by
  unfold LobbyKick LobbyBan
  dsimp only
  by_cases hself : Steamid = so.steam_id
  · simp [hself, Response.isError]
  · rcases playerCanKick_cases M db Id so.steam_id with ⟨hm, hk⟩ | ⟨hm, e, hk⟩
    · rcases removePlayerFromLobby_cases M (St.init db) Id Steamid with
        ⟨h, he, -⟩ | ⟨player, l, slot, -, -, -, -, -, ⟨e, he, h⟩ | ⟨hn, h⟩⟩
      · generalize removePlayerFromLobby M (St.init db) Id Steamid = r at h he ⊢
        obtain ⟨⟨a, b, c⟩, s1⟩ := r
        simp only at h he
        subst h
        cases c with
        | none => exact absurd rfl he
        | some e => simp [hself, hk, hm, Response.isError]
      · simp [hself, hk, hm, h]
      · cases ha : M.AddSpectator (M.apply (Event.RemovePlayer l player) db) l player with
        | some e =>
          simp [hself, hk, hm, h, ha]
        | none =>
          simp [hself, hk, hm, h, ha]
          exact hn
    · simp [hself, hk, hm, Response.isError, Response.ofError]

/-- Claim C7, at a concrete input: `owner`, creator of lobby 2, bans `guest`. -/
theorem kick_ban_guard_witness :
    (LobbyBan mem world0 ownerSocket 2 "guest").2.trace
      = [Event.RemovePlayer (debugLobby 2 LobbyStateWaiting) guest,
          Event.AddSpectator (debugLobby 2 LobbyStateWaiting) guest,
          Event.BanPlayer (debugLobby 2 LobbyStateWaiting) guest,
          Event.AfterLobbyLeave (some (debugLobby 2 LobbyStateWaiting)) guest]
    ∧ (("guest" = ownerSocket.steam_id ∨ ¬ mayKick mem world0 2 ownerSocket.steam_id) →
      (LobbyKick mem world0 ownerSocket 2 "guest").1.isError = true
      ∧ (LobbyKick mem world0 ownerSocket 2 "guest").2.trace = []
      ∧ (LobbyBan mem world0 ownerSocket 2 "guest").1.isError = true
      ∧ (LobbyBan mem world0 ownerSocket 2 "guest").2.trace = [])
    ∧ (∀ lob p, Event.BanPlayer lob p ∈ (LobbyBan mem world0 ownerSocket 2 "guest").2.trace →
        "guest" ≠ ownerSocket.steam_id ∧ mayKick mem world0 2 ownerSocket.steam_id
        ∧ mem.RemovePlayer world0 lob p = none
        ∧ mem.AddSpectator (mem.apply (Event.RemovePlayer lob p) world0) lob p = none
        ∧ (LobbyBan mem world0 ownerSocket 2 "guest").2.trace
          = [Event.RemovePlayer lob p, Event.AddSpectator lob p, Event.BanPlayer lob p,
              Event.AfterLobbyLeave (some lob) p])
    ∧ (∀ lob p, Event.BanPlayer lob p ∉ (LobbyKick mem world0 ownerSocket 2 "guest").2.trace) :=
  ⟨rfl, kick_ban_guard mem world0 ownerSocket 2 "guest"⟩

/-- Claim C8 fails on the reply of `LobbyClose`: for an ended lobby and a requester
who is neither its creator nor an administrator the error is the authorization
error, not "Lobby already closed.". -/
theorem LobbyClose_ended_unauthorized :
    mem.GetLobbyByIDServer worldEnded 1 = Except.ok (debugLobby 1 LobbyStateEnded)
    ∧ (debugLobby 1 LobbyStateEnded).State = LobbyStateEnded
    ∧ (LobbyClose mem worldEnded guestSocket 1).1
      = Response.error "Player not authorized to close lobby."
    ∧ (LobbyClose mem worldEnded guestSocket 1).1 ≠ Response.error "Lobby already closed." :=
  ⟨rfl, rfl, rfl, by decide⟩

/-- Claim C8, amended.  For a lobby whose state is ended, `LobbyClose`, `LobbyJoin`,
`LobbyLeave`, `LobbyKick`, `LobbyBan` and `LobbyServerReset` each return an
error and make no call, so neither the state nor the slots change; `LobbyClose`
returns "Lobby already closed." to the creator and to an administrator and the
authorization error to everyone else; the deadline callback makes no call but
the bookkeeping of the wait group. -/
theorem ended_is_terminal (M : Env σ) (db : σ) (so : Client) (Id : Nat) (target : String)
    (a : JoinArgs) (lob lobS cap : Lobby)
    (hl : M.GetLobbyByID db Id = Except.ok lob) (he : lob.State = LobbyStateEnded)
    (hls : M.GetLobbyByIDServer db Id = Except.ok lobS) (hes : lobS.State = LobbyStateEnded)
    (hc : M.CurrentState db cap = LobbyStateEnded) (ha : a.Id = Id) :
    ((LobbyClose M db so Id).1.isError = true ∧ (LobbyClose M db so Id).2.trace = []
      ∧ (((M.GetPlayer db so).SteamID = lobS.CreatedBySteamID
            ∨ (M.GetPlayer db so).Role = RoleAdmin) →
          (LobbyClose M db so Id).1 = Response.error "Lobby already closed.")
      ∧ (¬ ((M.GetPlayer db so).SteamID = lobS.CreatedBySteamID
            ∨ (M.GetPlayer db so).Role = RoleAdmin) →
          (LobbyClose M db so Id).1 = Response.error "Player not authorized to close lobby."))
    ∧ ((LobbyJoin M db so a).1.isError = true ∧ (LobbyJoin M db so a).2.trace = [])
    ∧ ((LobbyLeave M db so Id).1.isError = true ∧ (LobbyLeave M db so Id).2.trace = [])
    ∧ ((LobbyKick M db so Id target).1.isError = true
      ∧ (LobbyKick M db so Id target).2.trace = [])
    ∧ ((LobbyBan M db so Id target).1.isError = true
      ∧ (LobbyBan M db so Id target).2.trace = [])
    ∧ ((LobbyServerReset M db so Id).1.isError = true
      ∧ (LobbyServerReset M db so Id).2.trace = [])
    ∧ (readyUpTimeout M db cap).trace = [Event.GlobalWaitDone] := by
  have hrem : ∀ steamId, ∃ l p e,
      removePlayerFromLobby M (St.init db) Id steamId = (⟨l, p, some e⟩, St.init db) := by
    intro steamId
    unfold removePlayerFromLobby
    cases h1 : M.GetPlayerBySteamID (St.init db).db steamId with
    | error e => exact ⟨_, _, _, rfl⟩
    | ok player =>
      simp only [St.init_db] at h1 ⊢
      simp [hl, he]
  refine ⟨?_, ?_, ?_, ?_, ?_, ?_, ?_⟩
  · unfold LobbyClose
    dsimp only
    by_cases hauth : (M.GetPlayer db so).SteamID = lobS.CreatedBySteamID
        ∨ (M.GetPlayer db so).Role = RoleAdmin
    · have : ¬ ((M.GetPlayer db so).SteamID ≠ lobS.CreatedBySteamID
          ∧ (M.GetPlayer db so).Role ≠ RoleAdmin) := by
        rintro ⟨h1, h2⟩; rcases hauth with h | h
        · exact h1 h
        · exact h2 h
      simp [hls, hes, this, hauth, Response.isError]
    · have : (M.GetPlayer db so).SteamID ≠ lobS.CreatedBySteamID
          ∧ (M.GetPlayer db so).Role ≠ RoleAdmin := by
        constructor
        · intro h; exact hauth (Or.inl h)
        · intro h; exact hauth (Or.inr h)
      simp [hls, this, hauth, Response.isError]
  · have := LobbyJoin_refused M db so a lob (by rw [ha]; exact hl) (Or.inl he)
    exact ⟨this.1, this.2.1⟩
  · obtain ⟨l, p, e, h⟩ := hrem so.steam_id
    unfold LobbyLeave
    dsimp only
    rw [h]
    simp [Response.isError]
  · unfold LobbyKick
    dsimp only
    by_cases hself : target = so.steam_id
    · simp [hself, Response.isError]
    · rcases playerCanKick_cases M db Id so.steam_id with ⟨-, hk⟩ | ⟨-, e, hk⟩
      · obtain ⟨l, p, e, h⟩ := hrem target
        simp [hself, hk, h, Response.isError]
      · simp [hself, hk, Response.isError, Response.ofError]
  · unfold LobbyBan
    dsimp only
    by_cases hself : target = so.steam_id
    · simp [hself, Response.isError]
    · rcases playerCanKick_cases M db Id so.steam_id with ⟨-, hk⟩ | ⟨-, e, hk⟩
      · obtain ⟨l, p, e, h⟩ := hrem target
        simp [hself, hk, h, Response.isError]
      · simp [hself, hk, Response.isError, Response.ofError]
  · unfold LobbyServerReset
    dsimp only
    simp only [St.init_db, hl, he]
    split <;> simp [Response.isError]
  · exact (readyUpTimeout_idle M db cap (Or.inr (Or.inr hc))).1

/-- Claim C8, amended, at a concrete input: the ended lobby 1 and its creator. -/
theorem ended_is_terminal_witness :
    mem.GetLobbyByID worldEnded 1 = Except.ok (debugLobby 1 LobbyStateEnded)
    ∧ mem.CurrentState worldEnded (debugLobby 1 LobbyStateReadyingUp) = LobbyStateEnded
    ∧ ((LobbyClose mem worldEnded ownerSocket 1).1.isError = true ∧ (LobbyClose mem worldEnded ownerSocket 1).2.trace = []
      ∧ (((mem.GetPlayer worldEnded ownerSocket).SteamID = (debugLobby 1 LobbyStateEnded).CreatedBySteamID
            ∨ (mem.GetPlayer worldEnded ownerSocket).Role = RoleAdmin) →
          (LobbyClose mem worldEnded ownerSocket 1).1 = Response.error "Lobby already closed.")
      ∧ (¬ ((mem.GetPlayer worldEnded ownerSocket).SteamID = (debugLobby 1 LobbyStateEnded).CreatedBySteamID
            ∨ (mem.GetPlayer worldEnded ownerSocket).Role = RoleAdmin) →
          (LobbyClose mem worldEnded ownerSocket 1).1 = Response.error "Player not authorized to close lobby."))
    ∧ ((LobbyJoin mem worldEnded ownerSocket joinBlu).1.isError = true ∧ (LobbyJoin mem worldEnded ownerSocket joinBlu).2.trace = [])
    ∧ ((LobbyLeave mem worldEnded ownerSocket 1).1.isError = true ∧ (LobbyLeave mem worldEnded ownerSocket 1).2.trace = [])
    ∧ ((LobbyKick mem worldEnded ownerSocket 1 "guest").1.isError = true
      ∧ (LobbyKick mem worldEnded ownerSocket 1 "guest").2.trace = [])
    ∧ ((LobbyBan mem worldEnded ownerSocket 1 "guest").1.isError = true
      ∧ (LobbyBan mem worldEnded ownerSocket 1 "guest").2.trace = [])
    ∧ ((LobbyServerReset mem worldEnded ownerSocket 1).1.isError = true
      ∧ (LobbyServerReset mem worldEnded ownerSocket 1).2.trace = [])
    ∧ (readyUpTimeout mem worldEnded (debugLobby 1 LobbyStateReadyingUp)).trace = [Event.GlobalWaitDone] :=
  ⟨rfl, rfl, ended_is_terminal mem worldEnded ownerSocket 1 "guest" joinBlu
    (debugLobby 1 LobbyStateEnded) (debugLobby 1 LobbyStateEnded)
    (debugLobby 1 LobbyStateReadyingUp) rfl rfl rfl rfl rfl rfl⟩

/-- Claim C9 fails where status calls take time.  In `memSlow` a sleep advances
the clock by its duration and a status call by 0.58 seconds.  The reservation
service answers "waiting" seventeen times; after each of the seventeen sleeps
less than three minutes have passed (179.86 seconds after the last), so the loop
goes on, and the eighteenth status call answers "ready" 180.44 seconds after the
start of the polling: creation proceeds and succeeds, although "ready" was not
observed before three minutes had elapsed. -/
theorem createLobby_ready_after_ceiling :
    (∀ w d, memSlow.Now w + d ≤ memSlow.Now (memSlow.apply (Event.Sleep d) w))
    ∧ (∀ w ctx id steamID,
        memSlow.Now w ≤ memSlow.Now (memSlow.apply (Event.ContextStatus ctx id steamID) w))
    ∧ memSlow.Now ((pollRound memSlow ServemeContext.servemeEU 1 "guest")^[17]
          (saveLobby memSlow (St.init worldSlow) servemeArgs servemeResolved newSixes).2).db
        - memSlow.Now
            (saveLobby memSlow (St.init worldSlow) servemeArgs servemeResolved newSixes).2.db
      = 179860000000
    ∧ (memSlow.ContextStatus
          ((pollRound memSlow ServemeContext.servemeEU 1 "guest")^[17]
            (saveLobby memSlow (St.init worldSlow) servemeArgs servemeResolved newSixes).2).db
          ServemeContext.servemeEU 1 "guest").1 = "ready"
    ∧ memSlow.Now (((pollRound memSlow ServemeContext.servemeEU 1 "guest")^[17]
            (saveLobby memSlow (St.init worldSlow) servemeArgs servemeResolved newSixes).2).call
          memSlow (Event.ContextStatus ServemeContext.servemeEU 1 "guest")).db
        - memSlow.Now
            (saveLobby memSlow (St.init worldSlow) servemeArgs servemeResolved newSixes).2.db
      = 180440000000
    ∧ 3 * Minute = 180000000000
    ∧ (createLobby memSlow 18 (St.init worldSlow) servemeArgs guest servemeResolved
          newSixes).map (fun r => r.1) = some (Response.newResponse 3)
    ∧ (LobbyCreate memSlow 18 worldSlow guestSocket servemeArgs).map (fun r => r.1)
        = some (Response.newResponse 3)
    ∧ (LobbyCreate memSlow 18 worldSlow guestSocket servemeArgs).map
        (fun r => statusCalls r.2.trace) = some 18 :=
  ⟨by intro w d; simp [memSlow, mem, memApply],
    by intro w ctx id steamID; simp [memSlow, mem, memApply],
    rfl, rfl, rfl, rfl, rfl, rfl, rfl⟩

/-- Claim C9, amended.  With a clock that no status call turns back and that every sleep
advances by at least its duration, the polling of a serveme lobby ends for every
behaviour of the reservation service, with 18 units of fuel and with any more:
after `k < 18` rounds of status call and sleep, so after `k + 1 ≤ 18` status
calls, in one of two ways.  Either the status call after the `k` rounds answers
"ready", every reading of the clock in the rounds before was under three
minutes (and so is the time of the reply when status calls take no time), and
the handler goes on to the provisioning, which deletes the lobby and returns an
error or sets its state to waiting.  Or the reading after round `k + 1` has
reached three minutes, the lobby is deleted and the error is returned. -/
theorem createLobby_polling (M : Env σ)
    (hsleep : ∀ w d, M.Now w + d ≤ M.Now (M.apply (Event.Sleep d) w))
    (hstatus : ∀ w ctx id steamID,
      M.Now w ≤ M.Now (M.apply (Event.ContextStatus ctx id steamID) w))
    (fuel : Nat) (hfuel : 18 ≤ fuel) (s : St σ) (args : CreateArgs) (player : Player)
    (rs : Resolved) (lob : Lobby) (ctx : ServemeContext)
    (hserveme : args.ServerType = "serveme") (hctx : rs.context = some ctx) :
    ∃ k exit r st,
      createLobby M fuel s args player rs lob = some (r, st)
      ∧ createLobby M 18 s args player rs lob = some (r, st)
      ∧ k < 18
      ∧ statusCalls exit.trace = statusCalls (saveLobby M s args rs lob).2.trace + (k + 1)
      ∧ (∀ j, j < k →
          (M.ContextStatus
              ((pollRound M ctx rs.reservation.ID player.SteamID)^[j]
                (saveLobby M s args rs lob).2).db ctx rs.reservation.ID player.SteamID).1
            ≠ "ready"
          ∧ M.Now ((pollRound M ctx rs.reservation.ID player.SteamID)^[j + 1]
                (saveLobby M s args rs lob).2).db
              - M.Now (saveLobby M s args rs lob).2.db < 3 * Minute)
      ∧ (((M.ContextStatus
              ((pollRound M ctx rs.reservation.ID player.SteamID)^[k]
                (saveLobby M s args rs lob).2).db ctx rs.reservation.ID player.SteamID).1
            = "ready"
          ∧ exit = ((pollRound M ctx rs.reservation.ID player.SteamID)^[k]
                (saveLobby M s args rs lob).2).call M
              (Event.ContextStatus ctx rs.reservation.ID player.SteamID)
          ∧ (r, st) = provision M
              (exit.call M (Event.ServemeCheck (saveLobby M s args rs lob).1 ctx)) args
              (saveLobby M s args rs lob).1
          ∧ ((∀ w, M.Now (M.apply (Event.ContextStatus ctx rs.reservation.ID player.SteamID) w)
                = M.Now w) →
              M.Now exit.db - M.Now (saveLobby M s args rs lob).2.db < 3 * Minute)
          ∧ ((r.isError = true ∧ Event.Delete (saveLobby M s args rs lob).1 ∈ st.trace)
            ∨ (r = Response.newResponse (saveLobby M s args rs lob).1.ID
              ∧ Event.SetState (saveLobby M s args rs lob).1 LobbyStateWaiting ∈ st.trace)))
        ∨ ((M.ContextStatus
              ((pollRound M ctx rs.reservation.ID player.SteamID)^[k]
                (saveLobby M s args rs lob).2).db ctx rs.reservation.ID player.SteamID).1
            ≠ "ready"
          ∧ exit = (pollRound M ctx rs.reservation.ID player.SteamID)^[k + 1]
                (saveLobby M s args rs lob).2
          ∧ 3 * Minute ≤ M.Now exit.db - M.Now (saveLobby M s args rs lob).2.db
          ∧ r = Response.error "Couldn\x27t get Serveme reservation, try another server."
          ∧ st = exit.call M (Event.Delete (saveLobby M s args rs lob).1))) := by
  obtain ⟨k, hk, hk18, hall, hres⟩ := pollReservation_rounds M hsleep hstatus ctx
    rs.reservation.ID player.SteamID (M.Now (saveLobby M s args rs lob).2.db)
    (saveLobby M s args rs lob).1 17 0 (saveLobby M s args rs lob).2 (by simp [Second]) (by omega)
  have hk' : k < 18 := by omega
  have hmono := fun r h => pollReservation_mono M ctx rs.reservation.ID player.SteamID
    (M.Now (saveLobby M s args rs lob).2.db) (saveLobby M s args rs lob).1 18
    (saveLobby M s args rs lob).2 r h (fuel - 18)
  have hfe : 18 + (fuel - 18) = fuel := by omega
  rw [hfe] at hmono
  have hzero : (∀ w, M.Now (M.apply (Event.ContextStatus ctx rs.reservation.ID player.SteamID) w)
        = M.Now w) →
      M.Now (((pollRound M ctx rs.reservation.ID player.SteamID)^[k]
            (saveLobby M s args rs lob).2).call M
          (Event.ContextStatus ctx rs.reservation.ID player.SteamID)).db
        - M.Now (saveLobby M s args rs lob).2.db < 3 * Minute := by
    intro hz
    rw [St.call_db, hz]
    cases k with
    | zero => simp [Minute, Second]
    | succ k => exact (hall k (Nat.lt_succ_self k)).2
  rcases hres with ⟨hready, hp⟩ | ⟨hnot, hceil, hp⟩
  · have hp' := hmono _ hp
    rcases provision_cases M
        ((((pollRound M ctx rs.reservation.ID player.SteamID)^[k]
            (saveLobby M s args rs lob).2).call M
          (Event.ContextStatus ctx rs.reservation.ID player.SteamID)).call M
          (Event.ServemeCheck (saveLobby M s args rs lob).1 ctx)) args
        (saveLobby M s args rs lob).1 with ⟨e, -, hpr⟩ | ⟨-, hr1, rest, hr2⟩
    · refine ⟨k, _, _, _, ?_, ?_, hk', ?_, hall, Or.inl ⟨hready, rfl, hpr.symm, hzero, Or.inl ⟨rfl, ?_⟩⟩⟩
      · unfold createLobby
        simp only [hserveme, hctx, if_true, hp', hpr]
      · unfold createLobby
        simp only [hserveme, hctx, if_true, hp, hpr]
      · simp [statusCalls, Event.isStatus, pollRound_statusCalls] 
        have := pollRound_statusCalls M ctx rs.reservation.ID player.SteamID k
          (saveLobby M s args rs lob).2
        simp only [statusCalls] at this
        omega
      · simp
    · refine ⟨k, _, (provision M _ args (saveLobby M s args rs lob).1).1,
        (provision M _ args (saveLobby M s args rs lob).1).2, ?_, ?_, hk', ?_, hall,
        Or.inl ⟨hready, rfl, rfl, hzero, Or.inr ⟨hr1, ?_⟩⟩⟩
      · unfold createLobby
        simp only [hserveme, hctx, if_true, hp']
      · unfold createLobby
        simp only [hserveme, hctx, if_true, hp]
      · simp [statusCalls, Event.isStatus, pollRound_statusCalls] 
        have := pollRound_statusCalls M ctx rs.reservation.ID player.SteamID k
          (saveLobby M s args rs lob).2
        simp only [statusCalls] at this
        omega
      · rw [hr2]; simp
  · have hp' := hmono _ hp
    refine ⟨k, _, _, _, ?_, ?_, hk', ?_, hall, Or.inr ⟨hnot, rfl, hceil, rfl, rfl⟩⟩
    · unfold createLobby
      simp only [hserveme, hctx, if_true, hp']
    · unfold createLobby
      simp only [hserveme, hctx, if_true, hp]
    · exact pollRound_statusCalls M ctx rs.reservation.ID player.SteamID (k + 1)
        (saveLobby M s args rs lob).2

/-- Claim C9, amended, at a concrete input: the reservation is ready at the second status
call. -/
theorem createLobby_polling_witness :
    servemeArgs.ServerType = "serveme"
    ∧ servemeResolved.context = some ServemeContext.servemeEU
    ∧ (createLobby mem 18 (St.init worldReserving) servemeArgs guest servemeResolved newSixes).map
        (fun r => r.1) = some (Response.newResponse 3)
    ∧ (LobbyCreate mem 18 world0 guestSocket servemeArgs).map (fun r => r.1)
      = some (Response.error "Couldn\x27t get Serveme reservation, try another server.")
    ∧ LobbyCreate mem 17 world0 guestSocket servemeArgs = none
    ∧ ∃ k exit r st,
      createLobby mem 18 (St.init worldReserving) servemeArgs guest servemeResolved newSixes = some (r, st)
      ∧ createLobby mem 18 (St.init worldReserving) servemeArgs guest servemeResolved newSixes = some (r, st)
      ∧ k < 18
      ∧ statusCalls exit.trace = statusCalls (saveLobby mem (St.init worldReserving) servemeArgs servemeResolved newSixes).2.trace + (k + 1)
      ∧ (∀ j, j < k →
          (mem.ContextStatus
              ((pollRound mem ServemeContext.servemeEU servemeResolved.reservation.ID guest.SteamID)^[j]
                (saveLobby mem (St.init worldReserving) servemeArgs servemeResolved newSixes).2).db ServemeContext.servemeEU servemeResolved.reservation.ID guest.SteamID).1
            ≠ "ready"
          ∧ mem.Now ((pollRound mem ServemeContext.servemeEU servemeResolved.reservation.ID guest.SteamID)^[j + 1]
                (saveLobby mem (St.init worldReserving) servemeArgs servemeResolved newSixes).2).db
              - mem.Now (saveLobby mem (St.init worldReserving) servemeArgs servemeResolved newSixes).2.db < 3 * Minute)
      ∧ (((mem.ContextStatus
              ((pollRound mem ServemeContext.servemeEU servemeResolved.reservation.ID guest.SteamID)^[k]
                (saveLobby mem (St.init worldReserving) servemeArgs servemeResolved newSixes).2).db ServemeContext.servemeEU servemeResolved.reservation.ID guest.SteamID).1
            = "ready"
          ∧ exit = ((pollRound mem ServemeContext.servemeEU servemeResolved.reservation.ID guest.SteamID)^[k]
                (saveLobby mem (St.init worldReserving) servemeArgs servemeResolved newSixes).2).call mem
              (Event.ContextStatus ServemeContext.servemeEU servemeResolved.reservation.ID guest.SteamID)
          ∧ (r, st) = provision mem
              (exit.call mem (Event.ServemeCheck (saveLobby mem (St.init worldReserving) servemeArgs servemeResolved newSixes).1 ServemeContext.servemeEU)) servemeArgs
              (saveLobby mem (St.init worldReserving) servemeArgs servemeResolved newSixes).1
          ∧ ((∀ w, mem.Now (mem.apply (Event.ContextStatus ServemeContext.servemeEU servemeResolved.reservation.ID guest.SteamID) w)
                = mem.Now w) →
              mem.Now exit.db - mem.Now (saveLobby mem (St.init worldReserving) servemeArgs servemeResolved newSixes).2.db < 3 * Minute)
          ∧ ((r.isError = true ∧ Event.Delete (saveLobby mem (St.init worldReserving) servemeArgs servemeResolved newSixes).1 ∈ st.trace)
            ∨ (r = Response.newResponse (saveLobby mem (St.init worldReserving) servemeArgs servemeResolved newSixes).1.ID
              ∧ Event.SetState (saveLobby mem (St.init worldReserving) servemeArgs servemeResolved newSixes).1 LobbyStateWaiting ∈ st.trace)))
        ∨ ((mem.ContextStatus
              ((pollRound mem ServemeContext.servemeEU servemeResolved.reservation.ID guest.SteamID)^[k]
                (saveLobby mem (St.init worldReserving) servemeArgs servemeResolved newSixes).2).db ServemeContext.servemeEU servemeResolved.reservation.ID guest.SteamID).1
            ≠ "ready"
          ∧ exit = (pollRound mem ServemeContext.servemeEU servemeResolved.reservation.ID guest.SteamID)^[k + 1]
                (saveLobby mem (St.init worldReserving) servemeArgs servemeResolved newSixes).2
          ∧ 3 * Minute ≤ mem.Now exit.db - mem.Now (saveLobby mem (St.init worldReserving) servemeArgs servemeResolved newSixes).2.db
          ∧ r = Response.error "Couldn\x27t get Serveme reservation, try another server."
          ∧ st = exit.call mem (Event.Delete (saveLobby mem (St.init worldReserving) servemeArgs servemeResolved newSixes).1))) :=
  ⟨rfl, rfl, rfl, rfl, rfl, createLobby_polling mem
    (by intro w d; simp [mem, memApply])
    (by intro w ctx id steamID; simp [mem, memApply])
    18 (le_refl 18) (St.init worldReserving) servemeArgs guest servemeResolved newSixes
    ServemeContext.servemeEU rfl rfl⟩

/-- Claim C10 fails in the code: the reservation service created the reservation
(id 1, no error), the host it handed out already backs a lobby, and
`LobbyCreate` returns "A lobby is already using this server." after the calls
`RandRead` and `ContextCreate` only; no delete call reached the reservation
service. -/
theorem LobbyCreate_leaks_reservation :
    (mem.ContextCreate (mem.apply Event.RandRead worldHostTaken) ServemeContext.servemeEU
        askedReservation "guest")
      = ({ askedReservation with ID := 1, IPAndPort := "10.0.0.1:27015" }, none)
    ∧ (LobbyCreate mem 18 worldHostTaken guestSocket servemeArgs).map (fun r => (r.1, r.2.trace))
      = some (Response.error "A lobby is already using this server.",
          [Event.RandRead,
            Event.ContextCreate ServemeContext.servemeEU askedReservation "guest"])
    ∧ ((LobbyCreate mem 18 worldHostTaken guestSocket servemeArgs).map
        (fun r => r.2.trace.filter Event.isContextDelete)) = some [] :=
  ⟨rfl, rfl, rfl⟩

/-! ### Auxiliary lemmas for the further handlers, the broadcaster and the registry -/
/-- What `LobbySetRequirement` has done when it returns success: the requester
is the creator, the slot is in range, one requirement row was saved and both
broadcasts were made; a row that did not exist is made for the slot asked for. -/
theorem LobbySetRequirement_accepted (M : Env σ) (db : σ) (so : Client)
    (args : SetRequirementArgs) (lobby : Lobby)
    (hl : M.GetLobbyByID db args.ID = Except.ok lobby)
    (h : (LobbySetRequirement M db so args).1 = Response.emptySuccess) :
    lobby.CreatedBySteamID = (M.GetPlayer db so).SteamID
    ∧ 0 ≤ args.Slot ∧ args.Slot < 2 * M.NumberOfClassesMap lobby.Type_
    ∧ ∃ req, (LobbySetRequirement M db so args).2.trace
        = [Event.StoredRequirementSave req, Event.BroadcastLobby (some lobby),
            Event.BroadcastLobbyList]
      ∧ ((M.GetSlotRequirement db lobby args.Slot).2 ≠ none →
          req.Slot = args.Slot ∧ req.LobbyID = args.ID) := by
  unfold LobbySetRequirement at h ⊢
  simp only [St.init_db, hl] at h ⊢
  by_cases hc : lobby.CreatedBySteamID = (M.GetPlayer db so).SteamID
  · by_cases hs : args.Slot ≥ 0 ∧ args.Slot < 2 * M.NumberOfClassesMap lobby.Type_
    · refine ⟨hc, hs.1, hs.2, ?_⟩
      simp only [hc, hs, ne_eq, not_true_eq_false, if_false, and_self] at h ⊢
      by_cases h1 : args.Type_ = "hours"
      · simp only [h1, if_true] at h ⊢
        cases he : (M.Int64 args.Value).2 with
        | some e => simp [saveRequirement, he] at h
        | none =>
          refine ⟨_, by simp [saveRequirement, he, St.call, St.init]; rfl, ?_⟩
          intro hn; simp [hn]
      · by_cases h2 : args.Type_ = "lobbies"
        · simp only [h2, if_true] at h ⊢
          cases he : (M.Int64 args.Value).2 with
          | some e => simp [saveRequirement, he] at h
          | none =>
            refine ⟨_, by simp [saveRequirement, he, St.call, St.init]; rfl, ?_⟩
            intro hn; simp [hn]
        · by_cases h3 : args.Type_ = "reliability"
          · simp only [h3, if_true] at h ⊢
            cases he : (M.Float64 args.Value).2 with
            | some e => simp [saveRequirement, he] at h
            | none =>
              refine ⟨_, by simp [saveRequirement, he, St.call, St.init]; rfl, ?_⟩
              intro hn; simp [hn]
          · simp [h1, h2, h3] at h
    · simp [hc, hs] at h
  · simp [hc] at h

/-- The two handlers that lift a restriction: refused for a requester who is
neither the creator, nor an administrator, nor a moderator; otherwise the lobby
is saved with the field emptied and both broadcasts are made. -/
theorem restriction_cases (M : Env σ) (db : σ) (so : Client) (ID : Nat) (lobby : Lobby)
    (hl : M.GetLobbyByID db ID = Except.ok lobby) :
    (((M.GetPlayer db so).SteamID ≠ lobby.CreatedBySteamID
        ∧ (M.GetPlayer db so).Role ≠ RoleAdmin ∧ (M.GetPlayer db so).Role ≠ RoleMod) →
      LobbyRemoveTwitchRestriction M db so ID
          = (Response.error "You aren\x27t authorized to do this.", St.init db)
      ∧ LobbyRemoveSteamRestriction M db so ID
          = (Response.error "You aren\x27t authorized to do this.", St.init db))
    ∧ (¬ ((M.GetPlayer db so).SteamID ≠ lobby.CreatedBySteamID
        ∧ (M.GetPlayer db so).Role ≠ RoleAdmin ∧ (M.GetPlayer db so).Role ≠ RoleMod) →
      ((LobbyRemoveTwitchRestriction M db so ID).1 = Response.emptySuccess
        ∧ (LobbyRemoveTwitchRestriction M db so ID).2.trace
          = [Event.Save { lobby with TwitchChannel := "" },
              Event.BroadcastLobby (some (M.Save db { lobby with TwitchChannel := "" })),
              Event.BroadcastLobbyList])
      ∧ ((LobbyRemoveSteamRestriction M db so ID).1 = Response.emptySuccess
        ∧ (LobbyRemoveSteamRestriction M db so ID).2.trace
          = [Event.Save { lobby with PlayerWhitelist := "" },
              Event.BroadcastLobby (some (M.Save db { lobby with PlayerWhitelist := "" })),
              Event.BroadcastLobbyList])) := by
  constructor
  · intro h
    unfold LobbyRemoveTwitchRestriction LobbyRemoveSteamRestriction
    simp only [St.init_db, hl]
    simp [h]
  · intro h
    unfold LobbyRemoveTwitchRestriction LobbyRemoveSteamRestriction
    simp only [St.init_db, hl]
    simp only [if_neg h]
    simp [saveAndBroadcast, St.call, St.init]

/-- What `LobbyChangeOwner` does once the lobby is found. -/
theorem LobbyChangeOwner_cases (M : Env σ) (db : σ) (so : Client) (ID : Nat) (SteamID : String)
    (lobby : Lobby) (hl : M.GetLobbyByID db ID = Except.ok lobby) :
    ((M.GetPlayer db so).SteamID ≠ lobby.CreatedBySteamID →
      LobbyChangeOwner M db so ID SteamID
        = (Response.error "You aren\x27t authorized to change lobby owner.", St.init db))
    ∧ ((LobbyChangeOwner M db so ID SteamID).1 = Response.emptySuccess →
      ∃ player2, M.GetPlayerBySteamID db SteamID = Except.ok player2
        ∧ (LobbyChangeOwner M db so ID SteamID).2.trace
          = [Event.Save { lobby with CreatedBySteamID := player2.SteamID },
              Event.BroadcastLobby
                (some (M.Save db { lobby with CreatedBySteamID := player2.SteamID })),
              Event.BroadcastLobbyList,
              Event.BotMessageSend ("Lobby leader changed to "
                ++ M.Alias (run M db
                    [Event.Save { lobby with CreatedBySteamID := player2.SteamID },
                      Event.BroadcastLobby
                        (some (M.Save db { lobby with CreatedBySteamID := player2.SteamID })),
                      Event.BroadcastLobbyList]) player2) (Int.ofNat ID)]) := by
  constructor
  · intro h
    unfold LobbyChangeOwner
    simp only [St.init_db, hl]
    simp [Ne.symm h]
  · intro h
    unfold LobbyChangeOwner at h ⊢
    simp only [St.init_db, hl] at h ⊢
    by_cases hc : lobby.CreatedBySteamID = (M.GetPlayer db so).SteamID
    · cases hp : M.GetPlayerBySteamID db SteamID with
      | error e => simp [hc, hp] at h
      | ok player2 =>
        refine ⟨player2, rfl, ?_⟩
        simp [hc, St.call, St.init, run]
    · simp [hc] at h


/-- `LobbySetRequirement` for the creator and a slot in range: the field named
by the type is set in the row of the slot, and the row is saved unless the
value does not convert. -/
theorem LobbySetRequirement_creator (M : Env σ) (db : σ) (so : Client)
    (args : SetRequirementArgs) (lobby : Lobby)
    (hl : M.GetLobbyByID db args.ID = Except.ok lobby)
    (hc : lobby.CreatedBySteamID = (M.GetPlayer db so).SteamID)
    (hs : 0 ≤ args.Slot ∧ args.Slot < 2 * M.NumberOfClassesMap lobby.Type_) :
    (args.Type_ = "hours" →
      LobbySetRequirement M db so args = saveRequirement M (St.init db) lobby
        { slotRow M db lobby args with Hours := (M.Int64 args.Value).1 } (M.Int64 args.Value).2)
    ∧ (args.Type_ = "lobbies" →
      LobbySetRequirement M db so args = saveRequirement M (St.init db) lobby
        { slotRow M db lobby args with Lobbies := (M.Int64 args.Value).1 } (M.Int64 args.Value).2)
    ∧ (args.Type_ = "reliability" →
      LobbySetRequirement M db so args = saveRequirement M (St.init db) lobby
        { slotRow M db lobby args with Reliability := (M.Float64 args.Value).1 }
        (M.Float64 args.Value).2)
    ∧ ((args.Type_ ≠ "hours" ∧ args.Type_ ≠ "lobbies" ∧ args.Type_ ≠ "reliability") →
      LobbySetRequirement M db so args
        = (Response.error "Invalid requirement type.", St.init db)) := by
  have hs' : args.Slot ≥ 0 ∧ args.Slot < 2 * M.NumberOfClassesMap lobby.Type_ := hs
  refine ⟨?_, ?_, ?_, ?_⟩
  · intro ht
    unfold LobbySetRequirement slotRow
    simp only [St.init_db, hl]
    simp [hc, hs', ht]
  · intro ht
    unfold LobbySetRequirement slotRow
    simp only [St.init_db, hl]
    simp [hc, hs', ht]
  · intro ht
    unfold LobbySetRequirement slotRow
    simp only [St.init_db, hl]
    simp [hc, hs', ht]
  · intro ht
    unfold LobbySetRequirement
    simp only [St.init_db, hl]
    simp [hc, hs', ht.1, ht.2.1, ht.2.2]

/-- The end of `LobbySetRequirement`: refused when the value did not convert,
else the row is saved and both broadcasts are made. -/
theorem saveRequirement_cases (M : Env σ) (db : σ) (lobby : Lobby) (req : StoredRequirement)
    (err : Option String) :
    (err = none → (saveRequirement M (St.init db) lobby req err).1 = Response.emptySuccess
      ∧ (saveRequirement M (St.init db) lobby req err).2.trace
        = [Event.StoredRequirementSave req, Event.BroadcastLobby (some lobby),
            Event.BroadcastLobbyList])
    ∧ (err ≠ none → saveRequirement M (St.init db) lobby req err
        = (Response.error "Invalid requirement.", St.init db)) := by
  cases err with
  | none => simp [saveRequirement, St.call, St.init]
  | some e => simp [saveRequirement]


/-- When `LobbyChangeOwner` accepts: the requester is the creator and the new
owner exists. -/
theorem LobbyChangeOwner_accepts (M : Env σ) (db : σ) (so : Client) (ID : Nat) (SteamID : String)
    (lobby : Lobby) (hl : M.GetLobbyByID db ID = Except.ok lobby) :
    (LobbyChangeOwner M db so ID SteamID).1 = Response.emptySuccess
      ↔ ((M.GetPlayer db so).SteamID = lobby.CreatedBySteamID
        ∧ ∃ player2, M.GetPlayerBySteamID db SteamID = Except.ok player2) := by
  unfold LobbyChangeOwner
  simp only [St.init_db, hl]
  by_cases hc : lobby.CreatedBySteamID = (M.GetPlayer db so).SteamID
  · cases hp : M.GetPlayerBySteamID db SteamID with
    | error e => simp [hc]
    | ok player2 => simp [hc]
  · have hc2 : ¬ (M.GetPlayer db so).SteamID = lobby.CreatedBySteamID := fun h => hc h.symm
    simp [hc, hc2]

/-- When `LobbySetRequirement` accepts: the requester is the creator, the slot
is in range, the type is one of the three and the value converts. -/
theorem LobbySetRequirement_accepts (M : Env σ) (db : σ) (so : Client)
    (args : SetRequirementArgs) (lobby : Lobby)
    (hl : M.GetLobbyByID db args.ID = Except.ok lobby) :
    (LobbySetRequirement M db so args).1 = Response.emptySuccess
      ↔ ((M.GetPlayer db so).SteamID = lobby.CreatedBySteamID
        ∧ 0 ≤ args.Slot ∧ args.Slot < 2 * M.NumberOfClassesMap lobby.Type_
        ∧ ((args.Type_ = "hours" ∧ (M.Int64 args.Value).2 = none)
          ∨ (args.Type_ = "lobbies" ∧ (M.Int64 args.Value).2 = none)
          ∨ (args.Type_ = "reliability" ∧ (M.Float64 args.Value).2 = none))) := by
  constructor
  · intro h
    obtain ⟨hc, h0, h1, -⟩ := LobbySetRequirement_accepted M db so args lobby hl h
    refine ⟨hc.symm, h0, h1, ?_⟩
    have hcases := LobbySetRequirement_creator M db so args lobby hl hc ⟨h0, h1⟩
    by_cases t1 : args.Type_ = "hours"
    · left
      refine ⟨t1, ?_⟩
      by_contra he
      rw [hcases.1 t1, ((saveRequirement_cases M db lobby _ _).2 he)] at h
      simp at h
    · by_cases t2 : args.Type_ = "lobbies"
      · right; left
        refine ⟨t2, ?_⟩
        by_contra he
        rw [hcases.2.1 t2, ((saveRequirement_cases M db lobby _ _).2 he)] at h
        simp at h
      · by_cases t3 : args.Type_ = "reliability"
        · right; right
          refine ⟨t3, ?_⟩
          by_contra he
          rw [hcases.2.2.1 t3, ((saveRequirement_cases M db lobby _ _).2 he)] at h
          simp at h
        · rw [hcases.2.2.2 ⟨t1, t2, t3⟩] at h
          simp at h
  · rintro ⟨hc, h0, h1, ht⟩
    have hcases := LobbySetRequirement_creator M db so args lobby hl hc.symm ⟨h0, h1⟩
    rcases ht with ⟨t, he⟩ | ⟨t, he⟩ | ⟨t, he⟩
    · rw [hcases.1 t]; exact ((saveRequirement_cases M db lobby _ _).1 he).1
    · rw [hcases.2.1 t]; exact ((saveRequirement_cases M db lobby _ _).1 he).1
    · rw [hcases.2.2.1 t]; exact ((saveRequirement_cases M db lobby _ _).1 he).1

/-- The row that an accepted `LobbySetRequirement` saves, by type. -/
theorem LobbySetRequirement_row (M : Env σ) (db : σ) (so : Client)
    (args : SetRequirementArgs) (lobby : Lobby)
    (hl : M.GetLobbyByID db args.ID = Except.ok lobby)
    (h : (LobbySetRequirement M db so args).1 = Response.emptySuccess) :
    (args.Type_ = "hours" →
      (LobbySetRequirement M db so args).2.trace
        = [Event.StoredRequirementSave
              { slotRow M db lobby args with Hours := (M.Int64 args.Value).1 },
            Event.BroadcastLobby (some lobby), Event.BroadcastLobbyList])
    ∧ (args.Type_ = "lobbies" →
      (LobbySetRequirement M db so args).2.trace
        = [Event.StoredRequirementSave
              { slotRow M db lobby args with Lobbies := (M.Int64 args.Value).1 },
            Event.BroadcastLobby (some lobby), Event.BroadcastLobbyList])
    ∧ (args.Type_ = "reliability" →
      (LobbySetRequirement M db so args).2.trace
        = [Event.StoredRequirementSave
              { slotRow M db lobby args with Reliability := (M.Float64 args.Value).1 },
            Event.BroadcastLobby (some lobby), Event.BroadcastLobbyList]) := by
  obtain ⟨hc, h0, h1, ht⟩ := (LobbySetRequirement_accepts M db so args lobby hl).1 h
  have hcases := LobbySetRequirement_creator M db so args lobby hl hc.symm ⟨h0, h1⟩
  have hneq1 : ("lobbies" : String) ≠ "hours" := by decide
  have hneq2 : ("reliability" : String) ≠ "hours" := by decide
  have hneq3 : ("reliability" : String) ≠ "lobbies" := by decide
  refine ⟨?_, ?_, ?_⟩
  · intro t
    have he : (M.Int64 args.Value).2 = none := by
      rcases ht with ⟨-, he⟩ | ⟨t2, -⟩ | ⟨t3, -⟩
      · exact he
      · rw [t] at t2; exact absurd t2.symm hneq1
      · rw [t] at t3; exact absurd t3.symm hneq2
    rw [hcases.1 t]; exact ((saveRequirement_cases M db lobby _ _).1 he).2
  · intro t
    have he : (M.Int64 args.Value).2 = none := by
      rcases ht with ⟨t1, -⟩ | ⟨-, he⟩ | ⟨t3, -⟩
      · rw [t] at t1; exact absurd t1 hneq1
      · exact he
      · rw [t] at t3; exact absurd t3.symm hneq3
    rw [hcases.2.1 t]; exact ((saveRequirement_cases M db lobby _ _).1 he).2
  · intro t
    have he : (M.Float64 args.Value).2 = none := by
      rcases ht with ⟨t1, -⟩ | ⟨t2, -⟩ | ⟨-, he⟩
      · rw [t] at t1; exact absurd t1 hneq2
      · rw [t] at t2; exact absurd t2 hneq3
      · exact he
    rw [hcases.2.2.1 t]; exact ((saveRequirement_cases M db lobby _ _).1 he).2

/-- When the two handlers that lift a restriction accept: the requester is the
creator, an administrator or a moderator. -/
theorem restriction_accepts (M : Env σ) (db : σ) (so : Client) (ID : Nat) (lobby : Lobby)
    (hl : M.GetLobbyByID db ID = Except.ok lobby) :
    ((LobbyRemoveTwitchRestriction M db so ID).1 = Response.emptySuccess
      ↔ ((M.GetPlayer db so).SteamID = lobby.CreatedBySteamID
        ∨ (M.GetPlayer db so).Role = RoleAdmin ∨ (M.GetPlayer db so).Role = RoleMod))
    ∧ ((LobbyRemoveSteamRestriction M db so ID).1 = Response.emptySuccess
      ↔ ((M.GetPlayer db so).SteamID = lobby.CreatedBySteamID
        ∨ (M.GetPlayer db so).Role = RoleAdmin ∨ (M.GetPlayer db so).Role = RoleMod)) := by
  have hr := restriction_cases M db so ID lobby hl
  by_cases hg : (M.GetPlayer db so).SteamID ≠ lobby.CreatedBySteamID
      ∧ (M.GetPlayer db so).Role ≠ RoleAdmin ∧ (M.GetPlayer db so).Role ≠ RoleMod
  · have hno : ¬ ((M.GetPlayer db so).SteamID = lobby.CreatedBySteamID
        ∨ (M.GetPlayer db so).Role = RoleAdmin ∨ (M.GetPlayer db so).Role = RoleMod) := by
      rintro (h | h | h)
      · exact hg.1 h
      · exact hg.2.1 h
      · exact hg.2.2 h
    rw [(hr.1 hg).1, (hr.1 hg).2]
    simp [hno]
  · have hyes : (M.GetPlayer db so).SteamID = lobby.CreatedBySteamID
        ∨ (M.GetPlayer db so).Role = RoleAdmin ∨ (M.GetPlayer db so).Role = RoleMod := by
      by_contra hno
      push_neg at hno
      exact hg ⟨hno.1, hno.2.1, hno.2.2⟩
    simp [((hr.2 hg).1).1, ((hr.2 hg).2).1, hyes]

/-- The swap of `RemoveSocket` on a slice with last element `a`: index `i` gets `a`
when it is not the last index, and the last position goes. -/
theorem swapRemove_concat (init : List (Option Client)) (a : Option Client) (i : Nat)
    (hi : i ≤ init.length) :
    swapRemove (init ++ [a]) i = if i < init.length then init.set i a else init := by
  unfold swapRemove
  have hlen : (init ++ [a]).length - 1 = init.length := by simp
  rw [hlen]
  have hget : (init ++ [a]).getD init.length none = a := by
    simp [List.getD_eq_getElem?_getD]
  rw [hget]
  by_cases h : i < init.length
  · rw [if_pos h, List.set_append_left _ _ h]
    rw [List.set_append_right _ _ (by simp)]
    simp
  · have : i = init.length := by omega
    subst this
    simp

/-- Overwriting an element by `a` and putting the element in front is a
permutation of the list with `a` in front. -/
theorem set_perm (init : List (Option Client)) (a v : Option Client) (i : Nat)
    (hv : init[i]? = some v) : List.Perm (v :: init.set i a) (a :: init) := by
  induction init generalizing i with
  | nil => simp at hv
  | cons x xs ih =>
    cases i with
    | zero =>
      simp at hv
      subst hv
      simp only [List.set_cons_zero]
      exact List.Perm.swap _ _ _
    | succ i =>
      simp at hv
      simp only [List.set_cons_succ]
      exact ((List.Perm.swap _ _ _).trans ((ih i hv).cons x)).trans (List.Perm.swap _ _ _)

/-- The swap of `RemoveSocket` at an index of the slice: one element shorter, the
slice with index `i` overwritten by the last element and the last position
dropped, and with the element of index `i` put back a permutation of the slice. -/
theorem swapRemove_perm (clients : List (Option Client)) (i : Nat) (v : Option Client)
    (hv : clients[i]? = some v) :
    (swapRemove clients i).length + 1 = clients.length
    ∧ swapRemove clients i = (clients.set i (clients.getD (clients.length - 1) none)).dropLast
    ∧ List.Perm (v :: swapRemove clients i) clients := by
  rcases List.eq_nil_or_concat clients with rfl | ⟨init, a, hc⟩
  · simp at hv
  · rw [List.concat_eq_append] at hc
    subst hc
    have hi : i < (init ++ [a]).length := by
      by_contra h
      rw [List.getElem?_eq_none (by omega)] at hv
      exact absurd hv (by simp)
    have hi' : i ≤ init.length := by simp at hi; omega
    have hget : (init ++ [a]).getD ((init ++ [a]).length - 1) none = a := by
      simp [List.getD_eq_getElem?_getD]
    rw [swapRemove_concat init a i hi', hget]
    by_cases h : i < init.length
    · rw [if_pos h]
      rw [List.getElem?_append_left h] at hv
      refine ⟨by simp, ?_, ?_⟩
      · rw [List.set_append_left _ _ h]; simp
      · exact (set_perm init a v i hv).trans (List.perm_append_singleton a init).symm
    · have hi2 : i = init.length := by omega
      subst hi2
      rw [if_neg h]
      simp at hv
      subst hv
      refine ⟨by simp, ?_, ?_⟩
      · simp
      · exact (List.perm_append_singleton _ init).symm

/-- Where the loop of `RemoveSocket` ends on a slice without nil. -/
theorem searchSession_spec (sessionID : String) (clients : List (Option Client))
    (hnil : ∀ x ∈ clients, x ≠ none) (k : Nat) :
    (searchSession sessionID clients k = Search.missing
      ∧ ∀ so, some so ∈ clients → so.ID ≠ sessionID)
    ∨ ∃ i so, searchSession sessionID clients k = Search.found (k + i)
      ∧ clients[i]? = some (some so) ∧ so.ID = sessionID
      ∧ ∀ j x, j < i → clients[j]? = some (some x) → x.ID ≠ sessionID := by
  induction clients generalizing k with
  | nil => left; simp [searchSession]
  | cons c cs ih =>
    cases c with
    | none => exact absurd rfl (hnil none (by simp))
    | some so =>
      by_cases h : so.ID = sessionID
      · right
        refine ⟨0, so, by simp [searchSession, h], by simp, h, ?_⟩
        intro j x hj; omega
      · rcases ih (fun x hx => hnil x (by simp [hx])) (k + 1) with ⟨hm, hall⟩ | ⟨i, so2, hf, hg, hid, hfirst⟩
        · left
          refine ⟨by simp [searchSession, h, hm], ?_⟩
          intro so2 hso2
          simp at hso2
          rcases hso2 with rfl | hso2
          · exact h
          · exact hall so2 hso2
        · right
          refine ⟨i + 1, so2, ?_, by simpa using hg, hid, ?_⟩
          · simp [searchSession, h, hf]; omega
          · intro j x hj hx
            cases j with
            | zero => simp at hx; subst hx; exact h
            | succ j => simp at hx; exact hfirst j x (by omega) hx



/-- The fields after the end of a goroutine. -/
theorem finish_fields (s : Sessions) (w : Nat) (p : String) :
    (s.finish w p).steamIDSockets = s.steamIDSockets
    ∧ (s.finish w p).called = s.called
    ∧ (s.finish w p).watchers = s.watchers.set w ⟨p, true⟩
    ∧ (s.finish w p).steamIDConnected = Function.update s.steamIDConnected p none :=
  ⟨rfl, rfl, rfl, rfl⟩

/-- A send on a stop channel ends the goroutine that waits on it, and changes
nothing otherwise. -/
theorem signal_cases (s : Sessions) (stop : Nat) :
    (s.signal stop = s ∧ ∀ p, s.watchers[stop]? ≠ some ⟨p, false⟩)
    ∨ ∃ p, s.watchers[stop]? = some ⟨p, false⟩ ∧ s.signal stop = s.finish stop p := by
  unfold Sessions.signal
  cases h : s.watchers[stop]? with
  | none => left; simp
  | some watcher =>
    obtain ⟨p, d⟩ := watcher
    cases d with
    | false => right; exact ⟨p, rfl, by simp⟩
    | true => left; simp

/-- The firing of a timer ends the goroutine that waits on it, with a call of
the callback when the player is not connected, and changes nothing otherwise. -/
theorem Expire_cases (s : Sessions) (w : Nat) :
    (Expire s w = s ∧ ∀ p, s.watchers[w]? ≠ some ⟨p, false⟩)
    ∨ ∃ p, s.watchers[w]? = some ⟨p, false⟩
      ∧ ((IsConnected s p = false
          ∧ Expire s w = ({ s with called := s.called ++ [w] } : Sessions).finish w p)
        ∨ (IsConnected s p = true ∧ Expire s w = s.finish w p)) := by
  unfold Expire
  cases h : s.watchers[w]? with
  | none => left; simp
  | some watcher =>
    obtain ⟨p, d⟩ := watcher
    cases d with
    | true => left; simp
    | false =>
      right
      refine ⟨p, rfl, ?_⟩
      cases hc : IsConnected s p with
      | false => left; simp [hc]
      | true => right; simp [hc]

/-- The two outcomes of `AddSocket`: the socket is appended, and on a first
connection the registered stop channel, if any, gets a value. -/
theorem AddSocket_cases (s : Sessions) (p : String) (so : Client) :
    (AddSocket s p so).steamIDSockets
        = Function.update s.steamIDSockets p (some ((s.steamIDSockets p).getD [] ++ [some so]))
    ∧ ((AddSocket s p so
          = { s with steamIDSockets := Function.update s.steamIDSockets p
                                      (some ((s.steamIDSockets p).getD [] ++ [some so])) }
        ∧ (((s.steamIDSockets p).getD []).length = 0 → s.steamIDConnected p = none))
      ∨ ∃ stop, ((s.steamIDSockets p).getD []).length = 0 ∧ s.steamIDConnected p = some stop
        ∧ AddSocket s p so
          = ({ s with steamIDSockets := Function.update s.steamIDSockets p
                                      (some ((s.steamIDSockets p).getD [] ++ [some so])) } : Sessions).signal stop) := by
  unfold AddSocket
  dsimp only
  by_cases hl : ((s.steamIDSockets p).getD [] ++ [some so]).length = 1
  · rw [if_pos hl]
    have hl0 : ((s.steamIDSockets p).getD []).length = 0 := by simpa using hl
    cases hc : s.steamIDConnected p with
    | none => exact ⟨rfl, Or.inl ⟨rfl, fun _ => rfl⟩⟩
    | some stop =>
      refine ⟨?_, Or.inr ⟨stop, hl0, rfl, rfl⟩⟩
      rcases signal_cases ({ s with steamIDSockets := Function.update s.steamIDSockets p
                                      (some ((s.steamIDSockets p).getD [] ++ [some so])) } : Sessions) stop
        with ⟨h, -⟩ | ⟨q, -, h⟩
      · dsimp only; rw [h]
      · dsimp only; rw [h]; rfl
  · rw [if_neg hl]
    refine ⟨rfl, Or.inl ⟨rfl, fun h0 => ?_⟩⟩
    exact absurd (by simp [h0]) hl


/-- Storing a non-empty slice without nil keeps a state well formed. -/
theorem WF_sockets (s : Sessions) (hwf : s.WF) (p : String) (l : List (Option Client))
    (hl : ∀ x ∈ l, x ≠ none) (hne : l ≠ []) :
    ({ s with steamIDSockets := Function.update s.steamIDSockets p (some l) } : Sessions).WF := by
  refine ⟨?_, ?_, hwf.registered, hwf.returned⟩
  · intro q sockets hq
    dsimp only at hq
    by_cases h : q = p
    · subst h
      rw [Function.update_same] at hq
      cases hq
      exact hl
    · rw [Function.update_noteq h] at hq
      exact hwf.noNil q sockets hq
  · intro q hq
    dsimp only at hq
    by_cases h : q = p
    · subst h
      rw [Function.update_same] at hq
      cases hq
      exact hne rfl
    · rw [Function.update_noteq h] at hq
      exact hwf.nonEmpty q hq

/-- Deleting the sockets of a player keeps a state well formed. -/
theorem WF_delete (s : Sessions) (hwf : s.WF) (p : String) :
    ({ s with steamIDSockets := Function.update s.steamIDSockets p none } : Sessions).WF := by
  refine ⟨?_, ?_, hwf.registered, hwf.returned⟩
  · intro q sockets hq
    dsimp only at hq
    by_cases h : q = p
    · subst h
      rw [Function.update_same] at hq
      cases hq
    · rw [Function.update_noteq h] at hq
      exact hwf.noNil q sockets hq
  · intro q hq
    dsimp only at hq
    by_cases h : q = p
    · subst h
      rw [Function.update_same] at hq
      cases hq
    · rw [Function.update_noteq h] at hq
      exact hwf.nonEmpty q hq

/-- The end of a waiting goroutine keeps a state well formed, also when its
callback has just been called. -/
theorem WF_finish (s : Sessions) (w : Nat) (p : String)
    (hnoNil : ∀ q sockets, s.steamIDSockets q = some sockets → ∀ x ∈ sockets, x ≠ none)
    (hnonEmpty : ∀ q, s.steamIDSockets q ≠ some [])
    (hreg : ∀ q stop, s.steamIDConnected q = some stop → s.watchers[stop]? = some ⟨q, false⟩)
    (hret : ∀ v ∈ s.called, v = w ∨ ∃ q, s.watchers[v]? = some ⟨q, true⟩)
    (hw : s.watchers[w]? = some ⟨p, false⟩) : (s.finish w p).WF := by
  have hlt : w < s.watchers.length := by
    by_contra h
    rw [List.getElem?_eq_none (by omega)] at hw
    exact absurd hw (by simp)
  refine ⟨hnoNil, hnonEmpty, ?_, ?_⟩
  · intro q stop hq
    rw [(finish_fields s w p).2.2.2] at hq
    rw [(finish_fields s w p).2.2.1]
    by_cases h : q = p
    · subst h
      rw [Function.update_same] at hq
      cases hq
    · rw [Function.update_noteq h] at hq
      have h1 := hreg q stop hq
      by_cases hs : w = stop
      · subst hs
        rw [hw] at h1
        simp at h1
        exact absurd h1.symm h
      · rw [List.getElem?_set_ne hs]
        exact h1
  · intro v hv
    rw [(finish_fields s w p).2.1] at hv
    rw [(finish_fields s w p).2.2.1]
    by_cases hs : w = v
    · subst hs
      exact ⟨p, by rw [List.getElem?_set_self hlt]⟩
    · rcases hret v hv with h | ⟨q, h⟩
      · exact absurd h.symm hs
      · exact ⟨q, by rw [List.getElem?_set_ne hs]; exact h⟩

/-- The firing of a timer keeps a state well formed. -/
theorem WF_Expire (s : Sessions) (hwf : s.WF) (w : Nat) : (Expire s w).WF := by
  rcases Expire_cases s w with ⟨h, -⟩ | ⟨p, hw, ⟨-, h⟩ | ⟨-, h⟩⟩
  · rw [h]; exact hwf
  · rw [h]
    refine WF_finish _ w p hwf.noNil hwf.nonEmpty hwf.registered ?_ hw
    intro v hv
    simp only [List.mem_append, List.mem_singleton] at hv
    rcases hv with hv | hv
    · exact Or.inr (hwf.returned v hv)
    · exact Or.inl hv
  · rw [h]
    exact WF_finish _ w p hwf.noNil hwf.nonEmpty hwf.registered
      (fun v hv => Or.inr (hwf.returned v hv)) hw

/-- A send on a stop channel keeps a state well formed. -/
theorem WF_signal (s : Sessions) (hwf : s.WF) (stop : Nat) : (s.signal stop).WF := by
  rcases signal_cases s stop with ⟨h, -⟩ | ⟨p, hw, h⟩
  · rw [h]; exact hwf
  · rw [h]
    exact WF_finish _ stop p hwf.noNil hwf.nonEmpty hwf.registered
      (fun v hv => Or.inr (hwf.returned v hv)) hw

/-- `AfterDisconnectedFunc` keeps a state well formed. -/
theorem WF_AfterDisconnectedFunc (s : Sessions) (hwf : s.WF) (p : String) :
    (AfterDisconnectedFunc s p).WF := by
  refine ⟨hwf.noNil, hwf.nonEmpty, ?_, ?_⟩
  · intro q stop hq
    unfold AfterDisconnectedFunc at hq ⊢
    dsimp only at hq ⊢
    by_cases h : q = p
    · subst h
      rw [Function.update_same] at hq
      cases hq
      simp
    · rw [Function.update_noteq h] at hq
      have h1 := hwf.registered q stop hq
      have hlt : stop < s.watchers.length := by
        by_contra hge
        rw [List.getElem?_eq_none (by omega)] at h1
        exact absurd h1 (by simp)
      rw [List.getElem?_append_left hlt]
      exact h1
  · intro v hv
    obtain ⟨q, h1⟩ := hwf.returned v hv
    have hlt : v < s.watchers.length := by
      by_contra hge
      rw [List.getElem?_eq_none (by omega)] at h1
      exact absurd h1 (by simp)
    refine ⟨q, ?_⟩
    unfold AfterDisconnectedFunc
    dsimp only
    rw [List.getElem?_append_left hlt]
    exact h1

/-- `AddSocket` keeps a state well formed. -/
theorem WF_AddSocket (s : Sessions) (hwf : s.WF) (p : String) (so : Client) :
    (AddSocket s p so).WF := by
  have h1 : ({ s with steamIDSockets := Function.update s.steamIDSockets p
                                      (some ((s.steamIDSockets p).getD [] ++ [some so])) }
      : Sessions).WF := by
    refine WF_sockets s hwf p _ ?_ (by simp)
    intro x hx
    simp only [List.mem_append, List.mem_singleton] at hx
    rcases hx with hx | hx
    · cases hs : s.steamIDSockets p with
      | none => rw [hs] at hx; simp at hx
      | some l => rw [hs] at hx; exact hwf.noNil p l hs x hx
    · rw [hx]; simp
  rcases (AddSocket_cases s p so).2 with ⟨h, -⟩ | ⟨stop, -, -, h⟩
  · rw [h]; exact h1
  · rw [h]; exact WF_signal _ h1 stop

/-- The writes at the end of `RemoveSocket` keep a state well formed. -/
theorem WF_store (s : Sessions) (hwf : s.WF) (p : String) (l : List (Option Client))
    (hl : ∀ x ∈ l, x ≠ none) : (s.store p l).WF := by
  unfold Sessions.store
  by_cases h : l.length = 0
  · rw [if_pos h]; exact WF_delete s hwf p
  · rw [if_neg h]
    exact WF_sockets s hwf p l hl (by intro h0; exact h (by simp [h0]))

/-- On a slice without nil, `RemoveSocket` does not panic, and what it stores is
the slice, or the slice after the swap at the first match. -/
theorem RemoveSocket_cases (s : Sessions) (sessionID p : String)
    (hnil : ∀ x ∈ (s.steamIDSockets p).getD [], x ≠ none) :
    (RemoveSocket s sessionID p = some (s.store p ((s.steamIDSockets p).getD []))
      ∧ ∀ so, some so ∈ (s.steamIDSockets p).getD [] → so.ID ≠ sessionID)
    ∨ ∃ i so, RemoveSocket s sessionID p
        = some (s.store p (swapRemove ((s.steamIDSockets p).getD []) i))
      ∧ ((s.steamIDSockets p).getD [])[i]? = some (some so) ∧ so.ID = sessionID
      ∧ ∀ j x, j < i → ((s.steamIDSockets p).getD [])[j]? = some (some x) → x.ID ≠ sessionID := by
  unfold RemoveSocket
  dsimp only
  rcases searchSession_spec sessionID _ hnil 0 with ⟨hm, hall⟩ | ⟨i, so, hf, hrest⟩
  · left; rw [hm]; exact ⟨rfl, hall⟩
  · right
    rw [hf]
    simp only [Nat.zero_add]
    exact ⟨i, so, rfl, hrest⟩

/-- From a well-formed state every step returns, to a well-formed state. -/
theorem WF_step (s : Sessions) (hwf : s.WF) (op : Op) : ∃ s1, s.step op = some s1 ∧ s1.WF := by
  cases op with
  | AddSocket p so => exact ⟨_, rfl, WF_AddSocket s hwf p so⟩
  | AfterDisconnectedFunc p => exact ⟨_, rfl, WF_AfterDisconnectedFunc s hwf p⟩
  | Expire w => exact ⟨_, rfl, WF_Expire s hwf w⟩
  | RemoveSocket sessionID p =>
    have hnil : ∀ x ∈ (s.steamIDSockets p).getD [], x ≠ none := by
      intro x hx
      cases hs : s.steamIDSockets p with
      | none => rw [hs] at hx; simp at hx
      | some l => rw [hs] at hx; exact hwf.noNil p l hs x hx
    rcases RemoveSocket_cases s sessionID p hnil with ⟨h, -⟩ | ⟨i, so, h, hi, -, -⟩
    · exact ⟨_, h, WF_store s hwf p _ hnil⟩
    · refine ⟨_, h, WF_store s hwf p _ ?_⟩
      intro x hx
      have hp := (swapRemove_perm _ i (some so) hi).2.2
      exact hnil x (hp.subset (List.mem_cons_of_mem _ hx))

/-- The empty registry is well formed. -/
theorem WF_empty : Sessions.empty.WF := by
  refine ⟨?_, ?_, ?_, ?_⟩ <;> simp [Sessions.empty]

/-- From a well-formed state every list of steps runs, to a well-formed state. -/
theorem WF_run (ops : List Op) (s : Sessions) (hwf : s.WF) :
    ∃ s1, s.run ops = some s1 ∧ s1.WF := by
  induction ops generalizing s with
  | nil => exact ⟨s, rfl, hwf⟩
  | cons op ops ih =>
    obtain ⟨s1, h1, hwf1⟩ := WF_step s hwf op
    obtain ⟨s2, h2, hwf2⟩ := ih s1 hwf1
    exact ⟨s2, by simp [Sessions.run, h1, h2], hwf2⟩

/-- Running a list of steps and then another. -/
theorem run_append (s : Sessions) (ops more : List Op) :
    s.run (ops ++ more) = (s.run ops).bind (fun s1 => s1.run more) := by
  induction ops generalizing s with
  | nil => simp [Sessions.run]
  | cons op ops ih =>
    simp only [List.cons_append, Sessions.run]
    cases s.step op with
    | none => simp
    | some s1 => simp [ih]

/-- The sockets after the writes at the end of `RemoveSocket`. -/
theorem store_sockets (s : Sessions) (p q : String) (l : List (Option Client)) :
    ((s.store p l).steamIDSockets q).getD []
      = if q = p then l else (s.steamIDSockets q).getD [] := by
  unfold Sessions.store
  by_cases h : l.length = 0
  · rw [if_pos h]
    dsimp only
    by_cases hq : q = p
    · subst hq
      rw [Function.update_same, if_pos rfl]
      simp [List.length_eq_zero.1 h]
    · rw [Function.update_noteq hq, if_neg hq]
  · rw [if_neg h]
    dsimp only
    by_cases hq : q = p
    · subst hq
      rw [Function.update_same, if_pos rfl]
      rfl
    · rw [Function.update_noteq hq, if_neg hq]

/-- What the writes at the end of `RemoveSocket` leave as it is. -/
theorem store_rest (s : Sessions) (p : String) (l : List (Option Client)) :
    (s.store p l).steamIDConnected = s.steamIDConnected
    ∧ (s.store p l).watchers = s.watchers ∧ (s.store p l).called = s.called
    ∧ ∀ q, q ≠ p → (s.store p l).steamIDSockets q = s.steamIDSockets q := by
  unfold Sessions.store
  by_cases h : l.length = 0
  · rw [if_pos h]
    exact ⟨rfl, rfl, rfl, fun q hq => Function.update_noteq hq _ _⟩
  · rw [if_neg h]
    exact ⟨rfl, rfl, rfl, fun q hq => Function.update_noteq hq _ _⟩

/-- The firing of a timer leaves the sockets as they are. -/
theorem Expire_sockets (s : Sessions) (w : Nat) :
    (Expire s w).steamIDSockets = s.steamIDSockets := by
  rcases Expire_cases s w with ⟨h, -⟩ | ⟨p, -, ⟨-, h⟩ | ⟨-, h⟩⟩ <;> rw [h] <;> rfl

/-- A slice without nil has as many session ids as sockets. -/
theorem sessionIDs_length (l : List (Option Client)) (hl : ∀ x ∈ l, x ≠ none) :
    (sessionIDs l).length = l.length := by
  induction l with
  | nil => rfl
  | cons x xs ih =>
    cases x with
    | none => exact absurd rfl (hl none (by simp))
    | some so =>
      simp only [sessionIDs, List.filterMap_cons, Option.map_some', List.length_cons]
      rw [← ih (fun x hx => hl x (by simp [hx]))]
      rfl

/-- One step keeps the session ids of the stored sockets in line with `live`. -/
theorem step_tracks (s s1 : Sessions) (hwf : s.WF) (acc : String → List String)
    (ht : ∀ p, (sessionIDs ((s.steamIDSockets p).getD [])).Perm (acc p)) (op : Op)
    (hs : s.step op = some s1) (p : String) :
    (sessionIDs ((s1.steamIDSockets p).getD [])).Perm (liveStep p (acc p) op) := by
  cases op with
  | AfterDisconnectedFunc q =>
    simp only [Sessions.step, Option.some.injEq] at hs
    subst hs
    exact ht p
  | Expire w =>
    simp only [Sessions.step, Option.some.injEq] at hs
    subst hs
    rw [Expire_sockets]
    exact ht p
  | AddSocket q so =>
    simp only [Sessions.step, Option.some.injEq] at hs
    subst hs
    rw [(AddSocket_cases s q so).1]
    simp only [liveStep]
    by_cases h : q = p
    · subst h
      rw [Function.update_same, if_pos rfl]
      simp only [Option.getD_some, sessionIDs, List.filterMap_append, List.filterMap_cons,
        Option.map_some', List.filterMap_nil]
      exact (List.perm_append_singleton _ _).trans ((ht q).cons _)
    · rw [Function.update_noteq (Ne.symm h), if_neg h]
      exact ht p
  | RemoveSocket sessionID q =>
    simp only [Sessions.step] at hs
    have hnil : ∀ x ∈ (s.steamIDSockets q).getD [], x ≠ none := by
      intro x hx
      cases hq : s.steamIDSockets q with
      | none => rw [hq] at hx; simp at hx
      | some l => rw [hq] at hx; exact hwf.noNil q l hq x hx
    simp only [liveStep]
    rcases RemoveSocket_cases s sessionID q hnil with ⟨h, hall⟩ | ⟨i, so, h, hi, hid, -⟩
    · rw [h] at hs
      simp only [Option.some.injEq] at hs
      subst hs
      rw [store_sockets]
      by_cases hq : q = p
      · subst hq
        rw [if_pos rfl, if_pos rfl]
        have hnot : sessionID ∉ acc q := by
          intro hmem
          have := (ht q).symm.subset hmem
          simp only [sessionIDs, List.mem_filterMap] at this
          obtain ⟨x, hx, hxid⟩ := this
          cases x with
          | none => simp at hxid
          | some so =>
            simp only [Option.map_some', Option.some.injEq] at hxid
            exact hall so hx hxid
        rw [List.erase_of_not_mem hnot]
        exact ht q
      · rw [if_neg (Ne.symm hq), if_neg hq]
        exact ht p
    · rw [h] at hs
      simp only [Option.some.injEq] at hs
      subst hs
      rw [store_sockets]
      by_cases hq : q = p
      · subst hq
        rw [if_pos rfl, if_pos rfl]
        have hp := (swapRemove_perm _ i (some so) hi).2.2
        have hp2 : (sessionIDs (some so :: swapRemove ((s.steamIDSockets q).getD []) i)).Perm
            (acc q) := (hp.filterMap _).trans (ht q)
        have hp3 := hp2.erase sessionID
        simp only [sessionIDs, List.filterMap_cons, Option.map_some', hid,
          List.erase_cons_head] at hp3
        exact hp3
      · rw [if_neg (Ne.symm hq), if_neg hq]
        exact ht p

/-- A run keeps the session ids of the stored sockets in line with `live`. -/
theorem run_tracks (ops : List Op) (s : Sessions) (hwf : s.WF) (acc : String → List String)
    (ht : ∀ p, (sessionIDs ((s.steamIDSockets p).getD [])).Perm (acc p)) :
    ∃ s1, s.run ops = some s1 ∧ s1.WF
      ∧ ∀ p, (sessionIDs ((s1.steamIDSockets p).getD [])).Perm (ops.foldl (liveStep p) (acc p)) := by
  induction ops generalizing s acc with
  | nil => exact ⟨s, rfl, hwf, ht⟩
  | cons op ops ih =>
    obtain ⟨s1, h1, hwf1⟩ := WF_step s hwf op
    obtain ⟨s2, h2, hwf2, ht2⟩ := ih s1 hwf1 (fun p => liveStep p (acc p) op)
      (fun p => step_tracks s s1 hwf acc ht op h1 p)
    exact ⟨s2, by simp [Sessions.run, h1, h2], hwf2, ht2⟩


/-- An index with an element is within the list. -/
theorem getElem?_lt_of_some {α : Type} (l : List α) (i : Nat) (a : α) (h : l[i]? = some a) :
    i < l.length := by
  by_contra hge
  rw [List.getElem?_eq_none (by omega)] at h
  exact absurd h (by simp)

/-- A goroutine that has returned stays so, and its callback is not called
again, whatever the step. -/
theorem step_returned (t : Sessions) (hwf : t.WF) (w : Nat) (p : String)
    (hw : t.watchers[w]? = some ⟨p, true⟩) (op : Op) :
    ∃ t1, t.step op = some t1 ∧ t1.WF ∧ t1.watchers[w]? = some ⟨p, true⟩
      ∧ t1.called.count w = t.called.count w := by
  obtain ⟨t1, hstep, hwf1⟩ := WF_step t hwf op
  refine ⟨t1, hstep, hwf1, ?_⟩
  have hfin : ∀ (u : Sessions) (v : Nat) (q : String), u.watchers = t.watchers →
      u.watchers[v]? = some ⟨q, false⟩ →
      (u.finish v q).watchers[w]? = some ⟨p, true⟩ := by
    intro u v q hu hv
    rw [(finish_fields u v q).2.2.1]
    have hne : v ≠ w := by
      intro h
      subst h
      rw [hu, hw] at hv
      simp at hv
    rw [List.getElem?_set_ne hne, hu]
    exact hw
  cases op with
  | AddSocket q so =>
    simp only [Sessions.step, Option.some.injEq] at hstep
    subst hstep
    rcases (AddSocket_cases t q so).2 with ⟨h, -⟩ | ⟨stop, -, -, h⟩
    · rw [h]; exact ⟨hw, rfl⟩
    · rw [h]
      rcases signal_cases ({ t with steamIDSockets := Function.update t.steamIDSockets q
                                      (some ((t.steamIDSockets q).getD [] ++ [some so])) }
          : Sessions) stop with ⟨h2, -⟩ | ⟨q2, hv, h2⟩
      · rw [h2]; exact ⟨hw, rfl⟩
      · rw [h2]; exact ⟨hfin _ stop q2 rfl hv, rfl⟩
  | RemoveSocket sessionID q =>
    simp only [Sessions.step] at hstep
    have hnil : ∀ x ∈ (t.steamIDSockets q).getD [], x ≠ none := by
      intro x hx
      cases hq : t.steamIDSockets q with
      | none => rw [hq] at hx; simp at hx
      | some l => rw [hq] at hx; exact hwf.noNil q l hq x hx
    rcases RemoveSocket_cases t sessionID q hnil with ⟨h, -⟩ | ⟨i, so, h, -, -, -⟩
    · rw [h] at hstep
      simp only [Option.some.injEq] at hstep
      subst hstep
      rw [(store_rest t q _).2.1, (store_rest t q _).2.2.1]
      exact ⟨hw, rfl⟩
    · rw [h] at hstep
      simp only [Option.some.injEq] at hstep
      subst hstep
      rw [(store_rest t q _).2.1, (store_rest t q _).2.2.1]
      exact ⟨hw, rfl⟩
  | AfterDisconnectedFunc q =>
    simp only [Sessions.step, Option.some.injEq] at hstep
    subst hstep
    refine ⟨?_, rfl⟩
    unfold AfterDisconnectedFunc
    dsimp only
    rw [List.getElem?_append_left (getElem?_lt_of_some _ _ _ hw)]
    exact hw
  | Expire v =>
    simp only [Sessions.step, Option.some.injEq] at hstep
    subst hstep
    rcases Expire_cases t v with ⟨h, -⟩ | ⟨q, hv, ⟨-, h⟩ | ⟨-, h⟩⟩
    · rw [h]; exact ⟨hw, rfl⟩
    · rw [h]
      refine ⟨hfin _ v q rfl hv, ?_⟩
      have hne : v ≠ w := by
        intro h
        subst h
        rw [hw] at hv
        simp at hv
      rw [(finish_fields _ v q).2.1]
      simp [List.count_append, List.count_singleton, hne]
    · rw [h]; exact ⟨hfin _ v q rfl hv, rfl⟩

/-- After a goroutine has returned, no run calls its callback again. -/
theorem run_returned (more : List Op) (t : Sessions) (hwf : t.WF) (w : Nat) (p : String)
    (hw : t.watchers[w]? = some ⟨p, true⟩) :
    ∃ t1, t.run more = some t1 ∧ t1.called.count w = t.called.count w := by
  induction more generalizing t with
  | nil => exact ⟨t, rfl, rfl⟩
  | cons op more ih =>
    obtain ⟨t1, h1, hwf1, hw1, hc1⟩ := step_returned t hwf w p hw op
    obtain ⟨t2, h2, hc2⟩ := ih t1 hwf1 hw1
    exact ⟨t2, by simp [Sessions.run, h1, h2], by rw [hc2, hc1]⟩

/-- The end of another waiting goroutine leaves goroutine `w` waiting alone for
`p`. -/
theorem Pending_finish (u : Sessions) (p : String) (w v : Nat) (q : String)
    (hp : u.Pending p w) (hv : u.watchers[v]? = some ⟨q, false⟩) (hne : v ≠ w) :
    (u.finish v q).Pending p w := by
  have hq : q ≠ p := hp.alone v q hv hne
  refine ⟨hp.disconnected, ?_, ?_, ?_⟩
  · rw [(finish_fields u v q).2.2.1, List.getElem?_set_ne hne]
    exact hp.waits
  · rw [(finish_fields u v q).2.2.2, Function.update_noteq (Ne.symm hq)]
    exact hp.registered
  · intro i q2 hi hiw
    rw [(finish_fields u v q).2.2.1] at hi
    by_cases hiv : v = i
    · subst hiv
      rw [List.getElem?_set_self (getElem?_lt_of_some _ _ _ hv)] at hi
      simp at hi
    · rw [List.getElem?_set_ne hiv] at hi
      exact hp.alone i q2 hi hiw

/-- The steps that keep goroutine `w` waiting alone for `p`: every step but an
`AddSocket` for `p`, a second `AfterDisconnectedFunc` for `p`, and the firing of
the timer of `w`. -/
theorem step_Pending (t : Sessions) (hwf : t.WF) (p : String) (w : Nat) (hp : t.Pending p w)
    (op : Op) (hadd : ∀ so, op ≠ Op.AddSocket p so) (harm : op ≠ Op.AfterDisconnectedFunc p)
    (hexp : op ≠ Op.Expire w) :
    ∃ t1, t.step op = some t1 ∧ t1.WF ∧ t1.Pending p w
      ∧ (t1.called = t.called ∨ ∃ v, t1.called = t.called ++ [v] ∧ v ≠ w) := by
  obtain ⟨t1, hstep, hwf1⟩ := WF_step t hwf op
  cases op with
  | AddSocket q so =>
    refine ⟨t1, hstep, hwf1, ?_⟩
    have hq : q ≠ p := fun h => hadd so (by rw [h])
    simp only [Sessions.step, Option.some.injEq] at hstep
    subst hstep
    have hp1 : ({ t with steamIDSockets := Function.update t.steamIDSockets q
                                      (some ((t.steamIDSockets q).getD [] ++ [some so])) }
        : Sessions).Pending p w := by
      refine ⟨?_, hp.waits, hp.registered, hp.alone⟩
      dsimp only
      rw [Function.update_noteq (Ne.symm hq)]
      exact hp.disconnected
    rcases (AddSocket_cases t q so).2 with ⟨h, -⟩ | ⟨stop, -, hreg, h⟩
    · rw [h]; exact ⟨hp1, Or.inl rfl⟩
    · rw [h]
      rcases signal_cases ({ t with steamIDSockets := Function.update t.steamIDSockets q
                                      (some ((t.steamIDSockets q).getD [] ++ [some so])) }
          : Sessions) stop with ⟨h2, -⟩ | ⟨q2, hv, h2⟩
      · rw [h2]; exact ⟨hp1, Or.inl rfl⟩
      · rw [h2]
        have hsw : stop ≠ w := by
          intro hs
          subst hs
          have h3 := hwf.registered q stop hreg
          rw [hp.waits] at h3
          simp at h3
          exact hq h3.symm
        exact ⟨Pending_finish _ p w stop q2 hp1 hv hsw, Or.inl rfl⟩
  | RemoveSocket sessionID q =>
    refine ⟨t1, hstep, hwf1, ?_⟩
    simp only [Sessions.step] at hstep
    have hnil : ∀ x ∈ (t.steamIDSockets q).getD [], x ≠ none := by
      intro x hx
      cases hq : t.steamIDSockets q with
      | none => rw [hq] at hx; simp at hx
      | some l => rw [hq] at hx; exact hwf.noNil q l hq x hx
    have hstore : ∀ l, (q = p → l = []) → (t.store q l).Pending p w
        ∧ ((t.store q l).called = t.called
          ∨ ∃ v, (t.store q l).called = t.called ++ [v] ∧ v ≠ w) := by
      intro l hl
      refine ⟨⟨?_, ?_, ?_, ?_⟩, Or.inl (store_rest t q l).2.2.1⟩
      · by_cases hq : q = p
        · subst hq
          rw [hl rfl]
          simp [Sessions.store]
        · rw [(store_rest t q l).2.2.2 p (Ne.symm hq)]
          exact hp.disconnected
      · rw [(store_rest t q l).2.1]; exact hp.waits
      · rw [(store_rest t q l).1]; exact hp.registered
      · rw [(store_rest t q l).2.1]; exact hp.alone
    rcases RemoveSocket_cases t sessionID q hnil with ⟨h, -⟩ | ⟨i, so, h, hi, -, -⟩
    · rw [h] at hstep
      simp only [Option.some.injEq] at hstep
      subst hstep
      refine hstore _ ?_
      intro hq
      subst hq
      rw [hp.disconnected]
      rfl
    · rw [h] at hstep
      simp only [Option.some.injEq] at hstep
      subst hstep
      refine hstore _ ?_
      intro hq
      subst hq
      rw [hp.disconnected] at hi
      simp at hi
  | AfterDisconnectedFunc q =>
    refine ⟨t1, hstep, hwf1, ?_⟩
    have hq : q ≠ p := fun h => harm (by rw [h])
    simp only [Sessions.step, Option.some.injEq] at hstep
    subst hstep
    have hlt := getElem?_lt_of_some _ _ _ hp.waits
    refine ⟨⟨hp.disconnected, ?_, ?_, ?_⟩, Or.inl rfl⟩
    · unfold AfterDisconnectedFunc
      dsimp only
      rw [List.getElem?_append_left hlt]
      exact hp.waits
    · unfold AfterDisconnectedFunc
      dsimp only
      rw [Function.update_noteq (Ne.symm hq)]
      exact hp.registered
    · intro i q2 hi hiw
      unfold AfterDisconnectedFunc at hi
      dsimp only at hi
      by_cases hil : i < t.watchers.length
      · rw [List.getElem?_append_left hil] at hi
        exact hp.alone i q2 hi hiw
      · rw [List.getElem?_append_right (by omega)] at hi
        have h0 : i - t.watchers.length = 0 := by
          by_contra hne
          rw [List.getElem?_eq_none (by simp; omega)] at hi
          exact absurd hi (by simp)
        rw [h0] at hi
        simp at hi
        rw [← hi]
        exact hq
  | Expire v =>
    have hvw : v ≠ w := fun h => hexp (by rw [h])
    simp only [Sessions.step, Option.some.injEq] at hstep
    subst hstep
    rcases Expire_cases t v with ⟨h, -⟩ | ⟨q, hv, ⟨-, h⟩ | ⟨-, h⟩⟩
    · exact ⟨_, rfl, hwf1, by rw [h]; exact hp, Or.inl (by rw [h])⟩
    · refine ⟨_, rfl, hwf1, ?_, Or.inr ⟨v, by rw [h]; rfl, hvw⟩⟩
      rw [h]
      exact Pending_finish _ p w v q ⟨hp.disconnected, hp.waits, hp.registered, hp.alone⟩ hv hvw
    · refine ⟨_, rfl, hwf1, ?_, Or.inl (by rw [h]; rfl)⟩
      rw [h]
      exact Pending_finish _ p w v q hp hv hvw

/-- A run of steps that keep goroutine `w` waiting alone for `p` does not call
its callback. -/
theorem run_Pending (ops : List Op) (t : Sessions) (hwf : t.WF) (p : String) (w : Nat)
    (hp : t.Pending p w)
    (hops : ∀ op ∈ ops, (∀ so, op ≠ Op.AddSocket p so) ∧ op ≠ Op.AfterDisconnectedFunc p
      ∧ op ≠ Op.Expire w) :
    ∃ t1, t.run ops = some t1 ∧ t1.WF ∧ t1.Pending p w
      ∧ t1.called.count w = t.called.count w := by
  induction ops generalizing t with
  | nil => exact ⟨t, rfl, hwf, hp, rfl⟩
  | cons op ops ih =>
    have hop := hops op (by simp)
    have hrest : ∀ op2 ∈ ops, (∀ so, op2 ≠ Op.AddSocket p so)
        ∧ op2 ≠ Op.AfterDisconnectedFunc p ∧ op2 ≠ Op.Expire w :=
      fun op2 h2 => hops op2 (by simp [h2])
    obtain ⟨t1, h1, hwf1, hp1, hc1⟩ := step_Pending t hwf p w hp op hop.1 hop.2.1 hop.2.2
    obtain ⟨t2, h2, hwf2, hp2, hc2⟩ := ih t1 hwf1 hp1 hrest
    refine ⟨t2, by simp [Sessions.run, h1, h2], hwf2, hp2, ?_⟩
    rcases hc1 with hc1 | ⟨v, hc1, hv⟩
    · rw [hc2, hc1]
    · rw [hc2, hc1]
      simp [List.count_append, List.count_singleton, hv]

/-- The state right after `AfterDisconnectedFunc` for a player without sockets
and without a waiting goroutine: the new goroutine waits alone. -/
theorem AfterDisconnectedFunc_Pending (s : Sessions) (p : String)
    (hdisc : IsConnected s p = false)
    (hpend : ∀ w ∈ s.watchers, w.steamid = p → w.done = true) :
    (AfterDisconnectedFunc s p).Pending p s.watchers.length := by
  refine ⟨?_, ?_, ?_, ?_⟩
  · unfold IsConnected GetSockets at hdisc
    show s.steamIDSockets p = none
    cases h : s.steamIDSockets p with
    | none => rfl
    | some l => rw [h] at hdisc; simp at hdisc
  · unfold AfterDisconnectedFunc
    simp
  · unfold AfterDisconnectedFunc
    dsimp only
    rw [Function.update_same]
  · intro i q hi hne hq
    unfold AfterDisconnectedFunc at hi
    dsimp only at hi
    have hlt : i < s.watchers.length := by
      have := getElem?_lt_of_some _ _ _ hi
      simp at this
      omega
    rw [List.getElem?_append_left hlt] at hi
    have hmem : (⟨q, false⟩ : Watcher) ∈ s.watchers := List.mem_iff_getElem?.2 ⟨i, hi⟩
    have := hpend _ hmem hq
    simp at this


/-- Every step but an `AddSocket` for `p` and the firing of the timer of `w`
leaves the player `p` without sockets and the goroutine `w` of `p` waiting, and
does not call the callback of `w`. -/
theorem step_waits (t : Sessions) (hwf : t.WF) (p : String) (w : Nat)
    (hsock : t.steamIDSockets p = none) (hw : t.watchers[w]? = some ⟨p, false⟩)
    (op : Op) (hadd : ∀ so, op ≠ Op.AddSocket p so) (hexp : op ≠ Op.Expire w) :
    ∃ t1, t.step op = some t1 ∧ t1.WF ∧ t1.steamIDSockets p = none
      ∧ t1.watchers[w]? = some ⟨p, false⟩ := by
  obtain ⟨t1, hstep, hwf1⟩ := WF_step t hwf op
  refine ⟨t1, hstep, hwf1, ?_⟩
  have hfin : ∀ (u : Sessions) (v : Nat) (q : String), u.watchers = t.watchers → v ≠ w →
      (u.finish v q).watchers[w]? = some ⟨p, false⟩ := by
    intro u v q hu hv
    rw [(finish_fields u v q).2.2.1, List.getElem?_set_ne hv, hu]
    exact hw
  cases op with
  | AddSocket q so =>
    have hq : q ≠ p := fun h => hadd so (by rw [h])
    simp only [Sessions.step, Option.some.injEq] at hstep
    subst hstep
    refine ⟨?_, ?_⟩
    · rw [(AddSocket_cases t q so).1, Function.update_noteq (Ne.symm hq)]
      exact hsock
    · rcases (AddSocket_cases t q so).2 with ⟨h, -⟩ | ⟨stop, -, hreg, h⟩
      · rw [h]; exact hw
      · rw [h]
        rcases signal_cases ({ t with steamIDSockets := Function.update t.steamIDSockets q
                                        (some ((t.steamIDSockets q).getD [] ++ [some so])) }
            : Sessions) stop with ⟨h2, -⟩ | ⟨q2, -, h2⟩
        · rw [h2]; exact hw
        · rw [h2]
          refine hfin _ stop q2 rfl ?_
          intro hs
          subst hs
          have h3 := hwf.registered q stop hreg
          rw [hw] at h3
          simp at h3
          exact hq h3.symm
  | RemoveSocket sessionID q =>
    simp only [Sessions.step] at hstep
    have hnil : ∀ x ∈ (t.steamIDSockets q).getD [], x ≠ none := by
      intro x hx
      cases hq : t.steamIDSockets q with
      | none => rw [hq] at hx; simp at hx
      | some l => rw [hq] at hx; exact hwf.noNil q l hq x hx
    have hstore : ∀ l, (q = p → l = []) → (t.store q l).steamIDSockets p = none
        ∧ (t.store q l).watchers[w]? = some ⟨p, false⟩ := by
      intro l hl
      refine ⟨?_, ?_⟩
      · by_cases hq : q = p
        · subst hq
          rw [hl rfl]
          simp [Sessions.store]
        · rw [(store_rest t q l).2.2.2 p (Ne.symm hq)]
          exact hsock
      · rw [(store_rest t q l).2.1]; exact hw
    rcases RemoveSocket_cases t sessionID q hnil with ⟨h, -⟩ | ⟨i, so, h, hi, -, -⟩
    · rw [h] at hstep
      simp only [Option.some.injEq] at hstep
      subst hstep
      refine hstore _ ?_
      intro hq
      subst hq
      rw [hsock]
      rfl
    · rw [h] at hstep
      simp only [Option.some.injEq] at hstep
      subst hstep
      refine hstore _ ?_
      intro hq
      subst hq
      rw [hsock] at hi
      simp at hi
  | AfterDisconnectedFunc q =>
    simp only [Sessions.step, Option.some.injEq] at hstep
    subst hstep
    refine ⟨hsock, ?_⟩
    unfold AfterDisconnectedFunc
    dsimp only
    rw [List.getElem?_append_left (getElem?_lt_of_some _ _ _ hw)]
    exact hw
  | Expire v =>
    have hvw : v ≠ w := fun h => hexp (by rw [h])
    simp only [Sessions.step, Option.some.injEq] at hstep
    subst hstep
    refine ⟨by rw [Expire_sockets]; exact hsock, ?_⟩
    rcases Expire_cases t v with ⟨h, -⟩ | ⟨q, -, ⟨-, h⟩ | ⟨-, h⟩⟩
    · rw [h]; exact hw
    · rw [h]; exact hfin _ v q rfl hvw
    · rw [h]; exact hfin _ v q rfl hvw

/-- A run without an `AddSocket` for `p` and before the timer of `w` fires leaves
`p` without sockets and the goroutine `w` of `p` waiting. -/
theorem run_waits (ops : List Op) (t : Sessions) (hwf : t.WF) (p : String) (w : Nat)
    (hsock : t.steamIDSockets p = none) (hw : t.watchers[w]? = some ⟨p, false⟩)
    (hops : ∀ op ∈ ops, (∀ so, op ≠ Op.AddSocket p so) ∧ op ≠ Op.Expire w) :
    ∃ t1, t.run ops = some t1 ∧ t1.WF ∧ t1.steamIDSockets p = none
      ∧ t1.watchers[w]? = some ⟨p, false⟩ := by
  induction ops generalizing t with
  | nil => exact ⟨t, rfl, hwf, hsock, hw⟩
  | cons op ops ih =>
    have hop := hops op (by simp)
    obtain ⟨t1, h1, hwf1, hs1, hw1⟩ := step_waits t hwf p w hsock hw op hop.1 hop.2
    obtain ⟨t2, h2, hwf2, hs2, hw2⟩ := ih t1 hwf1 hs1 hw1 (fun op2 h2 => hops op2 (by simp [h2]))
    exact ⟨t2, by simp [Sessions.run, h1, h2], hwf2, hs2, hw2⟩

/-! ### The claims, continued -/

/-- Claim C11.  On a registry whose slice for the player holds no nil,
`RemoveSocket` returns, leaves the entries of the other players, the stop
channels, the goroutines and the callbacks as they are, and: with no socket of
that session id the slice of the player is unchanged; with one, at the first
index `i` of such a socket, the new slice is the old one with index `i`
overwritten by the last element and the last position dropped, one shorter, and
with that socket put back it is a permutation of the old slice.  When
the resulting slice is empty the entry is gone: `GetSockets` returns no
sockets and `false`, and `IsConnected` is false; otherwise the entry is
present. -/
theorem RemoveSocket_spec (s : Sessions) (sessionID steamID : String)
    (hnil : ∀ x ∈ (GetSockets s steamID).1, x ≠ none) :
    ∃ s1, RemoveSocket s sessionID steamID = some s1
      ∧ (∀ q, q ≠ steamID → s1.steamIDSockets q = s.steamIDSockets q)
      ∧ s1.steamIDConnected = s.steamIDConnected ∧ s1.watchers = s.watchers
      ∧ s1.called = s.called
      ∧ ((∀ so, some so ∈ (GetSockets s steamID).1 → so.ID ≠ sessionID) →
          (GetSockets s1 steamID).1 = (GetSockets s steamID).1)
      ∧ (∀ i so, (GetSockets s steamID).1[i]? = some (some so) → so.ID = sessionID →
          (∀ j x, j < i → (GetSockets s steamID).1[j]? = some (some x) → x.ID ≠ sessionID) →
          (GetSockets s1 steamID).1
              = ((GetSockets s steamID).1.set i
                  ((GetSockets s steamID).1.getD ((GetSockets s steamID).1.length - 1)
                    none)).dropLast
            ∧ (GetSockets s1 steamID).1.length + 1 = (GetSockets s steamID).1.length
            ∧ (some so :: (GetSockets s1 steamID).1).Perm (GetSockets s steamID).1)
      ∧ ((GetSockets s1 steamID).1 = [] →
          GetSockets s1 steamID = ([], false) ∧ IsConnected s1 steamID = false
            ∧ ConnectedSockets s1 steamID = 0)
      ∧ ((GetSockets s1 steamID).1 ≠ [] →
          (GetSockets s1 steamID).2 = true ∧ IsConnected s1 steamID = true) := by
  have hget : ∀ t : Sessions, (GetSockets t steamID).1 = (t.steamIDSockets steamID).getD [] := by
    intro t
    unfold GetSockets
    cases t.steamIDSockets steamID <;> rfl
  rw [hget s] at hnil ⊢
  have hempty : ∀ l, (GetSockets (s.store steamID l) steamID).1 = [] →
      GetSockets (s.store steamID l) steamID = ([], false)
        ∧ IsConnected (s.store steamID l) steamID = false
        ∧ ConnectedSockets (s.store steamID l) steamID = 0 := by
    intro l hl
    rw [hget, store_sockets, if_pos rfl] at hl
    subst hl
    simp [Sessions.store, GetSockets, IsConnected, ConnectedSockets]
  have hfull : ∀ l, (GetSockets (s.store steamID l) steamID).1 ≠ [] →
      (GetSockets (s.store steamID l) steamID).2 = true
        ∧ IsConnected (s.store steamID l) steamID = true := by
    intro l hl
    rw [hget, store_sockets, if_pos rfl] at hl
    have : ¬ l.length = 0 := fun h => hl (List.length_eq_zero.1 h)
    simp [Sessions.store, GetSockets, IsConnected, this]
  rcases RemoveSocket_cases s sessionID steamID hnil with ⟨h, hall⟩ | ⟨i, so, h, hi, hid, hfirst⟩
  · refine ⟨_, h, (store_rest s steamID _).2.2.2, (store_rest s steamID _).1,
      (store_rest s steamID _).2.1, (store_rest s steamID _).2.2.1, ?_, ?_, hempty _, hfull _⟩
    · intro _
      rw [hget, store_sockets, if_pos rfl]
    · intro j x hj hxid
      exact absurd hxid (hall x (List.mem_iff_getElem?.2 ⟨_, hj⟩))
  · refine ⟨_, h, (store_rest s steamID _).2.2.2, (store_rest s steamID _).1,
      (store_rest s steamID _).2.1, (store_rest s steamID _).2.2.1, ?_, ?_, hempty _, hfull _⟩
    · intro hall
      exact absurd hid (hall so (List.mem_iff_getElem?.2 ⟨_, hi⟩))
    · intro j x hj hxid hjfirst
      have hij : j = i := by
        rcases Nat.lt_trichotomy j i with hlt | heq | hgt
        · exact absurd hxid (hfirst j x hlt hj)
        · exact heq
        · exact absurd hid (hjfirst i so hgt hi)
      subst hij
      rw [hi] at hj
      simp only [Option.some.injEq] at hj
      subst hj
      rw [hget, store_sockets, if_pos rfl]
      obtain ⟨hlen, hform, hperm⟩ := swapRemove_perm _ j (some so) hi
      exact ⟨hform, hlen, hperm⟩

/-- Claim C11, at a concrete input: `guest` has three tabs open and closes the
first; the third takes its place. -/
theorem RemoveSocket_spec_witness :
    (RemoveSocket threeTabs "tab-1" "guest").map (fun s => s.view "guest")
      = some (some [some tab3, some tab2], none, [], [])
    ∧ (∀ x ∈ (GetSockets threeTabs "guest").1, x ≠ none)
    ∧ (∃ s1, RemoveSocket threeTabs "tab-1" "guest" = some s1
      ∧ (∀ q, q ≠ "guest" → s1.steamIDSockets q = threeTabs.steamIDSockets q)
      ∧ s1.steamIDConnected = threeTabs.steamIDConnected ∧ s1.watchers = threeTabs.watchers
      ∧ s1.called = threeTabs.called
      ∧ ((∀ so, some so ∈ (GetSockets threeTabs "guest").1 → so.ID ≠ "tab-1") →
          (GetSockets s1 "guest").1 = (GetSockets threeTabs "guest").1)
      ∧ (∀ i so, (GetSockets threeTabs "guest").1[i]? = some (some so) → so.ID = "tab-1" →
          (∀ j x, j < i → (GetSockets threeTabs "guest").1[j]? = some (some x) → x.ID ≠ "tab-1") →
          (GetSockets s1 "guest").1
              = ((GetSockets threeTabs "guest").1.set i
                  ((GetSockets threeTabs "guest").1.getD ((GetSockets threeTabs "guest").1.length - 1)
                    none)).dropLast
            ∧ (GetSockets s1 "guest").1.length + 1 = (GetSockets threeTabs "guest").1.length
            ∧ (some so :: (GetSockets s1 "guest").1).Perm (GetSockets threeTabs "guest").1)
      ∧ ((GetSockets s1 "guest").1 = [] →
          GetSockets s1 "guest" = ([], false) ∧ IsConnected s1 "guest" = false
            ∧ ConnectedSockets s1 "guest" = 0)
      ∧ ((GetSockets s1 "guest").1 ≠ [] →
          (GetSockets s1 "guest").2 = true ∧ IsConnected s1 "guest" = true)) :=
  ⟨rfl, by decide,
    RemoveSocket_spec threeTabs "tab-1" "guest" (by decide)⟩

/-- Claim C12 fails when `AfterDisconnectedFunc` is called again for the player.
`guest` closes the only tab and `AfterDisconnectedFunc` is called: goroutine 0
waits and its stop channel is registered.  `AfterDisconnectedFunc` is called
again; then `guest` opens a tab, before any timer has fired and as the first
connection: goroutine 1 is stopped, goroutine 0 is not.  `guest` closes the tab
and the timer of goroutine 0 fires: its callback is called.  In the steps
`armedTwice` the timer of goroutine 0 fires before `guest` opens the tab, and the
callback of goroutine 1 is called, too, at its expiry. -/
theorem watcher_replaced_not_stopped :
    (Sessions.empty.run (replacedWatcher.take 3)).map (fun s => s.view "guest")
      = some (none, some 0, [⟨"guest", false⟩], [])
    ∧ (Sessions.empty.run (replacedWatcher.take 4)).map (fun s => s.view "guest")
      = some (none, some 1, [⟨"guest", false⟩, ⟨"guest", false⟩], [])
    ∧ (Sessions.empty.run (replacedWatcher.take 5)).map (fun s => s.view "guest")
      = some (some [some tab2], none, [⟨"guest", false⟩, ⟨"guest", true⟩], [])
    ∧ (Sessions.empty.run replacedWatcher).map (fun s => s.view "guest")
      = some (none, none, [⟨"guest", true⟩, ⟨"guest", true⟩], [0])
    ∧ (Sessions.empty.run armedTwice).map (fun s => s.called) = some [0, 1] :=
  ⟨rfl, rfl, rfl, rfl, rfl⟩

/-- Claim C12, amended.  Let `s` be a state reached from the empty registry in
which the player `p` has no sockets, and let `AfterDisconnectedFunc` be called
for `p`; `w` is the goroutine it starts.  Let `ops` be steps without an
`AddSocket` for `p` and before the timer of `w` fires.  After `ops` the goroutine
still waits and its callback has not been called.  If the timer fires next, the
callback is called in that step, and after any further steps `more` it has been
called exactly once.  If instead `AddSocket` for `p` comes next, and no goroutine
waited for `p` when `w` was started, and `ops` holds no second
`AfterDisconnectedFunc` for `p`: the stop channel of `w` is the registered one
after `ops`, the goroutine returns in the step of `AddSocket` without a call,
the stop channel is unregistered, and after any further steps `more` (the
player may disconnect again, the timer may fire) the callback has never been
called. -/
theorem disconnect_watcher (hist ops more : List Op) (s : Sessions) (p : String) (so : Client)
    (hreach : Sessions.empty.run hist = some s)
    (hdisc : IsConnected s p = false)
    (hops : ∀ op ∈ ops, (∀ so1, op ≠ Op.AddSocket p so1) ∧ op ≠ Op.Expire s.watchers.length) :
    ∃ t0, (AfterDisconnectedFunc s p).run ops = some t0
      ∧ t0.watchers[s.watchers.length]? = some ⟨p, false⟩
      ∧ s.watchers.length ∉ t0.called
      ∧ (∃ t1 t2, (AfterDisconnectedFunc s p).run (ops ++ [Op.Expire s.watchers.length]) = some t1
          ∧ t1.called = t0.called ++ [s.watchers.length]
          ∧ (AfterDisconnectedFunc s p).run (ops ++ Op.Expire s.watchers.length :: more) = some t2
          ∧ t2.called.count s.watchers.length = 1)
      ∧ ((∀ w ∈ s.watchers, w.steamid = p → w.done = true) →
          (∀ op ∈ ops, op ≠ Op.AfterDisconnectedFunc p) →
          t0.steamIDConnected p = some s.watchers.length
          ∧ ∃ t1 t2, (AfterDisconnectedFunc s p).run (ops ++ [Op.AddSocket p so]) = some t1
            ∧ t1.watchers[s.watchers.length]? = some ⟨p, true⟩
            ∧ t1.steamIDConnected p = none
            ∧ t1.called = t0.called
            ∧ (AfterDisconnectedFunc s p).run (ops ++ Op.AddSocket p so :: more) = some t2
            ∧ s.watchers.length ∉ t2.called) := by
  have hwf : s.WF := by
    obtain ⟨s1, h1, hwf1⟩ := WF_run hist Sessions.empty WF_empty
    rw [hreach] at h1
    cases h1
    exact hwf1
  have hsock : s.steamIDSockets p = none := by
    unfold IsConnected GetSockets at hdisc
    cases h : s.steamIDSockets p with
    | none => rfl
    | some l => rw [h] at hdisc; simp at hdisc
  have hwnew : (AfterDisconnectedFunc s p).watchers[s.watchers.length]? = some ⟨p, false⟩ := by
    unfold AfterDisconnectedFunc
    simp
  obtain ⟨t0, hrun0, hwf0, hsock0, hw0⟩ := run_waits ops (AfterDisconnectedFunc s p)
    (WF_AfterDisconnectedFunc s hwf p) p s.watchers.length hsock hwnew hops
  have hnot0 : s.watchers.length ∉ t0.called := by
    intro hmem
    obtain ⟨q, hq⟩ := hwf0.returned _ hmem
    rw [hw0] at hq
    simp at hq
  have hcount0 : t0.called.count s.watchers.length = 0 := List.count_eq_zero.2 hnot0
  have hsplit : ∀ op, (AfterDisconnectedFunc s p).run (ops ++ op :: more)
      = (t0.step op).bind (fun t1 => t1.run more) := by
    intro op
    rw [run_append, hrun0]
    rfl
  have hone : ∀ op, (AfterDisconnectedFunc s p).run (ops ++ [op]) = t0.step op := by
    intro op
    rw [run_append, hrun0]
    simp only [Option.some_bind, Sessions.run]
    cases t0.step op <;> rfl
  refine ⟨t0, hrun0, hw0, hnot0, ?_, ?_⟩
  · have hconn : IsConnected t0 p = false := by
      unfold IsConnected GetSockets
      rw [hsock0]
    rcases Expire_cases t0 s.watchers.length with ⟨-, hno⟩ | ⟨q, hq, ⟨-, h⟩ | ⟨hyes, -⟩⟩
    · exact absurd hw0 (hno p)
    · have hqp : q = p := by
        rw [hw0] at hq
        simp at hq
        exact hq.symm
      subst hqp
      have hwf1 : (Expire t0 s.watchers.length).WF := WF_Expire t0 hwf0 _
      have hw1 : (Expire t0 s.watchers.length).watchers[s.watchers.length]? = some ⟨q, true⟩ := by
        rw [h, (finish_fields _ _ _).2.2.1]
        exact List.getElem?_set_self (getElem?_lt_of_some _ _ _ hw0)
      obtain ⟨t2, hrun2, hc2⟩ := run_returned more _ hwf1 _ q hw1
      refine ⟨Expire t0 s.watchers.length, t2, by rw [hone]; rfl, by rw [h]; rfl, ?_, ?_⟩
      · rw [hsplit]
        exact hrun2
      · rw [hc2, h, (finish_fields _ _ _).2.1]
        simp [List.count_append, hcount0]
    · have hqp : q = p := by
        rw [hw0] at hq
        simp at hq
        exact hq.symm
      subst hqp
      rw [hconn] at hyes
      exact absurd hyes (by simp)
  · intro hpend harm
    have hops2 : ∀ op ∈ ops, (∀ so1, op ≠ Op.AddSocket p so1) ∧ op ≠ Op.AfterDisconnectedFunc p
        ∧ op ≠ Op.Expire s.watchers.length :=
      fun op hop => ⟨(hops op hop).1, harm op hop, (hops op hop).2⟩
    obtain ⟨t0', hrun0', -, hp0, -⟩ := run_Pending ops (AfterDisconnectedFunc s p)
      (WF_AfterDisconnectedFunc s hwf p) p s.watchers.length
      (AfterDisconnectedFunc_Pending s p hdisc hpend) hops2
    rw [hrun0] at hrun0'
    cases hrun0'
    refine ⟨hp0.registered, ?_⟩
    have hlen : ((t0.steamIDSockets p).getD []).length = 0 := by
      rw [hp0.disconnected]
      rfl
    rcases (AddSocket_cases t0 p so).2 with ⟨-, hno⟩ | ⟨stop, -, hreg, h⟩
    · have := hno hlen
      rw [hp0.registered] at this
      exact absurd this (by simp)
    · have hstop : stop = s.watchers.length := by
        rw [hp0.registered] at hreg
        simp at hreg
        exact hreg.symm
      subst hstop
      rcases signal_cases ({ t0 with steamIDSockets := Function.update t0.steamIDSockets p
                                      (some ((t0.steamIDSockets p).getD [] ++ [some so])) }
          : Sessions) s.watchers.length with ⟨-, hno⟩ | ⟨q, hq, h2⟩
      · exact absurd hp0.waits (hno p)
      · have hqp : q = p := by
          have hq2 : t0.watchers[s.watchers.length]? = some ⟨q, false⟩ := hq
          rw [hp0.waits] at hq2
          simp at hq2
          exact hq2.symm
        subst hqp
        have hwf1 : (AddSocket t0 q so).WF := WF_AddSocket t0 hwf0 q so
        have hw1 : (AddSocket t0 q so).watchers[s.watchers.length]? = some ⟨q, true⟩ := by
          rw [h, h2, (finish_fields _ _ _).2.2.1]
          exact List.getElem?_set_self (getElem?_lt_of_some _ _ _ hp0.waits)
        have hcalled : (AddSocket t0 q so).called = t0.called := by
          rw [h, h2]
          rfl
        obtain ⟨t2, hrun2, hc2⟩ := run_returned more _ hwf1 _ q hw1
        refine ⟨AddSocket t0 q so, t2, by rw [hone]; rfl, hw1, ?_, hcalled, ?_, ?_⟩
        · rw [h, h2, (finish_fields _ _ _).2.2.2]
          exact Function.update_same _ _ _
        · rw [hsplit]
          exact hrun2
        · apply List.count_eq_zero.1
          rw [hc2, hcalled]
          exact hcount0

/-- Claim C12, amended, at a concrete input: `guest` closed the only tab, the
goroutine is started with no other goroutine waiting, and `owner` opens a tab
in the meantime.  With the timer firing next the callback is called once, also
when the timer step is repeated; with `guest` opening `tab-2` next it is not
called, though `guest` closes the tab again and the timer fires.  The two
conditions of the second half hold here and are discharged. -/
theorem disconnect_watcher_witness :
    ((AfterDisconnectedFunc closedTab "guest").run
        [Op.AddSocket "owner" ⟨"tab-9", "owner"⟩, Op.Expire 0,
          Op.RemoveSocket "tab-2" "guest", Op.Expire 0]).map (fun s => s.view "guest")
      = some (none, none, [⟨"guest", true⟩], [0])
    ∧ ((AfterDisconnectedFunc closedTab "guest").run
        [Op.AddSocket "owner" ⟨"tab-9", "owner"⟩, Op.AddSocket "guest" tab2,
          Op.RemoveSocket "tab-2" "guest", Op.Expire 0]).map (fun s => s.view "guest")
      = some (none, none, [⟨"guest", true⟩], [])
    ∧ (∀ w ∈ closedTab.watchers, w.steamid = "guest" → w.done = true)
    ∧ (∀ op ∈ [Op.AddSocket "owner" ⟨"tab-9", "owner"⟩], op ≠ Op.AfterDisconnectedFunc "guest")
    ∧ (Sessions.empty.run openAndClose = some closedTab)
    ∧ (IsConnected closedTab "guest" = false)
    ∧ (∀ op ∈ [Op.AddSocket "owner" ⟨"tab-9", "owner"⟩], (∀ so1, op ≠ Op.AddSocket "guest" so1) ∧ op ≠ Op.Expire closedTab.watchers.length)
    ∧ (∃ t0, (AfterDisconnectedFunc closedTab "guest").run [Op.AddSocket "owner" ⟨"tab-9", "owner"⟩] = some t0
      ∧ t0.watchers[closedTab.watchers.length]? = some ⟨"guest", false⟩
      ∧ closedTab.watchers.length ∉ t0.called
      ∧ (∃ t1 t2, (AfterDisconnectedFunc closedTab "guest").run ([Op.AddSocket "owner" ⟨"tab-9", "owner"⟩] ++ [Op.Expire closedTab.watchers.length]) = some t1
          ∧ t1.called = t0.called ++ [closedTab.watchers.length]
          ∧ (AfterDisconnectedFunc closedTab "guest").run ([Op.AddSocket "owner" ⟨"tab-9", "owner"⟩] ++ Op.Expire closedTab.watchers.length :: [Op.RemoveSocket "tab-2" "guest", Op.Expire 0]) = some t2
          ∧ t2.called.count closedTab.watchers.length = 1)
      ∧ (t0.steamIDConnected "guest" = some closedTab.watchers.length
          ∧ ∃ t1 t2, (AfterDisconnectedFunc closedTab "guest").run ([Op.AddSocket "owner" ⟨"tab-9", "owner"⟩] ++ [Op.AddSocket "guest" tab2]) = some t1
            ∧ t1.watchers[closedTab.watchers.length]? = some ⟨"guest", true⟩
            ∧ t1.steamIDConnected "guest" = none
            ∧ t1.called = t0.called
            ∧ (AfterDisconnectedFunc closedTab "guest").run ([Op.AddSocket "owner" ⟨"tab-9", "owner"⟩] ++ Op.AddSocket "guest" tab2 :: [Op.RemoveSocket "tab-2" "guest", Op.Expire 0]) = some t2
            ∧ closedTab.watchers.length ∉ t2.called)) :=
  ⟨rfl, rfl, by decide, by decide, rfl, rfl, by simp,
    Exists.imp
      (fun _ h => ⟨h.1, h.2.1, h.2.2.1, h.2.2.2.1, h.2.2.2.2 (by decide) (by decide)⟩)
      (disconnect_watcher openAndClose [Op.AddSocket "owner" ⟨"tab-9", "owner"⟩]
        [Op.RemoveSocket "tab-2" "guest", Op.Expire 0] closedTab "guest" tab2 rfl rfl
        (by simp))⟩

/-- Claim C14 fails for the empty room.  The message of
`SendMessageToRoom "" "lobbyReadyUp" "30"` is not broadcast to a room: with no
socket registered under the empty steam id the consumer delivers nothing, and
with one it emits to that socket. -/
theorem broadcaster_empty_room :
    broadcaster (fun _ => none) [some (SendMessageToRoom "" "lobbyReadyUp" "30")] = []
    ∧ broadcaster emptyIdMap [some (SendMessageToRoom "" "lobbyReadyUp" "30")]
      = [Delivery.Emit ⟨"socket-1"⟩ "lobbyReadyUp" "30"] :=
  ⟨rfl, rfl⟩

/-- Claim C14, amended.  A message of `SendMessageToRoom` with a room other than
the empty string is delivered by one `BroadcastTo` of that room, event and
content, and by nothing else; with the empty room it is handled as the message
of `SendMessage` to the empty steam id.  A message of `SendMessage` is emitted,
with its event and content, to the socket registered for the steam id and to
nothing else; with no socket registered nothing is delivered.  In each case the
consumer goes on with the messages that follow. -/
theorem broadcaster_delivery (SteamIdSocketMap : String → Option Socket)
    (room steamid event content : String) (rest : List (Option broadcastMessage)) :
    (room ≠ "" →
      deliver SteamIdSocketMap (SendMessageToRoom room event content)
        = [Delivery.BroadcastTo room event content])
    ∧ deliver SteamIdSocketMap (SendMessageToRoom "" event content)
      = deliver SteamIdSocketMap (SendMessage "" event content)
    ∧ (∀ socket, SteamIdSocketMap steamid = some socket →
      deliver SteamIdSocketMap (SendMessage steamid event content)
        = [Delivery.Emit socket event content])
    ∧ (SteamIdSocketMap steamid = none →
      deliver SteamIdSocketMap (SendMessage steamid event content) = [])
    ∧ (∀ message, broadcaster SteamIdSocketMap (some message :: rest)
      = deliver SteamIdSocketMap message ++ broadcaster SteamIdSocketMap rest) := by
  refine ⟨?_, rfl, ?_, ?_, fun _ => rfl⟩
  · intro h
    simp [deliver, SendMessageToRoom, h]
  · intro socket h
    simp [deliver, SendMessage, h]
  · intro h
    simp [deliver, SendMessage, h]

/-- Claim C15.  The three contexts have the hosts `na.serveme.tf`, `serveme.tf` and
`au.serveme.tf`.  With `c` the continent code that `GetRegion` gives for the
address, `GetServemeContextIP` returns the context `servemeNA`, of host
`na.serveme.tf`, exactly when `c` is "NA" or "SA", the context `servemeAU`, of
host `au.serveme.tf`, exactly when `c` is "OC", and the context `servemeEU`, of
host `serveme.tf`, exactly for every other `c`, so for "AS", "EU" and the empty
code.  The host of the result is one of the three, also for
`GetServemeContext`, which returns the context of host `serveme.tf` when the
host part of the address does not resolve, and looks the resolved address up
otherwise. -/
theorem GetServemeContext_spec (M : Env σ) (ipaddr addrStr : String) :
    (GetServemeContextIP M ipaddr = ServemeContext.servemeNA
        ↔ (M.GetRegion ipaddr).1 = "NA" ∨ (M.GetRegion ipaddr).1 = "SA")
    ∧ (GetServemeContextIP M ipaddr = ServemeContext.servemeAU ↔ (M.GetRegion ipaddr).1 = "OC")
    ∧ (GetServemeContextIP M ipaddr = ServemeContext.servemeEU
        ↔ ((M.GetRegion ipaddr).1 ≠ "NA" ∧ (M.GetRegion ipaddr).1 ≠ "SA"
          ∧ (M.GetRegion ipaddr).1 ≠ "OC"))
    ∧ (GetServemeContextIP M ipaddr).Host ∈ ["na.serveme.tf", "serveme.tf", "au.serveme.tf"]
    ∧ (GetServemeContext M addrStr).Host ∈ ["na.serveme.tf", "serveme.tf", "au.serveme.tf"]
    ∧ (∀ err, M.ResolveIPAddr ((addrStr.splitOn ":").headD "") = Except.error err →
        GetServemeContext M addrStr = ServemeContext.servemeEU)
    ∧ (∀ addr, M.ResolveIPAddr ((addrStr.splitOn ":").headD "") = Except.ok addr →
        GetServemeContext M addrStr = GetServemeContextIP M addr)
    ∧ (ServemeContext.servemeNA.Host = "na.serveme.tf"
      ∧ ServemeContext.servemeEU.Host = "serveme.tf"
      ∧ ServemeContext.servemeAU.Host = "au.serveme.tf")
    ∧ ((GetServemeContextIP M ipaddr).Host = "na.serveme.tf"
        ↔ (M.GetRegion ipaddr).1 = "NA" ∨ (M.GetRegion ipaddr).1 = "SA")
    ∧ ((GetServemeContextIP M ipaddr).Host = "au.serveme.tf" ↔ (M.GetRegion ipaddr).1 = "OC")
    ∧ ((GetServemeContextIP M ipaddr).Host = "serveme.tf"
        ↔ ((M.GetRegion ipaddr).1 ≠ "NA" ∧ (M.GetRegion ipaddr).1 ≠ "SA"
          ∧ (M.GetRegion ipaddr).1 ≠ "OC"))
    ∧ (∀ err, M.ResolveIPAddr ((addrStr.splitOn ":").headD "") = Except.error err →
        (GetServemeContext M addrStr).Host = "serveme.tf") := by
  have hIP : ∀ ip, (GetServemeContextIP M ip = ServemeContext.servemeNA
        ↔ (M.GetRegion ip).1 = "NA" ∨ (M.GetRegion ip).1 = "SA")
      ∧ (GetServemeContextIP M ip = ServemeContext.servemeAU ↔ (M.GetRegion ip).1 = "OC")
      ∧ (GetServemeContextIP M ip = ServemeContext.servemeEU
        ↔ ((M.GetRegion ip).1 ≠ "NA" ∧ (M.GetRegion ip).1 ≠ "SA"
          ∧ (M.GetRegion ip).1 ≠ "OC")) := by
    intro ip
    unfold GetServemeContextIP
    dsimp only
    generalize (M.GetRegion ip).1 = c
    by_cases h1 : c = "NA"
    · subst h1; simp
    · by_cases h2 : c = "SA"
      · subst h2; simp
      · by_cases h3 : c = "AS"
        · subst h3; simp
        · by_cases h4 : c = "EU"
          · subst h4; simp
          · by_cases h5 : c = "OC"
            · subst h5; simp
            · simp [h1, h2, h3, h4, h5]
  have hHost : ∀ c : ServemeContext, c.Host ∈ ["na.serveme.tf", "serveme.tf", "au.serveme.tf"] := by
    intro c; cases c <;> simp [ServemeContext.Host]
  have hNA : ∀ c : ServemeContext, c.Host = "na.serveme.tf" ↔ c = ServemeContext.servemeNA := by
    intro c; cases c <;> simp [ServemeContext.Host]
  have hAU : ∀ c : ServemeContext, c.Host = "au.serveme.tf" ↔ c = ServemeContext.servemeAU := by
    intro c; cases c <;> simp [ServemeContext.Host]
  have hEU : ∀ c : ServemeContext, c.Host = "serveme.tf" ↔ c = ServemeContext.servemeEU := by
    intro c; cases c <;> simp [ServemeContext.Host]
  have herr : ∀ err, M.ResolveIPAddr ((addrStr.splitOn ":").headD "") = Except.error err →
      GetServemeContext M addrStr = ServemeContext.servemeEU := by
    intro err h
    unfold GetServemeContext
    dsimp only
    rw [h]
  refine ⟨(hIP ipaddr).1, (hIP ipaddr).2.1, (hIP ipaddr).2.2, hHost _, hHost _, herr, ?_,
    ⟨rfl, rfl, rfl⟩, (hNA _).trans (hIP ipaddr).1, (hAU _).trans (hIP ipaddr).2.1,
    (hEU _).trans (hIP ipaddr).2.2, ?_⟩
  · intro addr h
    unfold GetServemeContext
    dsimp only
    rw [h]
  · intro err h
    rw [herr err h]
    rfl

/-- Claim C16 fails for the two handlers that lift a restriction.  `admin` did
not create lobby 1 (`owner` did) and is an administrator: both handlers accept
the request, save the lobby with the field emptied and make both broadcasts. -/
theorem restriction_lifted_by_admin :
    (mem.GetPlayer worldRestricted adminSocket) = admin
    ∧ restrictedLobby.CreatedBySteamID = "owner"
    ∧ mem.GetLobbyByID worldRestricted 1 = Except.ok restrictedLobby
    ∧ ((LobbyRemoveTwitchRestriction mem worldRestricted adminSocket 1).1,
        (LobbyRemoveTwitchRestriction mem worldRestricted adminSocket 1).2.trace)
      = (Response.emptySuccess,
          [Event.Save { restrictedLobby with TwitchChannel := "" },
            Event.BroadcastLobby (some { restrictedLobby with TwitchChannel := "" }),
            Event.BroadcastLobbyList])
    ∧ ((LobbyRemoveSteamRestriction mem worldRestricted adminSocket 1).1,
        (LobbyRemoveSteamRestriction mem worldRestricted adminSocket 1).2.trace)
      = (Response.emptySuccess,
          [Event.Save { restrictedLobby with PlayerWhitelist := "" },
            Event.BroadcastLobby (some { restrictedLobby with PlayerWhitelist := "" }),
            Event.BroadcastLobbyList]) :=
  ⟨rfl, rfl, rfl, rfl, rfl⟩

/-- Claim C16, amended.  For a lobby that exists: a requester who is not its
creator gets an error from `LobbyChangeOwner` and from `LobbySetRequirement`,
whatever the role, and from the two handlers that lift a restriction unless the
requester is an administrator or a moderator, whom these two accept; a refused
request makes no call, so nothing is saved or broadcast.  A request that is
accepted has saved the change and has then made `BroadcastLobby` and
`BroadcastLobbyList`: `LobbyChangeOwner` saves the lobby with the new creator
and sends a bot message after the broadcasts, `LobbySetRequirement` saves the
row of the slot with the field named by the type set to the value, the other two
save the lobby with the field emptied.  `LobbyChangeOwner` accepts exactly the
creator naming a player that exists; `LobbySetRequirement` exactly the creator
with a slot in range, one of the three types and a value that converts; the
other two exactly the creator, administrators and moderators. -/
theorem creator_only (M : Env σ) (db : σ) (so : Client) (args : SetRequirementArgs)
    (SteamID : String) (lobby : Lobby)
    (hl : M.GetLobbyByID db args.ID = Except.ok lobby) :
    ((M.GetPlayer db so).SteamID ≠ lobby.CreatedBySteamID →
      LobbyChangeOwner M db so args.ID SteamID
          = (Response.error "You aren\x27t authorized to change lobby owner.", St.init db)
      ∧ LobbySetRequirement M db so args
          = (Response.error "Only lobby owners can change requirements.", St.init db)
      ∧ ((M.GetPlayer db so).Role ≠ RoleAdmin → (M.GetPlayer db so).Role ≠ RoleMod →
        LobbyRemoveTwitchRestriction M db so args.ID
            = (Response.error "You aren\x27t authorized to do this.", St.init db)
        ∧ LobbyRemoveSteamRestriction M db so args.ID
            = (Response.error "You aren\x27t authorized to do this.", St.init db)))
    ∧ (((M.GetPlayer db so).Role = RoleAdmin ∨ (M.GetPlayer db so).Role = RoleMod) →
      (LobbyRemoveTwitchRestriction M db so args.ID).1 = Response.emptySuccess
      ∧ (LobbyRemoveSteamRestriction M db so args.ID).1 = Response.emptySuccess)
    ∧ ((LobbyChangeOwner M db so args.ID SteamID).1 = Response.emptySuccess →
      ∃ player2, M.GetPlayerBySteamID db SteamID = Except.ok player2
        ∧ (LobbyChangeOwner M db so args.ID SteamID).2.trace
          = [Event.Save { lobby with CreatedBySteamID := player2.SteamID },
              Event.BroadcastLobby
                (some (M.Save db { lobby with CreatedBySteamID := player2.SteamID })),
              Event.BroadcastLobbyList,
              Event.BotMessageSend ("Lobby leader changed to "
                ++ M.Alias (run M db
                    [Event.Save { lobby with CreatedBySteamID := player2.SteamID },
                      Event.BroadcastLobby
                        (some (M.Save db { lobby with CreatedBySteamID := player2.SteamID })),
                      Event.BroadcastLobbyList]) player2) (Int.ofNat args.ID)])
    ∧ ((LobbySetRequirement M db so args).1 = Response.emptySuccess →
      (args.Type_ = "hours" →
        (LobbySetRequirement M db so args).2.trace
          = [Event.StoredRequirementSave
                { slotRow M db lobby args with Hours := (M.Int64 args.Value).1 },
              Event.BroadcastLobby (some lobby), Event.BroadcastLobbyList])
      ∧ (args.Type_ = "lobbies" →
        (LobbySetRequirement M db so args).2.trace
          = [Event.StoredRequirementSave
                { slotRow M db lobby args with Lobbies := (M.Int64 args.Value).1 },
              Event.BroadcastLobby (some lobby), Event.BroadcastLobbyList])
      ∧ (args.Type_ = "reliability" →
        (LobbySetRequirement M db so args).2.trace
          = [Event.StoredRequirementSave
                { slotRow M db lobby args with Reliability := (M.Float64 args.Value).1 },
              Event.BroadcastLobby (some lobby), Event.BroadcastLobbyList]))
    ∧ ((LobbyRemoveTwitchRestriction M db so args.ID).1 = Response.emptySuccess →
      (LobbyRemoveTwitchRestriction M db so args.ID).2.trace
        = [Event.Save { lobby with TwitchChannel := "" },
            Event.BroadcastLobby (some (M.Save db { lobby with TwitchChannel := "" })),
            Event.BroadcastLobbyList])
    ∧ ((LobbyRemoveSteamRestriction M db so args.ID).1 = Response.emptySuccess →
      (LobbyRemoveSteamRestriction M db so args.ID).2.trace
        = [Event.Save { lobby with PlayerWhitelist := "" },
            Event.BroadcastLobby (some (M.Save db { lobby with PlayerWhitelist := "" })),
            Event.BroadcastLobbyList])
    ∧ ((LobbyChangeOwner M db so args.ID SteamID).1 = Response.emptySuccess
      ↔ ((M.GetPlayer db so).SteamID = lobby.CreatedBySteamID
        ∧ ∃ player2, M.GetPlayerBySteamID db SteamID = Except.ok player2))
    ∧ ((LobbySetRequirement M db so args).1 = Response.emptySuccess
      ↔ ((M.GetPlayer db so).SteamID = lobby.CreatedBySteamID
        ∧ 0 ≤ args.Slot ∧ args.Slot < 2 * M.NumberOfClassesMap lobby.Type_
        ∧ ((args.Type_ = "hours" ∧ (M.Int64 args.Value).2 = none)
          ∨ (args.Type_ = "lobbies" ∧ (M.Int64 args.Value).2 = none)
          ∨ (args.Type_ = "reliability" ∧ (M.Float64 args.Value).2 = none))))
    ∧ ((LobbyRemoveTwitchRestriction M db so args.ID).1 = Response.emptySuccess
      ↔ ((M.GetPlayer db so).SteamID = lobby.CreatedBySteamID
        ∨ (M.GetPlayer db so).Role = RoleAdmin ∨ (M.GetPlayer db so).Role = RoleMod))
    ∧ ((LobbyRemoveSteamRestriction M db so args.ID).1 = Response.emptySuccess
      ↔ ((M.GetPlayer db so).SteamID = lobby.CreatedBySteamID
        ∨ (M.GetPlayer db so).Role = RoleAdmin ∨ (M.GetPlayer db so).Role = RoleMod)) := by
  have hr := restriction_cases M db so args.ID lobby hl
  have ho := LobbyChangeOwner_cases M db so args.ID SteamID lobby hl
  refine ⟨fun h => ⟨ho.1 h, ?_, fun ha hm => hr.1 ⟨h, ha, hm⟩⟩, ?_, ho.2,
    LobbySetRequirement_row M db so args lobby hl, ?_, ?_,
    LobbyChangeOwner_accepts M db so args.ID SteamID lobby hl,
    LobbySetRequirement_accepts M db so args lobby hl,
    (restriction_accepts M db so args.ID lobby hl).1,
    (restriction_accepts M db so args.ID lobby hl).2⟩
  · unfold LobbySetRequirement
    simp only [St.init_db, hl]
    simp [Ne.symm h]
  · intro hrole
    have hg : ¬ ((M.GetPlayer db so).SteamID ≠ lobby.CreatedBySteamID
        ∧ (M.GetPlayer db so).Role ≠ RoleAdmin ∧ (M.GetPlayer db so).Role ≠ RoleMod) := by
      rintro ⟨-, ha, hm⟩
      rcases hrole with h | h
      · exact ha h
      · exact hm h
    exact ⟨((hr.2 hg).1).1, ((hr.2 hg).2).1⟩
  · intro h
    by_cases hg : (M.GetPlayer db so).SteamID ≠ lobby.CreatedBySteamID
        ∧ (M.GetPlayer db so).Role ≠ RoleAdmin ∧ (M.GetPlayer db so).Role ≠ RoleMod
    · rw [(hr.1 hg).1] at h; simp at h
    · exact ((hr.2 hg).1).2
  · intro h
    by_cases hg : (M.GetPlayer db so).SteamID ≠ lobby.CreatedBySteamID
        ∧ (M.GetPlayer db so).Role ≠ RoleAdmin ∧ (M.GetPlayer db so).Role ≠ RoleMod
    · rw [(hr.1 hg).2] at h; simp at h
    · exact ((hr.2 hg).2).2

/-- Claim C16, amended, at a concrete input: `guest` asks for changes to lobby 1
of `owner` and is refused by the four handlers; `owner` is accepted by all
four. -/
theorem creator_only_witness :
    (LobbyChangeOwner mem worldRestricted guestSocket 1 "guest").2.trace = []
    ∧ (LobbyRemoveTwitchRestriction mem worldRestricted guestSocket 1).2.trace = []
    ∧ (LobbySetRequirement mem worldRestricted ownerSocket slotZero).2.trace
      = [Event.StoredRequirementSave ⟨1, 0, 10, 0, 0⟩,
          Event.BroadcastLobby (some restrictedLobby), Event.BroadcastLobbyList]
    ∧ (LobbyChangeOwner mem worldRestricted ownerSocket 1 "guest").1 = Response.emptySuccess
    ∧ (LobbyRemoveTwitchRestriction mem worldRestricted ownerSocket 1).1 = Response.emptySuccess
    ∧ (LobbyRemoveSteamRestriction mem worldRestricted ownerSocket 1).2.trace
      = [Event.Save { restrictedLobby with PlayerWhitelist := "" },
          Event.BroadcastLobby (some { restrictedLobby with PlayerWhitelist := "" }),
          Event.BroadcastLobbyList]
    ∧ (mem.GetLobbyByID worldRestricted slotZero.ID = Except.ok restrictedLobby)
    ∧ (((mem.GetPlayer worldRestricted guestSocket).SteamID ≠ restrictedLobby.CreatedBySteamID →
      LobbyChangeOwner mem worldRestricted guestSocket slotZero.ID "guest"
          = (Response.error "You aren\x27t authorized to change lobby owner.", St.init worldRestricted)
      ∧ LobbySetRequirement mem worldRestricted guestSocket slotZero
          = (Response.error "Only lobby owners can change requirements.", St.init worldRestricted)
      ∧ ((mem.GetPlayer worldRestricted guestSocket).Role ≠ RoleAdmin → (mem.GetPlayer worldRestricted guestSocket).Role ≠ RoleMod →
        LobbyRemoveTwitchRestriction mem worldRestricted guestSocket slotZero.ID
            = (Response.error "You aren\x27t authorized to do this.", St.init worldRestricted)
        ∧ LobbyRemoveSteamRestriction mem worldRestricted guestSocket slotZero.ID
            = (Response.error "You aren\x27t authorized to do this.", St.init worldRestricted)))
    ∧ (((mem.GetPlayer worldRestricted guestSocket).Role = RoleAdmin ∨ (mem.GetPlayer worldRestricted guestSocket).Role = RoleMod) →
      (LobbyRemoveTwitchRestriction mem worldRestricted guestSocket slotZero.ID).1 = Response.emptySuccess
      ∧ (LobbyRemoveSteamRestriction mem worldRestricted guestSocket slotZero.ID).1 = Response.emptySuccess)
    ∧ ((LobbyChangeOwner mem worldRestricted guestSocket slotZero.ID "guest").1 = Response.emptySuccess →
      ∃ player2, mem.GetPlayerBySteamID worldRestricted "guest" = Except.ok player2
        ∧ (LobbyChangeOwner mem worldRestricted guestSocket slotZero.ID "guest").2.trace
          = [Event.Save { restrictedLobby with CreatedBySteamID := player2.SteamID },
              Event.BroadcastLobby
                (some (mem.Save worldRestricted { restrictedLobby with CreatedBySteamID := player2.SteamID })),
              Event.BroadcastLobbyList,
              Event.BotMessageSend ("Lobby leader changed to "
                ++ mem.Alias (run mem worldRestricted
                    [Event.Save { restrictedLobby with CreatedBySteamID := player2.SteamID },
                      Event.BroadcastLobby
                        (some (mem.Save worldRestricted { restrictedLobby with CreatedBySteamID := player2.SteamID })),
                      Event.BroadcastLobbyList]) player2) (Int.ofNat slotZero.ID)])
    ∧ ((LobbySetRequirement mem worldRestricted guestSocket slotZero).1 = Response.emptySuccess →
      (slotZero.Type_ = "hours" →
        (LobbySetRequirement mem worldRestricted guestSocket slotZero).2.trace
          = [Event.StoredRequirementSave
                { slotRow mem worldRestricted restrictedLobby slotZero with Hours := (mem.Int64 slotZero.Value).1 },
              Event.BroadcastLobby (some restrictedLobby), Event.BroadcastLobbyList])
      ∧ (slotZero.Type_ = "lobbies" →
        (LobbySetRequirement mem worldRestricted guestSocket slotZero).2.trace
          = [Event.StoredRequirementSave
                { slotRow mem worldRestricted restrictedLobby slotZero with Lobbies := (mem.Int64 slotZero.Value).1 },
              Event.BroadcastLobby (some restrictedLobby), Event.BroadcastLobbyList])
      ∧ (slotZero.Type_ = "reliability" →
        (LobbySetRequirement mem worldRestricted guestSocket slotZero).2.trace
          = [Event.StoredRequirementSave
                { slotRow mem worldRestricted restrictedLobby slotZero with Reliability := (mem.Float64 slotZero.Value).1 },
              Event.BroadcastLobby (some restrictedLobby), Event.BroadcastLobbyList]))
    ∧ ((LobbyRemoveTwitchRestriction mem worldRestricted guestSocket slotZero.ID).1 = Response.emptySuccess →
      (LobbyRemoveTwitchRestriction mem worldRestricted guestSocket slotZero.ID).2.trace
        = [Event.Save { restrictedLobby with TwitchChannel := "" },
            Event.BroadcastLobby (some (mem.Save worldRestricted { restrictedLobby with TwitchChannel := "" })),
            Event.BroadcastLobbyList])
    ∧ ((LobbyRemoveSteamRestriction mem worldRestricted guestSocket slotZero.ID).1 = Response.emptySuccess →
      (LobbyRemoveSteamRestriction mem worldRestricted guestSocket slotZero.ID).2.trace
        = [Event.Save { restrictedLobby with PlayerWhitelist := "" },
            Event.BroadcastLobby (some (mem.Save worldRestricted { restrictedLobby with PlayerWhitelist := "" })),
            Event.BroadcastLobbyList])
    ∧ ((LobbyChangeOwner mem worldRestricted guestSocket slotZero.ID "guest").1 = Response.emptySuccess
      ↔ ((mem.GetPlayer worldRestricted guestSocket).SteamID = restrictedLobby.CreatedBySteamID
        ∧ ∃ player2, mem.GetPlayerBySteamID worldRestricted "guest" = Except.ok player2))
    ∧ ((LobbySetRequirement mem worldRestricted guestSocket slotZero).1 = Response.emptySuccess
      ↔ ((mem.GetPlayer worldRestricted guestSocket).SteamID = restrictedLobby.CreatedBySteamID
        ∧ 0 ≤ slotZero.Slot ∧ slotZero.Slot < 2 * mem.NumberOfClassesMap restrictedLobby.Type_
        ∧ ((slotZero.Type_ = "hours" ∧ (mem.Int64 slotZero.Value).2 = none)
          ∨ (slotZero.Type_ = "lobbies" ∧ (mem.Int64 slotZero.Value).2 = none)
          ∨ (slotZero.Type_ = "reliability" ∧ (mem.Float64 slotZero.Value).2 = none))))
    ∧ ((LobbyRemoveTwitchRestriction mem worldRestricted guestSocket slotZero.ID).1 = Response.emptySuccess
      ↔ ((mem.GetPlayer worldRestricted guestSocket).SteamID = restrictedLobby.CreatedBySteamID
        ∨ (mem.GetPlayer worldRestricted guestSocket).Role = RoleAdmin ∨ (mem.GetPlayer worldRestricted guestSocket).Role = RoleMod))
    ∧ ((LobbyRemoveSteamRestriction mem worldRestricted guestSocket slotZero.ID).1 = Response.emptySuccess
      ↔ ((mem.GetPlayer worldRestricted guestSocket).SteamID = restrictedLobby.CreatedBySteamID
        ∨ (mem.GetPlayer worldRestricted guestSocket).Role = RoleAdmin ∨ (mem.GetPlayer worldRestricted guestSocket).Role = RoleMod))) :=
  ⟨rfl, rfl, rfl, rfl, rfl, rfl, rfl,
    creator_only mem worldRestricted guestSocket slotZero "guest" restrictedLobby (rfl)⟩

/-- Claim C17 fails in the code.  Let `LobbyJoin` reach `AddPlayer` (no ban, the
lobby exists and is neither ended nor initializing, the slot exists) and let
`AddPlayer` return the error `e`.  The handler returns `e` after the calls of
the leave hook, if any, and of `AddPlayer`, and after no other call: no join
hook, no save.  When the player sits in another lobby the leave hook for that
lobby has been called, before `AddPlayer` refused; without a previous lobby, or
in the same lobby, `AddPlayer` is the only call. -/
theorem LobbyJoin_rejected (M : Env σ) (db : σ) (so : Client) (a : JoinArgs) (lob : Lobby)
    (slot : Int) (e : String)
    (hban : banned M db (M.GetPlayer db so) PlayerBanJoin = false)
    (hl : M.GetLobbyByID db a.Id = Except.ok lob)
    (hm : ¬ (lob.Mumble = true ∧ banned M db (M.GetPlayer db so) PlayerBanJoinMumble = true))
    (hs : lob.State ≠ LobbyStateEnded ∧ lob.State ≠ LobbyStateInitializing)
    (hslot : M.LobbyGetPlayerSlot lob.Type_ a.Team a.Class = Except.ok slot)
    (hadd : M.AddPlayer (leavePrevious M (St.init db) (M.GetPlayer db so) a.Id).db lob
      (M.GetPlayer db so) slot a.Password = some e) :
    LobbyJoin M db so a
      = (Response.error e,
          (leavePrevious M (St.init db) (M.GetPlayer db so) a.Id).call M
            (Event.AddPlayer lob (M.GetPlayer db so) slot a.Password))
    ∧ (((M.GetLobbyID db (M.GetPlayer db so) false).1 ≠ 0
          ∧ sameLobby M db (M.GetPlayer db so) a.Id = false) →
        (LobbyJoin M db so a).2.trace
          = [Event.AfterLobbyLeave
                (M.GetLobbyByID db (M.GetLobbyID db (M.GetPlayer db so) false).1).toOption
                (M.GetPlayer db so),
              Event.AddPlayer lob (M.GetPlayer db so) slot a.Password])
    ∧ (¬ ((M.GetLobbyID db (M.GetPlayer db so) false).1 ≠ 0
          ∧ sameLobby M db (M.GetPlayer db so) a.Id = false) →
        (LobbyJoin M db so a).2.trace
          = [Event.AddPlayer lob (M.GetPlayer db so) slot a.Password]) := by
  have key : LobbyJoin M db so a
      = (Response.error e,
          (leavePrevious M (St.init db) (M.GetPlayer db so) a.Id).call M
            (Event.AddPlayer lob (M.GetPlayer db so) slot a.Password)) := by
    unfold LobbyJoin
    dsimp only
    simp [hban, hl, hm, hs.1, hs.2, hslot, hadd]
  refine ⟨key, ?_, ?_⟩
  · intro h
    rw [key]
    simp [leavePrevious, h, St.call, St.init]
  · intro h
    rw [key]
    simp only [leavePrevious, St.init_db, if_neg h]
    simp [St.call, St.init]

/-- Claim C17, the failing input: `guest`, who holds red scout of lobby 2, asks for
red scout of lobby 1, which `owner` holds; the leave hook for lobby 2 is called
and the join is refused. -/
theorem LobbyJoin_rejected_witness :
    LobbyJoin mem world0 guestSocket joinRed
      = (Response.error "This slot has been filled.",
          ⟨world0, [Event.AfterLobbyLeave (some (debugLobby 2 LobbyStateWaiting)) guest,
            Event.AddPlayer (debugLobby 1 LobbyStateWaiting) guest 0 ""]⟩)
    ∧ (banned mem world0 (mem.GetPlayer world0 guestSocket) PlayerBanJoin = false)
    ∧ (mem.GetLobbyByID world0 joinRed.Id = Except.ok (debugLobby 1 LobbyStateWaiting))
    ∧ (¬ ((debugLobby 1 LobbyStateWaiting).Mumble = true ∧ banned mem world0 (mem.GetPlayer world0 guestSocket) PlayerBanJoinMumble = true))
    ∧ ((debugLobby 1 LobbyStateWaiting).State ≠ LobbyStateEnded ∧ (debugLobby 1 LobbyStateWaiting).State ≠ LobbyStateInitializing)
    ∧ (mem.LobbyGetPlayerSlot (debugLobby 1 LobbyStateWaiting).Type_ joinRed.Team joinRed.Class = Except.ok 0)
    ∧ (mem.AddPlayer (leavePrevious mem (St.init world0) (mem.GetPlayer world0 guestSocket) joinRed.Id).db (debugLobby 1 LobbyStateWaiting) (mem.GetPlayer world0 guestSocket) 0 joinRed.Password = some "This slot has been filled.")
    ∧ (LobbyJoin mem world0 guestSocket joinRed
      = (Response.error "This slot has been filled.",
          (leavePrevious mem (St.init world0) (mem.GetPlayer world0 guestSocket) joinRed.Id).call mem
            (Event.AddPlayer (debugLobby 1 LobbyStateWaiting) (mem.GetPlayer world0 guestSocket) 0 joinRed.Password))
    ∧ (((mem.GetLobbyID world0 (mem.GetPlayer world0 guestSocket) false).1 ≠ 0
          ∧ sameLobby mem world0 (mem.GetPlayer world0 guestSocket) joinRed.Id = false) →
        (LobbyJoin mem world0 guestSocket joinRed).2.trace
          = [Event.AfterLobbyLeave
                (mem.GetLobbyByID world0 (mem.GetLobbyID world0 (mem.GetPlayer world0 guestSocket) false).1).toOption
                (mem.GetPlayer world0 guestSocket),
              Event.AddPlayer (debugLobby 1 LobbyStateWaiting) (mem.GetPlayer world0 guestSocket) 0 joinRed.Password])
    ∧ (¬ ((mem.GetLobbyID world0 (mem.GetPlayer world0 guestSocket) false).1 ≠ 0
          ∧ sameLobby mem world0 (mem.GetPlayer world0 guestSocket) joinRed.Id = false) →
        (LobbyJoin mem world0 guestSocket joinRed).2.trace
          = [Event.AddPlayer (debugLobby 1 LobbyStateWaiting) (mem.GetPlayer world0 guestSocket) 0 joinRed.Password])) :=
  ⟨rfl, rfl, rfl, by decide, by decide, rfl, rfl,
    LobbyJoin_rejected mem world0 guestSocket joinRed (debugLobby 1 LobbyStateWaiting) 0 "This slot has been filled." (rfl) (rfl) (by decide) (by decide) (rfl) (rfl)⟩

/-- Claim C18 fails in the code.  When the lookup of the lobby fails,
`LobbyServerReset` reads `CreatedBySteamID` of the nil lobby before it looks at
the lookup error: the handler panics, for every requester, and does not return
the lookup error; no call is made. -/
theorem LobbyServerReset_unknown (M : Env σ) (db : σ) (so : Client) (ID : Nat) (tperr : String)
    (hl : M.GetLobbyByID db ID = Except.error tperr) :
    LobbyServerReset M db so ID = (Response.panic, St.init db)
    ∧ (LobbyServerReset M db so ID).1 ≠ Response.error tperr := by
  unfold LobbyServerReset
  simp [hl]

/-- Claim C18, the failing input: `owner` asks to reset lobby 7, which does not
exist. -/
theorem LobbyServerReset_unknown_witness :
    (mem.GetLobbyByID world0 7 = Except.error "Lobby does not exist.")
    ∧ (LobbyServerReset mem world0 ownerSocket 7 = (Response.panic, St.init world0)
    ∧ (LobbyServerReset mem world0 ownerSocket 7).1 ≠ Response.error "Lobby does not exist.") :=
  ⟨rfl,
    LobbyServerReset_unknown mem world0 ownerSocket 7 "Lobby does not exist." (rfl)⟩

/-- Claim C19 fails in the code.  For the creator of a lobby that exists,
`LobbySetRequirement` with slot -1 returns "Invalid slot." and makes no call,
so no requirement is set, although the argument is documented as "-1 if to set
for all slots".  A request that is accepted has a slot in
`[0, 2 × classCount)` and has saved one requirement row, then made both
broadcasts; a row that did not exist is made for the slot asked for. -/
theorem LobbySetRequirement_all (M : Env σ) (db : σ) (so : Client) (args : SetRequirementArgs)
    (lobby : Lobby) (hl : M.GetLobbyByID db args.ID = Except.ok lobby)
    (hc : lobby.CreatedBySteamID = (M.GetPlayer db so).SteamID) :
    (args.Slot = -1 →
      LobbySetRequirement M db so args = (Response.error "Invalid slot.", St.init db))
    ∧ ((LobbySetRequirement M db so args).1 = Response.emptySuccess →
      0 ≤ args.Slot ∧ args.Slot < 2 * M.NumberOfClassesMap lobby.Type_
      ∧ ∃ req, (LobbySetRequirement M db so args).2.trace
          = [Event.StoredRequirementSave req, Event.BroadcastLobby (some lobby),
              Event.BroadcastLobbyList]
        ∧ ((M.GetSlotRequirement db lobby args.Slot).2 ≠ none →
            req.Slot = args.Slot ∧ req.LobbyID = args.ID)) := by
  constructor
  · intro h
    unfold LobbySetRequirement
    simp only [St.init_db, hl]
    simp [hc, h]
  · intro h
    exact (LobbySetRequirement_accepted M db so args lobby hl h).2

/-- Claim C19, the failing input: `owner` asks for ten hours on all slots of
lobby 1, with slot -1, and is refused; with slot 0 one row is saved. -/
theorem LobbySetRequirement_all_witness :
    LobbySetRequirement mem world0 ownerSocket allSlots
      = (Response.error "Invalid slot.", St.init world0)
    ∧ (LobbySetRequirement mem world0 ownerSocket slotZero).2.trace
      = [Event.StoredRequirementSave ⟨1, 0, 10, 0, 0⟩,
          Event.BroadcastLobby (some (debugLobby 1 LobbyStateWaiting)),
          Event.BroadcastLobbyList]
    ∧ (mem.GetLobbyByID world0 allSlots.ID = Except.ok (debugLobby 1 LobbyStateWaiting))
    ∧ ((debugLobby 1 LobbyStateWaiting).CreatedBySteamID = (mem.GetPlayer world0 ownerSocket).SteamID)
    ∧ ((allSlots.Slot = -1 →
      LobbySetRequirement mem world0 ownerSocket allSlots = (Response.error "Invalid slot.", St.init world0))
    ∧ ((LobbySetRequirement mem world0 ownerSocket allSlots).1 = Response.emptySuccess →
      0 ≤ allSlots.Slot ∧ allSlots.Slot < 2 * mem.NumberOfClassesMap (debugLobby 1 LobbyStateWaiting).Type_
      ∧ ∃ req, (LobbySetRequirement mem world0 ownerSocket allSlots).2.trace
          = [Event.StoredRequirementSave req, Event.BroadcastLobby (some (debugLobby 1 LobbyStateWaiting)),
              Event.BroadcastLobbyList]
        ∧ ((mem.GetSlotRequirement world0 (debugLobby 1 LobbyStateWaiting) allSlots.Slot).2 ≠ none →
            req.Slot = allSlots.Slot ∧ req.LobbyID = allSlots.ID))) :=
  ⟨rfl, rfl, rfl, rfl,
    LobbySetRequirement_all mem world0 ownerSocket allSlots (debugLobby 1 LobbyStateWaiting) (rfl) (rfl)⟩

/-- Claim C20.  From the empty registry every finite list of steps runs without
panic to a state in which no key maps to an empty slice and no slice holds nil;
there a player is connected exactly when the count of their sockets is
positive, and the sockets of a player are, by session id and as a multiset,
those added for the player and not yet removed, so that the count is their
number. -/
theorem registry_invariant (ops : List Op) :
    ∃ s, Sessions.empty.run ops = some s
      ∧ (∀ p, s.steamIDSockets p ≠ some [])
      ∧ (∀ p sockets, s.steamIDSockets p = some sockets → none ∉ sockets)
      ∧ (∀ p, IsConnected s p = true ↔ 0 < ConnectedSockets s p)
      ∧ (∀ p, (sessionIDs (GetSockets s p).1).Perm (live p ops))
      ∧ (∀ p, ConnectedSockets s p = (live p ops).length) := by
  obtain ⟨s, hrun, hwf, ht⟩ := run_tracks ops Sessions.empty WF_empty (fun _ => [])
    (fun p => by simp [Sessions.empty, sessionIDs])
  have hget : ∀ p, (GetSockets s p).1 = (s.steamIDSockets p).getD [] := by
    intro p
    unfold GetSockets
    cases s.steamIDSockets p <;> rfl
  refine ⟨s, hrun, hwf.nonEmpty, ?_, ?_, ?_, ?_⟩
  · intro p sockets hp hmem
    exact hwf.noNil p sockets hp none hmem rfl
  · intro p
    unfold IsConnected GetSockets ConnectedSockets
    cases hp : s.steamIDSockets p with
    | none => simp
    | some l =>
      have hne : l ≠ [] := fun h => hwf.nonEmpty p (by rw [hp, h])
      simpa using List.length_pos.2 hne
  · intro p
    rw [hget]
    exact ht p
  · intro p
    unfold ConnectedSockets
    unfold live
    rw [← (ht p).length_eq]
    refine (sessionIDs_length _ ?_).symm
    intro x hx
    cases hp : s.steamIDSockets p with
    | none => rw [hp] at hx; simp at hx
    | some l => rw [hp] at hx; exact hwf.noNil p l hp x hx

end Helen
